import Mathlib

/-!
# MediaPipelineFactory: transport flows, conduits and pipelines

A shallow embedding of
`media/webrtc/signaling/src/peerconnection/MediaPipelineFactory.cpp`.

Every C++ member function becomes a Lean function that threads the state of
`PeerConnectionMedia` (the two registries, the stream buckets, the queue of the
STS thread) explicitly.  Calls into collaborators whose code is outside the
translated file (DTLS layer, conduits, pipelines, the STS thread) are answered by
the fields of `Env`; every such call is appended to `PeerConnectionMedia.calls`
so that "was this called, with what, how often" can be stated.

`MOZ_CRASH()` ends a run with `Outcome.crashed`.  The debug-only assertions
(`MOZ_ASSERT`, `MOZ_ASSERT_IF`, `PR_ASSERT`) are compiled out, as in a release
build.  Objects created with `new` or `Create` get the next unused address of
the state, which serves as their identity.
-/

namespace mozilla

/-! ## Result codes -/

/-- An `nsresult` is a 32-bit unsigned value. -/
abbrev nsresult := Nat

def NS_OK : nsresult := 0

/-- Value of `NS_ERROR_FAILURE` in `nsError.h` (0x80004005). -/
def NS_ERROR_FAILURE : nsresult := 0x80004005

/-- Value of `NS_ERROR_INVALID_ARG` in `nsError.h` (0x80070057). -/
def NS_ERROR_INVALID_ARG : nsresult := 0x80070057

/-- The macro `NS_FAILED(rv)`: the severity bit (bit 31) is set. -/
def NS_FAILED (rv : nsresult) : Bool := decide (rv / 2 ^ 31 % 2 = 1)

/-- A `MediaConduitErrorCode`, returned as `int`; zero is `kMediaConduitNoError`. -/
abbrev MediaConduitErrorCode := Nat

def kMediaConduitNoError : MediaConduitErrorCode := 0

/-- Value of `kMediaConduitInvalidSendCodec` in `MediaConduitErrors.h`. -/
def kMediaConduitInvalidSendCodec : MediaConduitErrorCode := 10103

/-- Value of `kMediaConduitInvalidReceiveCodec` in `MediaConduitErrors.h`. -/
def kMediaConduitInvalidReceiveCodec : MediaConduitErrorCode := 10104

/-- Word size of `size_t` arithmetic. -/
def SIZE_T_MOD : Nat := 2 ^ 64

/-! ## Negotiated session description (read only) -/

/-- The enumeration `SdpMediaSection::MediaType`. -/
inductive MediaType where
  | kAudio
  | kVideo
  | kText
  | kApplication
  | kMessage
  deriving DecidableEq, Repr

/-- The enumeration `JsepTrack::Direction`. -/
inductive Direction where
  | kJsepTrackSending
  | kJsepTrackReceiving
  deriving DecidableEq, Repr

/-- A `JsepCodecDescription` together with the fields of its audio subclass that
the translator reads after the checked downcast. -/
structure JsepCodecDescription where
  mType : MediaType
  mDefaultPt : Nat
  mName : String
  mClock : Nat
  mPacketSize : Nat
  mChannels : Nat
  mBitrate : Nat
  deriving DecidableEq, Repr

/-- The enumeration `JsepDtlsTransport::Role`. -/
inductive JsepDtlsRole where
  | kJsepDtlsClient
  | kJsepDtlsServer
  | kJsepDtlsInvalidRole
  deriving DecidableEq, Repr

/-- One entry of `SdpFingerprintAttributeList`; `hashFunc` is what streaming the
hash algorithm into the `ostringstream` yields. -/
structure SdpFingerprint where
  hashFunc : String
  fingerprint : String
  deriving DecidableEq, Repr

structure JsepDtlsTransport where
  role : JsepDtlsRole
  fingerprints : List SdpFingerprint
  deriving DecidableEq, Repr

structure JsepTransport where
  mDtls : JsepDtlsTransport
  deriving DecidableEq, Repr

structure JsepTrackPair where
  mLevel : Nat
  mRtpTransport : JsepTransport
  mRtcpTransport : Option JsepTransport
  deriving DecidableEq, Repr

/-- Modelled from the spec: `JsepTrack` (declared in `JsepTrack.h`, not part of
the translated file) exposes the media type, the direction and "an ordered
codec-description list". -/
structure JsepTrack where
  media_type : MediaType
  direction : Direction
  codecs : List JsepCodecDescription
  deriving DecidableEq, Repr

/-- Modelled from the spec: `JsepTrack::num_codecs`, the length of the ordered
codec list. -/
def JsepTrack.num_codecs (track : JsepTrack) : Nat := track.codecs.length

/-- Modelled from the spec: `JsepTrack::get_codec(i, &cdesc)` yields entry `i`
of the ordered codec list (`Except.ok d`: returns `NS_OK` and stores `d`
through `cdesc`), and an error result when there is none. -/
def JsepTrack.get_codec (track : JsepTrack) (i : Nat) :
    Except nsresult JsepCodecDescription :=
  match track.codecs.get? i with
  | some d => Except.ok d
  | none => Except.error NS_ERROR_INVALID_ARG

/-! ## Pipeline-level codec configuration records -/

/-- Modelled from the spec: an `AudioCodecConfig` (declared in `CodecConfig.h`,
not part of the translated file) holds "payload type, name, clock rate, packet
size, channel count, bitrate"; the fields are in the order of the constructor
arguments. -/
structure AudioCodecConfig where
  mType : Nat
  mName : String
  mFreq : Nat
  mPacSize : Nat
  mChannels : Nat
  mRate : Nat
  deriving DecidableEq, Repr

/-- Modelled from the spec: a `VideoCodecConfig` (declared in `CodecConfig.h`,
not part of the translated file) holds payload type and name, the feedback
types, the maximal frame size and frame rate; `mH264` is the codec-specific
pointer (`none` is `nullptr`).  The fields are in the order of the constructor
arguments. -/
structure VideoCodecConfig where
  mType : Nat
  mName : String
  mRtcpFbTypes : Nat
  mMaxFrameSize : Nat
  mMaxFrameRate : Nat
  mH264 : Option Nat
  deriving DecidableEq, Repr

/-- The audio overload of `JsepCodecDescToCodecConfig`.  `Except.error rv` is
"returns `rv`, `*config` is not written"; `Except.ok c` is "returns `NS_OK`
after storing the new config `c` through `config`". -/
def JsepCodecDescToCodecConfigAudio (d : JsepCodecDescription) :
    Except nsresult AudioCodecConfig :=
  if d.mType ≠ MediaType.kAudio then
    Except.error NS_ERROR_INVALID_ARG
  else
    Except.ok
      { mType := d.mDefaultPt
        mName := d.mName
        mFreq := d.mClock
        mPacSize := d.mPacketSize
        mChannels := d.mChannels
        mRate := d.mBitrate }

/-- The video overload of `JsepCodecDescToCodecConfig`, with the same reading
of the result as the audio overload. -/
def JsepCodecDescToCodecConfigVideo (d : JsepCodecDescription) :
    Except nsresult VideoCodecConfig :=
  if d.mType ≠ MediaType.kVideo then
    Except.error NS_ERROR_INVALID_ARG
  else
    Except.ok
      { mType := d.mDefaultPt
        mName := d.mName
        mRtcpFbTypes := 0
        mMaxFrameSize := 0
        mMaxFrameRate := 0
        mH264 := none }

/-! ## Transport layers and flows -/

/-- The enumeration `TransportLayerDtls::Role`. -/
inductive DtlsRole where
  | CLIENT
  | SERVER
  deriving DecidableEq, Repr

/-- A `DtlsIdentity` object, known by its address. -/
structure DtlsIdentity where
  addr : Nat
  deriving DecidableEq, Repr

/-- A `TransportLayerIce`: the name it was constructed with and the parameters
`SetParameters` gave it (ICE context, ICE media stream of the level,
component). -/
structure TransportLayerIce where
  name : String
  params : Option (Nat × Nat × Nat)
  deriving DecidableEq, Repr

/-- A `TransportLayerDtls` as the factory configures it. -/
structure TransportLayerDtls where
  role : Option DtlsRole
  identity : Option DtlsIdentity
  digests : List (String × List Nat)
  srtp_ciphers : List Nat
  deriving DecidableEq, Repr

inductive TransportLayer where
  | ice (l : TransportLayerIce)
  | dtls (l : TransportLayerDtls)
  deriving DecidableEq, Repr

/-- A `TransportFlow` instance: `addr` is the identity of the object, `id` the
diagnostic name given to the constructor. -/
structure TransportFlow where
  addr : Nat
  id : String
  deriving DecidableEq, Repr

/-- The bound arguments of one `FinalizeTransportFlow` runnable. -/
structure FinalizeTask where
  flow : TransportFlow
  level : Nat
  rtcp : Bool
  layers : List TransportLayer
  deriving DecidableEq, Repr

def SRTP_AES128_CM_HMAC_SHA1_80 : Nat := 1

def SRTP_AES128_CM_HMAC_SHA1_32 : Nat := 2

/-! ## Conduits and pipelines -/

/-- The enumeration `MediaSessionConduit::Type`. -/
inductive ConduitType where
  | AUDIO
  | VIDEO
  deriving DecidableEq, Repr

/-- A conduit instance: its address, its type and the address of the conduit
that was handed to `Create` as the other side (`none` is `nullptr`). -/
structure MediaSessionConduit where
  addr : Nat
  type : ConduitType
  other : Option Nat
  deriving DecidableEq, Repr

inductive PipelineKind where
  | ReceiveAudio
  | ReceiveVideo
  | Transmit
  deriving DecidableEq, Repr

/-- A `MediaPipeline` object with the constructor arguments the factory
supplies. -/
structure MediaPipeline where
  addr : Nat
  kind : PipelineKind
  track_id : Nat
  level : Nat
  conduit : Option MediaSessionConduit
  rtp_flow : Option TransportFlow
  rtcp_flow : Option TransportFlow
  bundle_rtp_flow : Option TransportFlow
  bundle_rtcp_flow : Option TransportFlow
  filter : Option Nat
  deriving DecidableEq, Repr

/-- Calls made by the factory on its collaborators, in program order. -/
inductive Call where
  | GetTransportFlow (level : Nat) (rtcp : Bool)
  | NewTransportFlow (flow : TransportFlow)
  | NewTransportLayerIce (name : String)
  | NewTransportLayerDtls
  | Dispatch (task : FinalizeTask)
  | AddTransportFlow (level : Nat) (rtcp : Bool) (flow : TransportFlow)
  | GetConduit (level : Nat) (receive : Bool)
  | AudioSessionConduitCreate (other : Option MediaSessionConduit)
  | VideoSessionConduitCreate (other : Option MediaSessionConduit)
  | AddConduit (level : Nat) (receive : Bool) (conduit : MediaSessionConduit)
  | AudioConfigureRecvMediaCodecs (conduit : Nat) (configs : List AudioCodecConfig)
  | AudioConfigureSendMediaCodec (conduit : Nat) (config : AudioCodecConfig)
  | VideoConfigureRecvMediaCodecs (conduit : Nat) (configs : List VideoCodecConfig)
  | VideoConfigureSendMediaCodec (conduit : Nat) (config : VideoCodecConfig)
  | CreateEncoder
  | CreateDecoder
  | SetExternalSendCodec (conduit : Nat) (config : VideoCodecConfig)
  | SetExternalRecvCodec (conduit : Nat) (config : VideoCodecConfig)
  | GetRemoteStream (index : Nat)
  | GetLocalStream (index : Nat)
  | NewPipeline (pipeline : MediaPipeline)
  | UpdateSinkIdentity_m (pipeline : Nat) (principal : Nat) (peerIdentity : Option Nat)
  | Init (pipeline : Nat)
  | StorePipeline (remote : Bool) (track : Nat) (pipeline : MediaPipeline)
  deriving DecidableEq, Repr

/-- Modelled from the spec: a stream bucket (`LocalSourceStreamInfo` /
`RemoteSourceStreamInfo`, neither part of the translated file) keeps its
pipelines "in per-track-id slots". -/
structure SourceStreamInfo where
  mediaStream : Nat
  mPipelines : List (Nat × MediaPipeline)
  deriving DecidableEq, Repr

/-- Modelled from the spec: the state of `PeerConnectionMedia` (declared in
`PeerConnectionMedia.h`, not part of the translated file): the transport-flow
registry "keyed by (level, rtcp-flag)", the conduit registry "keyed by
(level, direction)", the local and remote stream buckets and the runnables
queued on the STS thread.  `nextAddr` is the next unused object address and
`calls` the trace of collaborator calls. -/
structure PeerConnectionMedia where
  mTransportFlows : List ((Nat × Bool) × TransportFlow)
  mConduits : List ((Nat × Bool) × MediaSessionConduit)
  mLocalSourceStreams : List SourceStreamInfo
  mRemoteSourceStreams : List SourceStreamInfo
  stsQueue : List FinalizeTask
  flowLayers : List (Nat × List TransportLayer)
  nextAddr : Nat
  calls : List Call
  deriving DecidableEq, Repr

/-- A registry with no flows, conduits or pending work and the given stream
buckets. -/
def PeerConnectionMedia.init (locals remotes : List SourceStreamInfo) :
    PeerConnectionMedia :=
  { mTransportFlows := []
    mConduits := []
    mLocalSourceStreams := locals
    mRemoteSourceStreams := remotes
    stsQueue := []
    flowLayers := []
    nextAddr := 0
    calls := [] }

/-- Modelled from the spec: `PeerConnectionMedia::GetTransportFlow` returns the
flow registered for (level, is-rtcp), null when there is none. -/
def PeerConnectionMedia.GetTransportFlow (m : PeerConnectionMedia) (level : Nat)
    (rtcp : Bool) : Option TransportFlow :=
  m.mTransportFlows.lookup (level, rtcp)

/-- Modelled from the spec: `PeerConnectionMedia::AddTransportFlow` registers
the flow under (level, is-rtcp); the registry holds "at most one flow per
key". -/
def PeerConnectionMedia.AddTransportFlow (m : PeerConnectionMedia) (level : Nat)
    (rtcp : Bool) (flow : TransportFlow) : PeerConnectionMedia :=
  { m with
    mTransportFlows :=
      ((level, rtcp), flow) :: m.mTransportFlows.filter (fun e => e.1 ≠ (level, rtcp)) }

/-- Modelled from the spec: `PeerConnectionMedia::GetConduit` returns the
conduit registered for (level, direction), null when there is none. -/
def PeerConnectionMedia.GetConduit (m : PeerConnectionMedia) (level : Nat)
    (receive : Bool) : Option MediaSessionConduit :=
  m.mConduits.lookup (level, receive)

/-- Modelled from the spec: `PeerConnectionMedia::AddConduit` registers the
conduit under (level, direction), at most one per key. -/
def PeerConnectionMedia.AddConduit (m : PeerConnectionMedia) (level : Nat)
    (receive : Bool) (conduit : MediaSessionConduit) : PeerConnectionMedia :=
  { m with
    mConduits :=
      ((level, receive), conduit) :: m.mConduits.filter (fun e => e.1 ≠ (level, receive)) }

/-- Appends one call to the trace. -/
def PeerConnectionMedia.record (m : PeerConnectionMedia) (c : Call) :
    PeerConnectionMedia :=
  { m with calls := m.calls ++ [c] }

/-- Takes the next unused object address. -/
def PeerConnectionMedia.alloc (m : PeerConnectionMedia) : Nat × PeerConnectionMedia :=
  (m.nextAddr, { m with nextAddr := m.nextAddr + 1 })

/-! ## Collaborators -/

/-- The `PeerConnectionImpl` behind `mPC` and the answers of the collaborators
the factory calls.  A method of an object the factory has just built is given
that object; a method of a longer-lived collaborator is given the trace of all
calls made so far, so its answer may depend on everything that happened
before. -/
structure Env where
  /-- The string `mPC->GetHandle()`. -/
  handle : String
  /-- The identity `mPC->GetIdentity()`, `none` for a null pointer. -/
  identity : Option DtlsIdentity
  /-- The result of `DtlsIdentity::ParseFingerprint` and the decoded digest. -/
  ParseFingerprint : String → nsresult × List Nat
  SetVerificationDigest : TransportLayerDtls → String → List Nat → nsresult
  SetSrtpCiphers : TransportLayerDtls → List Nat → nsresult
  /-- The result of `GetSTSThread()->Dispatch(...)`. -/
  Dispatch : List Call → FinalizeTask → nsresult
  ice_ctx : Nat
  ice_media_stream : Nat → Nat
  /-- Whether `AudioSessionConduit::Create` returns a conduit. -/
  AudioSessionConduitCreate : List Call → Option MediaSessionConduit → Bool
  /-- Whether `VideoSessionConduit::Create` returns a conduit. -/
  VideoSessionConduitCreate : List Call → Option MediaSessionConduit → Bool
  AudioConfigureRecvMediaCodecs :
    List Call → MediaSessionConduit → List AudioCodecConfig → MediaConduitErrorCode
  AudioConfigureSendMediaCodec :
    List Call → MediaSessionConduit → AudioCodecConfig → MediaConduitErrorCode
  VideoConfigureRecvMediaCodecs :
    List Call → MediaSessionConduit → List VideoCodecConfig → MediaConduitErrorCode
  VideoConfigureSendMediaCodec :
    List Call → MediaSessionConduit → VideoCodecConfig → MediaConduitErrorCode
  /-- Whether the external encoder factory returns an encoder. -/
  CreateEncoder : List Call → Bool
  /-- Whether the external decoder factory returns a decoder. -/
  CreateDecoder : List Call → Bool
  SetExternalSendCodec :
    List Call → MediaSessionConduit → VideoCodecConfig → MediaConduitErrorCode
  SetExternalRecvCodec :
    List Call → MediaSessionConduit → VideoCodecConfig → MediaConduitErrorCode
  /-- Whether the file is compiled with `MOZILLA_INTERNAL_API`. -/
  MOZILLA_INTERNAL_API : Bool
  /-- The principal of `mPC->GetWindow()->GetExtantDoc()`, `none` without a
  document. -/
  GetExtantDoc : Option Nat
  GetPeerIdentity : Option Nat
  /-- The result of `pipeline->Init()`. -/
  Init : List Call → MediaPipeline → nsresult

/-! ## MediaPipelineFactory::CreateOrGetTransportFlow -/

/-- The flow name `PR_snprintf(id, sizeof(id), "%s:%d,%s", ...)` writes into the
32-byte buffer: `%d` prints the low 32 bits of `level` as a signed integer, and
at most 31 characters (of one byte each) are kept. -/
def flowId (handle : String) (level : Nat) (rtcp : Bool) : String :=
  let low := level % 2 ^ 32
  let printed := if low < 2 ^ 31 then toString low else "-" ++ toString (2 ^ 32 - low)
  String.mk
    ((handle ++ ":" ++ printed ++ "," ++ (if rtcp then "rtcp" else "rtp")).toList.take 31)

/-- The loop over `fingerprints.mFingerprints`: each fingerprint is parsed and
installed as a verification digest; `Except.error rv` is the `return rv` inside
the loop. -/
def installFingerprints (env : Env) (dtls : TransportLayerDtls) :
    List SdpFingerprint → Except nsresult TransportLayerDtls
  | [] => Except.ok dtls
  | fp :: rest =>
    let parsed := env.ParseFingerprint fp.fingerprint
    if NS_FAILED parsed.1 then
      Except.error parsed.1
    else
      let rv := env.SetVerificationDigest dtls fp.hashFunc parsed.2
      if NS_FAILED rv then
        Except.error rv
      else
        installFingerprints env
          { dtls with digests := dtls.digests ++ [(fp.hashFunc, parsed.2)] } rest

/-- `MediaPipelineFactory::CreateOrGetTransportFlow`.  The components of the
result are the returned `nsresult`, the flow stored through `out` (`none`:
`*out` is not written) and the state of `mPCMedia` afterwards. -/
def CreateOrGetTransportFlow (env : Env) (m : PeerConnectionMedia) (level : Nat)
    (rtcp : Bool) (transport : JsepTransport) :
    nsresult × Option TransportFlow × PeerConnectionMedia :=
  let m := m.record (Call.GetTransportFlow level rtcp)
  match m.GetTransportFlow level rtcp with
  | some flow => (NS_OK, some flow, m)
  | none =>
    let flow : TransportFlow := { addr := m.alloc.1, id := flowId env.handle level rtcp }
    let m := m.alloc.2.record (Call.NewTransportFlow flow)
    let ice : TransportLayerIce := { name := env.handle, params := none }
    let m := m.record (Call.NewTransportLayerIce env.handle)
    let m := m.record Call.NewTransportLayerDtls
    let dtls : TransportLayerDtls :=
      { role := some (if transport.mDtls.role = JsepDtlsRole.kJsepDtlsClient
                      then DtlsRole.CLIENT else DtlsRole.SERVER)
        identity := none
        digests := []
        srtp_ciphers := [] }
    match env.identity with
    | none => (NS_ERROR_FAILURE, none, m)
    | some pcid =>
      match installFingerprints env { dtls with identity := some pcid }
          transport.mDtls.fingerprints with
      | Except.error rv => (rv, none, m)
      | Except.ok dtls =>
        let srtp_ciphers := [SRTP_AES128_CM_HMAC_SHA1_80, SRTP_AES128_CM_HMAC_SHA1_32]
        let rv := env.SetSrtpCiphers dtls srtp_ciphers
        if NS_FAILED rv then
          (rv, none, m)
        else
          let task : FinalizeTask :=
            { flow := flow
              level := level
              rtcp := rtcp
              layers := [TransportLayer.ice ice,
                         TransportLayer.dtls { dtls with srtp_ciphers := srtp_ciphers }] }
          let rv := env.Dispatch m.calls task
          let m := m.record (Call.Dispatch task)
          if NS_FAILED rv then
            (rv, none, m)
          else
            let m := { m with stsQueue := m.stsQueue ++ [task] }
            let m := (m.AddTransportFlow level rtcp flow).record
              (Call.AddTransportFlow level rtcp flow)
            (NS_OK, some flow, m)

/-- `MediaPipelineFactory::FinalizeTransportFlow`, run on the STS thread: the
front of the layer queue is cast to `TransportLayerIce` and given its
parameters (`none` when the front is not an ICE layer), then the whole queue
is pushed into the flow. -/
def FinalizeTransportFlow (env : Env) (m : PeerConnectionMedia) (task : FinalizeTask) :
    Option PeerConnectionMedia :=
  match task.layers with
  | TransportLayer.ice ice :: rest =>
    let ice := { ice with
      params := some (env.ice_ctx, env.ice_media_stream task.level,
        if task.rtcp then 2 else 1) }
    some { m with
      flowLayers := (task.flow.addr, TransportLayer.ice ice :: rest) :: m.flowLayers }
  | _ => none

/-! ## MediaPipelineFactory::EnsureExternalCodec and the conduits -/

/-- `MediaPipelineFactory::EnsureExternalCodec`: the returned `int` and the
state afterwards. -/
def EnsureExternalCodec (env : Env) (m : PeerConnectionMedia)
    (conduit : MediaSessionConduit) (config : VideoCodecConfig) (send : Bool) :
    MediaConduitErrorCode × PeerConnectionMedia :=
  if config.mName = "VP8" then
    (0, m)
  else if config.mName = "H264_P0" ∨ config.mName = "H264_P1" then
    if send then
      let encoder := env.CreateEncoder m.calls
      let m := m.record Call.CreateEncoder
      if encoder then
        (env.SetExternalSendCodec m.calls conduit config,
         m.record (Call.SetExternalSendCodec conduit.addr config))
      else
        (kMediaConduitInvalidSendCodec, m)
    else
      let decoder := env.CreateDecoder m.calls
      let m := m.record Call.CreateDecoder
      if decoder then
        (env.SetExternalRecvCodec m.calls conduit config,
         m.record (Call.SetExternalRecvCodec conduit.addr config))
      else
        (kMediaConduitInvalidReceiveCodec, m)
  else
    (if send then kMediaConduitInvalidSendCodec else kMediaConduitInvalidReceiveCodec, m)

/-- The receive loop of `CreateAudioConduit` over the codec indices still to
visit: `Except.error rv` is a `return rv` inside the loop, `Except.ok configs`
the vector `configs` when the loop ends. -/
def audioRecvConfigs (track : JsepTrack) :
    List Nat → List AudioCodecConfig → Except nsresult (List AudioCodecConfig)
  | [], configs => Except.ok configs
  | i :: is, configs =>
    match track.get_codec i with
    | Except.error rv => Except.error rv
    | Except.ok cdesc =>
      match JsepCodecDescToCodecConfigAudio cdesc with
      | Except.error rv => Except.error rv
      | Except.ok config_raw => audioRecvConfigs track is (configs ++ [config_raw])

/-- The second half of `CreateAudioConduit`, from `size_t num_codecs` on: the
codecs of the track are translated and installed in the conduit just created
and registered. -/
def configureAudioConduit (env : Env) (m : PeerConnectionMedia)
    (conduit : MediaSessionConduit) (track : JsepTrack) (receiving : Bool) :
    nsresult × Option MediaSessionConduit × PeerConnectionMedia :=
  let num_codecs := track.num_codecs
  if num_codecs = 0 then
    (NS_ERROR_FAILURE, none, m)
  else if receiving then
    match audioRecvConfigs track (List.range num_codecs) [] with
    | Except.error rv => (rv, none, m)
    | Except.ok configs =>
      let error := env.AudioConfigureRecvMediaCodecs m.calls conduit configs
      let m := m.record (Call.AudioConfigureRecvMediaCodecs conduit.addr configs)
      if error ≠ 0 then
        (NS_ERROR_FAILURE, none, m)
      else
        (NS_OK, some conduit, m)
  else
    match track.get_codec 0 with
    | Except.error rv => (rv, none, m)
    | Except.ok cdesc =>
      match JsepCodecDescToCodecConfigAudio cdesc with
      | Except.error rv => (rv, none, m)
      | Except.ok config =>
        let error := env.AudioConfigureSendMediaCodec m.calls conduit config
        let m := m.record (Call.AudioConfigureSendMediaCodec conduit.addr config)
        if error ≠ 0 then
          (NS_ERROR_FAILURE, none, m)
        else
          (NS_OK, some conduit, m)

/-- `MediaPipelineFactory::CreateAudioConduit`.  The components of the result
are the returned `nsresult`, the conduit stored through `conduitp` (`none`:
not written) and the state afterwards. -/
def CreateAudioConduit (env : Env) (m : PeerConnectionMedia) (trackPair : JsepTrackPair)
    (track : JsepTrack) : nsresult × Option MediaSessionConduit × PeerConnectionMedia :=
  let receiving := decide (track.direction = Direction.kJsepTrackReceiving)
  let m := m.record (Call.GetConduit trackPair.mLevel receiving)
  let other_conduit := m.GetConduit trackPair.mLevel receiving
  let created := env.AudioSessionConduitCreate m.calls other_conduit
  let m := m.record (Call.AudioSessionConduitCreate other_conduit)
  if !created then
    (NS_ERROR_FAILURE, none, m)
  else
    let conduit : MediaSessionConduit :=
      { addr := m.alloc.1, type := ConduitType.AUDIO, other := other_conduit.map (·.addr) }
    let m := (m.alloc.2.AddConduit trackPair.mLevel receiving conduit).record
      (Call.AddConduit trackPair.mLevel receiving conduit)
    configureAudioConduit env m conduit track receiving

/-- The receive loop of `CreateVideoConduit`: a codec for which
`EnsureExternalCodec` reports an error is deleted and skipped (`continue`),
every other config is pushed onto `configs`. -/
def videoRecvConfigs (env : Env) (conduit : MediaSessionConduit) (track : JsepTrack) :
    List Nat → PeerConnectionMedia → List VideoCodecConfig →
      Except (nsresult × PeerConnectionMedia) (List VideoCodecConfig × PeerConnectionMedia)
  | [], m, configs => Except.ok (configs, m)
  | i :: is, m, configs =>
    match track.get_codec i with
    | Except.error rv => Except.error (rv, m)
    | Except.ok cdesc =>
      match JsepCodecDescToCodecConfigVideo cdesc with
      | Except.error rv => Except.error (rv, m)
      | Except.ok config_raw =>
        let r := EnsureExternalCodec env m conduit config_raw false
        if r.1 ≠ 0 then
          videoRecvConfigs env conduit track is r.2 configs
        else
          videoRecvConfigs env conduit track is r.2 (configs ++ [config_raw])

/-- The second half of `CreateVideoConduit`, from `size_t num_codecs` on. -/
def configureVideoConduit (env : Env) (m : PeerConnectionMedia)
    (conduit : MediaSessionConduit) (track : JsepTrack) (receiving : Bool) :
    nsresult × Option MediaSessionConduit × PeerConnectionMedia :=
  let num_codecs := track.num_codecs
  if num_codecs = 0 then
    (NS_ERROR_FAILURE, none, m)
  else if receiving then
    match videoRecvConfigs env conduit track (List.range num_codecs) m [] with
    | Except.error e => (e.1, none, e.2)
    | Except.ok r =>
      let error := env.VideoConfigureRecvMediaCodecs r.2.calls conduit r.1
      let m := r.2.record (Call.VideoConfigureRecvMediaCodecs conduit.addr r.1)
      if error ≠ 0 then
        (NS_ERROR_FAILURE, none, m)
      else
        (NS_OK, some conduit, m)
  else
    match track.get_codec 0 with
    | Except.error rv => (rv, none, m)
    | Except.ok cdesc =>
      match JsepCodecDescToCodecConfigVideo cdesc with
      | Except.error rv => (rv, none, m)
      | Except.ok config =>
        let r := EnsureExternalCodec env m conduit config true
        if r.1 ≠ 0 then
          (NS_ERROR_FAILURE, none, r.2)
        else
          let error := env.VideoConfigureSendMediaCodec r.2.calls conduit config
          let m := r.2.record (Call.VideoConfigureSendMediaCodec conduit.addr config)
          if error ≠ 0 then
            (NS_ERROR_FAILURE, none, m)
          else
            (NS_OK, some conduit, m)

/-- `MediaPipelineFactory::CreateVideoConduit`, with the result read as for
`CreateAudioConduit`. -/
def CreateVideoConduit (env : Env) (m : PeerConnectionMedia) (trackPair : JsepTrackPair)
    (track : JsepTrack) : nsresult × Option MediaSessionConduit × PeerConnectionMedia :=
  let receiving := decide (track.direction = Direction.kJsepTrackReceiving)
  let m := m.record (Call.GetConduit trackPair.mLevel true)
  let peer_conduit := m.GetConduit trackPair.mLevel true
  let created := env.VideoSessionConduitCreate m.calls peer_conduit
  let m := m.record (Call.VideoSessionConduitCreate peer_conduit)
  if !created then
    (NS_ERROR_FAILURE, none, m)
  else
    let conduit : MediaSessionConduit :=
      { addr := m.alloc.1, type := ConduitType.VIDEO, other := peer_conduit.map (·.addr) }
    let m := (m.alloc.2.AddConduit trackPair.mLevel receiving conduit).record
      (Call.AddConduit trackPair.mLevel receiving conduit)
    configureVideoConduit env m conduit track receiving

/-! ## Pipelines -/

/-- How a call of the factory ends: it returns an `nsresult`, or the process is
terminated by `MOZ_CRASH()`.  Both carry the state reached. -/
inductive Outcome where
  | returned (rv : nsresult) (m : PeerConnectionMedia)
  | crashed (m : PeerConnectionMedia)
  deriving DecidableEq, Repr

/-- The state an outcome was reached in. -/
def Outcome.media : Outcome → PeerConnectionMedia
  | Outcome.returned _ m => m
  | Outcome.crashed m => m

/-- The returned `nsresult`, `none` when the process was terminated. -/
def Outcome.result : Outcome → Option nsresult
  | Outcome.returned rv _ => some rv
  | Outcome.crashed _ => none

/-- Modelled from the spec: `StorePipeline` of a stream bucket puts the pipeline
into the slot "keyed by track index". -/
def SourceStreamInfo.StorePipeline (s : SourceStreamInfo) (track : Nat)
    (pipeline : MediaPipeline) : SourceStreamInfo :=
  { s with mPipelines := (track, pipeline) :: s.mPipelines.filter (fun e => e.1 ≠ track) }

/-- `MediaPipelineFactory::CreateMediaPipelineReceiving`. -/
def CreateMediaPipelineReceiving (env : Env) (m : PeerConnectionMedia)
    (rtp_flow rtcp_flow bundle_rtp_flow bundle_rtcp_flow : Option TransportFlow)
    (trackPair : JsepTrackPair) (track : JsepTrack)
    (conduit : Option MediaSessionConduit) : Outcome :=
  let pc_track_id := (trackPair.mLevel + 1) % SIZE_T_MOD
  let m := m.record (Call.GetRemoteStream 0)
  match m.mRemoteSourceStreams.get? 0 with
  | none => Outcome.returned NS_ERROR_FAILURE m
  | some stream =>
    let filter : Option Nat := none
    let kind : Option PipelineKind :=
      if track.media_type = MediaType.kAudio then some PipelineKind.ReceiveAudio
      else if track.media_type = MediaType.kVideo then some PipelineKind.ReceiveVideo
      else none
    match kind with
    | none => Outcome.crashed m
    | some kind =>
      let pipeline : MediaPipeline :=
        { addr := m.alloc.1
          kind := kind
          track_id := pc_track_id
          level := trackPair.mLevel
          conduit := conduit
          rtp_flow := rtp_flow
          rtcp_flow := rtcp_flow
          bundle_rtp_flow := bundle_rtp_flow
          bundle_rtcp_flow := bundle_rtcp_flow
          filter := filter }
      let m := m.alloc.2.record (Call.NewPipeline pipeline)
      let rv := env.Init m.calls pipeline
      let m := m.record (Call.Init pipeline.addr)
      if NS_FAILED rv then
        Outcome.returned rv m
      else
        let slot := (pc_track_id + SIZE_T_MOD - 1) % SIZE_T_MOD
        let m := { m with
          mRemoteSourceStreams :=
            m.mRemoteSourceStreams.set 0 (stream.StorePipeline slot pipeline) }
        Outcome.returned NS_OK (m.record (Call.StorePipeline true slot pipeline))

/-- `MediaPipelineFactory::CreateMediaPipelineSending`. -/
def CreateMediaPipelineSending (env : Env) (m : PeerConnectionMedia)
    (rtp_flow rtcp_flow : Option TransportFlow)
    (trackPair : JsepTrackPair) (conduit : Option MediaSessionConduit) : Outcome :=
  let pc_stream_id := 0
  let pc_track_id := (trackPair.mLevel + 1) % SIZE_T_MOD
  let m := m.record (Call.GetLocalStream pc_stream_id)
  match m.mLocalSourceStreams.get? pc_stream_id with
  | none => Outcome.returned NS_ERROR_FAILURE m
  | some stream =>
    let pipeline : MediaPipeline :=
      { addr := m.alloc.1
        kind := PipelineKind.Transmit
        track_id := pc_track_id
        level := trackPair.mLevel
        conduit := conduit
        rtp_flow := rtp_flow
        rtcp_flow := rtcp_flow
        bundle_rtp_flow := none
        bundle_rtcp_flow := none
        filter := none }
    let m := m.alloc.2.record (Call.NewPipeline pipeline)
    let identified : Option PeerConnectionMedia :=
      if env.MOZILLA_INTERNAL_API then
        match env.GetExtantDoc with
        | some principal =>
          some (m.record (Call.UpdateSinkIdentity_m pipeline.addr principal env.GetPeerIdentity))
        | none => none
      else
        some m
    match identified with
    | none => Outcome.crashed m
    | some m =>
      let rv := env.Init m.calls pipeline
      let m := m.record (Call.Init pipeline.addr)
      if NS_FAILED rv then
        Outcome.returned rv m
      else
        let slot := (pc_track_id + SIZE_T_MOD - 1) % SIZE_T_MOD
        let m := { m with
          mLocalSourceStreams :=
            m.mLocalSourceStreams.set pc_stream_id (stream.StorePipeline slot pipeline) }
        Outcome.returned NS_OK (m.record (Call.StorePipeline false slot pipeline))

/-- The media-type branch of `CreateMediaPipeline`: the conduit is created by
`CreateAudioConduit` or `CreateVideoConduit`; `none` is the `MOZ_CRASH()` of
the final `else`. -/
def createConduit (env : Env) (m : PeerConnectionMedia) (trackPair : JsepTrackPair)
    (track : JsepTrack) :
    Option (nsresult × Option MediaSessionConduit × PeerConnectionMedia) :=
  if track.media_type = MediaType.kAudio then
    some (CreateAudioConduit env m trackPair track)
  else if track.media_type = MediaType.kVideo then
    some (CreateVideoConduit env m trackPair track)
  else
    none

/-- The end of `CreateMediaPipeline`: `if (NS_FAILED(rv)) return rv;` on the
result of the pipeline stage, `return NS_OK;` otherwise. -/
def returnOrOk : Outcome → Outcome
  | Outcome.crashed m => Outcome.crashed m
  | Outcome.returned rv m =>
    if NS_FAILED rv then Outcome.returned rv m else Outcome.returned NS_OK m

/-- The part of `CreateMediaPipeline` after both flows are resolved. -/
def createConduitAndPipeline (env : Env) (m : PeerConnectionMedia)
    (rtp_flow rtcp_flow : Option TransportFlow) (trackPair : JsepTrackPair)
    (track : JsepTrack) : Outcome :=
  let receiving := decide (track.direction = Direction.kJsepTrackReceiving)
  match createConduit env m trackPair track with
  | none => Outcome.crashed m
  | some c =>
    if NS_FAILED c.1 then
      Outcome.returned c.1 c.2.2
    else if receiving then
      returnOrOk (CreateMediaPipelineReceiving env c.2.2 rtp_flow rtcp_flow none none
        trackPair track c.2.1)
    else
      returnOrOk (CreateMediaPipelineSending env c.2.2 rtp_flow rtcp_flow trackPair c.2.1)

/-- The first part of `CreateMediaPipeline`, "First make sure the transport flow
exists": the RTP flow is resolved under (level, false) and, when the track pair
has an RTCP transport, the RTCP flow under (level, true).  The components of
the result are the `nsresult` reached, `rtp_flow`, `rtcp_flow` and the state. -/
def resolveTransportFlows (env : Env) (m : PeerConnectionMedia) (trackPair : JsepTrackPair) :
    nsresult × Option TransportFlow × Option TransportFlow × PeerConnectionMedia :=
  let rtp := CreateOrGetTransportFlow env m trackPair.mLevel false trackPair.mRtpTransport
  if NS_FAILED rtp.1 then
    (rtp.1, rtp.2.1, none, rtp.2.2)
  else
    match trackPair.mRtcpTransport with
    | some rtcpTransport =>
      let rtcp := CreateOrGetTransportFlow env rtp.2.2 trackPair.mLevel true rtcpTransport
      if NS_FAILED rtcp.1 then
        (rtcp.1, rtp.2.1, rtcp.2.1, rtcp.2.2)
      else
        (NS_OK, rtp.2.1, rtcp.2.1, rtcp.2.2)
    | none => (NS_OK, rtp.2.1, none, rtp.2.2)

/-- `MediaPipelineFactory::CreateMediaPipeline`. -/
def CreateMediaPipeline (env : Env) (m : PeerConnectionMedia) (trackPair : JsepTrackPair)
    (track : JsepTrack) : Outcome :=
  let flows := resolveTransportFlows env m trackPair
  if NS_FAILED flows.1 then
    Outcome.returned flows.1 flows.2.2.2
  else
    createConduitAndPipeline env flows.2.2.2 flows.2.1 flows.2.2.1 trackPair track

/-! ## Predicates used in the statements -/

/-- What makes the creation of a flow fail: no local identity, a fingerprint that
cannot be decoded, a digest that cannot be installed, a rejected SRTP cipher
list, or a failed dispatch to the STS thread. -/
def FlowCreationFails (env : Env) (transport : JsepTransport) : Prop :=
  env.identity = none ∨
  (∃ fp ∈ transport.mDtls.fingerprints,
    NS_FAILED (env.ParseFingerprint fp.fingerprint).1 = true) ∨
  (∃ fp ∈ transport.mDtls.fingerprints, ∀ dtls : TransportLayerDtls,
    NS_FAILED (env.SetVerificationDigest dtls fp.hashFunc
      (env.ParseFingerprint fp.fingerprint).2) = true) ∨
  (∀ dtls : TransportLayerDtls,
    NS_FAILED (env.SetSrtpCiphers dtls
      [SRTP_AES128_CM_HMAC_SHA1_80, SRTP_AES128_CM_HMAC_SHA1_32]) = true) ∨
  (∀ (calls : List Call) (task : FinalizeTask), NS_FAILED (env.Dispatch calls task) = true)

/-! ## Concrete inputs -/

/-- An environment in which every collaborator succeeds; no external encoder or
decoder is available and the build is without `MOZILLA_INTERNAL_API`. -/
def okEnv : Env :=
  { handle := "pc"
    identity := some { addr := 7 }
    ParseFingerprint := fun _ => (NS_OK, [171, 205])
    SetVerificationDigest := fun _ _ _ => NS_OK
    SetSrtpCiphers := fun _ _ => NS_OK
    Dispatch := fun _ _ => NS_OK
    ice_ctx := 0
    ice_media_stream := fun level => level
    AudioSessionConduitCreate := fun _ _ => true
    VideoSessionConduitCreate := fun _ _ => true
    AudioConfigureRecvMediaCodecs := fun _ _ _ => kMediaConduitNoError
    AudioConfigureSendMediaCodec := fun _ _ _ => kMediaConduitNoError
    VideoConfigureRecvMediaCodecs := fun _ _ _ => kMediaConduitNoError
    VideoConfigureSendMediaCodec := fun _ _ _ => kMediaConduitNoError
    CreateEncoder := fun _ => false
    CreateDecoder := fun _ => false
    SetExternalSendCodec := fun _ _ _ => kMediaConduitNoError
    SetExternalRecvCodec := fun _ _ _ => kMediaConduitNoError
    MOZILLA_INTERNAL_API := false
    GetExtantDoc := none
    GetPeerIdentity := none
    Init := fun _ _ => NS_OK }

/-- The environment `okEnv` without a local DTLS identity. -/
def noIdentityEnv : Env := { okEnv with identity := none }

/-- A transport association with the client role and one fingerprint. -/
def sampleTransport : JsepTransport :=
  { mDtls :=
      { role := JsepDtlsRole.kJsepDtlsClient
        fingerprints := [{ hashFunc := "sha-256", fingerprint := "AB:CD" }] } }

/-- One local and one remote stream bucket, no flows, no conduits. -/
def emptyMedia : PeerConnectionMedia :=
  PeerConnectionMedia.init [{ mediaStream := 100, mPipelines := [] }]
    [{ mediaStream := 200, mPipelines := [] }]

/-- Whether a call is one of the conduit's send- or receive-configuration
calls. -/
def Call.isConfigure : Call → Bool
  | Call.AudioConfigureRecvMediaCodecs _ _ => true
  | Call.AudioConfigureSendMediaCodec _ _ => true
  | Call.VideoConfigureRecvMediaCodecs _ _ => true
  | Call.VideoConfigureSendMediaCodec _ _ => true
  | _ => false

def opusDesc : JsepCodecDescription :=
  { mType := MediaType.kAudio, mDefaultPt := 109, mName := "opus", mClock := 48000,
    mPacketSize := 960, mChannels := 2, mBitrate := 40000 }

def pcmuDesc : JsepCodecDescription :=
  { mType := MediaType.kAudio, mDefaultPt := 0, mName := "PCMU", mClock := 8000,
    mPacketSize := 160, mChannels := 1, mBitrate := 64000 }

def vp8Desc : JsepCodecDescription :=
  { mType := MediaType.kVideo, mDefaultPt := 120, mName := "VP8", mClock := 90000,
    mPacketSize := 0, mChannels := 0, mBitrate := 0 }

def h264Desc : JsepCodecDescription :=
  { mType := MediaType.kVideo, mDefaultPt := 126, mName := "H264_P0", mClock := 90000,
    mPacketSize := 0, mChannels := 0, mBitrate := 0 }

/-- The track pair of level 0 with separate RTP and RTCP transports. -/
def samplePair0 : JsepTrackPair :=
  { mLevel := 0, mRtpTransport := sampleTransport, mRtcpTransport := some sampleTransport }

/-- The track pair of level 1 with separate RTP and RTCP transports. -/
def samplePair1 : JsepTrackPair :=
  { mLevel := 1, mRtpTransport := sampleTransport, mRtcpTransport := some sampleTransport }

/-- An audio receive conduit already registered at level 0. -/
def recvAudioConduit : MediaSessionConduit :=
  { addr := 50, type := ConduitType.AUDIO, other := none }

/-- A state whose conduit registry holds `recvAudioConduit` under
(level 0, receiving) and nothing under (level 0, sending). -/
def mediaWithRecvAudio : PeerConnectionMedia :=
  { emptyMedia with mConduits := [((0, true), recvAudioConduit)], nextAddr := 51 }

/-- An audio track that sends `opus` and `PCMU`. -/
def audioSendTrack : JsepTrack :=
  { media_type := MediaType.kAudio, direction := Direction.kJsepTrackSending,
    codecs := [opusDesc, pcmuDesc] }

/-- A video track that receives `VP8`. -/
def videoRecvTrack : JsepTrack :=
  { media_type := MediaType.kVideo, direction := Direction.kJsepTrackReceiving,
    codecs := [vp8Desc] }

/-- A video track that receives `VP8` and `H264_P0`. -/
def videoRecvTrackH264 : JsepTrack :=
  { media_type := MediaType.kVideo, direction := Direction.kJsepTrackReceiving,
    codecs := [vp8Desc, h264Desc] }

/-- The stage of `CreateMediaPipeline` a call belongs to. -/
inductive Phase where
  | transport
  | conduit
  | stream
  | pipeline
  deriving DecidableEq, Repr

/-- The stage in which the factory makes a call: resolving transport flows,
creating and configuring the conduit, locating the stream bucket, or
constructing, initializing and storing the pipeline. -/
def Call.phase : Call → Phase
  | Call.GetTransportFlow _ _ => Phase.transport
  | Call.NewTransportFlow _ => Phase.transport
  | Call.NewTransportLayerIce _ => Phase.transport
  | Call.NewTransportLayerDtls => Phase.transport
  | Call.Dispatch _ => Phase.transport
  | Call.AddTransportFlow _ _ _ => Phase.transport
  | Call.GetConduit _ _ => Phase.conduit
  | Call.AudioSessionConduitCreate _ => Phase.conduit
  | Call.VideoSessionConduitCreate _ => Phase.conduit
  | Call.AddConduit _ _ _ => Phase.conduit
  | Call.AudioConfigureRecvMediaCodecs _ _ => Phase.conduit
  | Call.AudioConfigureSendMediaCodec _ _ => Phase.conduit
  | Call.VideoConfigureRecvMediaCodecs _ _ => Phase.conduit
  | Call.VideoConfigureSendMediaCodec _ _ => Phase.conduit
  | Call.CreateEncoder => Phase.conduit
  | Call.CreateDecoder => Phase.conduit
  | Call.SetExternalSendCodec _ _ => Phase.conduit
  | Call.SetExternalRecvCodec _ _ => Phase.conduit
  | Call.GetRemoteStream _ => Phase.stream
  | Call.GetLocalStream _ => Phase.stream
  | Call.NewPipeline _ => Phase.pipeline
  | Call.UpdateSinkIdentity_m _ _ _ => Phase.pipeline
  | Call.Init _ => Phase.pipeline
  | Call.StorePipeline _ _ _ => Phase.pipeline

/-- The state `m2` arises from `m` by calls of the conduit stage only: the
transport-flow registry, the stream buckets and the STS queue are those of
`m`. -/
def ConduitStep (m m2 : PeerConnectionMedia) : Prop :=
  (∃ new, m2.calls = m.calls ++ new ∧ ∀ c ∈ new, c.phase = Phase.conduit) ∧
  m2.mTransportFlows = m.mTransportFlows ∧
  m2.mLocalSourceStreams = m.mLocalSourceStreams ∧
  m2.mRemoteSourceStreams = m.mRemoteSourceStreams ∧
  m2.stsQueue = m.stsQueue ∧
  m.nextAddr ≤ m2.nextAddr

/-- The state `m2` differs from `m` only by calls of the conduit stage appended
to the trace: registries, stream buckets, STS queue and allocator are those of
`m`. -/
def ConfigureStep (m m2 : PeerConnectionMedia) : Prop :=
  ∃ new, m2 = { m with calls := m.calls ++ new } ∧ ∀ c ∈ new, c.phase = Phase.conduit

/-- The state `m2` arises from `m` by calls of the transport stage only: the
conduit registry and the stream buckets are those of `m`. -/
def TransportStep (m m2 : PeerConnectionMedia) : Prop :=
  (∃ new, m2.calls = m.calls ++ new ∧ ∀ c ∈ new, c.phase = Phase.transport) ∧
  m2.mConduits = m.mConduits ∧
  m2.mLocalSourceStreams = m.mLocalSourceStreams ∧
  m2.mRemoteSourceStreams = m.mRemoteSourceStreams ∧
  m.nextAddr ≤ m2.nextAddr

/-- The pipeline `p` was constructed in state `m` for the given level, conduit
and flows. -/
def PipelineFor (m : PeerConnectionMedia) (p : MediaPipeline) (level : Nat)
    (conduit : Option MediaSessionConduit) (rtp rtcp : Option TransportFlow) : Prop :=
  p.addr = m.nextAddr ∧ p.level = level ∧ p.track_id = (level + 1) % SIZE_T_MOD ∧
  p.conduit = conduit ∧ p.rtp_flow = rtp ∧ p.rtcp_flow = rtcp ∧ p.filter = none

/-- Both stream buckets of `m2` are those of `m`. -/
def SameStreams (m m2 : PeerConnectionMedia) : Prop :=
  m2.mLocalSourceStreams = m.mLocalSourceStreams ∧
  m2.mRemoteSourceStreams = m.mRemoteSourceStreams

/-- The pipeline `p` was stored in bucket 0 (remote or local) of `m`, in the
slot `slot`, and nothing else in the buckets changed. -/
def StoredIn (m m2 : PeerConnectionMedia) (remote : Bool) (slot : Nat) (p : MediaPipeline) :
    Prop :=
  ∃ stream,
    (if remote then m.mRemoteSourceStreams else m.mLocalSourceStreams).get? 0 = some stream ∧
    m2.mRemoteSourceStreams =
      (if remote then m.mRemoteSourceStreams.set 0 (stream.StorePipeline slot p)
        else m.mRemoteSourceStreams) ∧
    m2.mLocalSourceStreams =
      (if remote then m.mLocalSourceStreams
        else m.mLocalSourceStreams.set 0 (stream.StorePipeline slot p))

/-- What one run of `CreateMediaPipelineReceiving` (`remote = true`) or
`CreateMediaPipelineSending` (`remote = false`) from state `m` can look like.
After the bucket lookup `g` either nothing more happens and the run does not
succeed, or a pipeline `p` is constructed; then either the process is
terminated, or (after the calls `U`, at most one `UpdateSinkIdentity_m`)
`Init` is called: when it fails its code is returned and it is the last call,
when it does not fail `StorePipeline` follows and `NS_OK` is returned. -/
def PipelineStage (env : Env) (m : PeerConnectionMedia) (out : Outcome) (remote : Bool)
    (level : Nat) (conduit : Option MediaSessionConduit) (rtp rtcp : Option TransportFlow) :
    Prop :=
  out.media.mTransportFlows = m.mTransportFlows ∧
  out.media.mConduits = m.mConduits ∧
  out.media.stsQueue = m.stsQueue ∧
  ∃ g : Call, g.phase = Phase.stream ∧
    ((out.media.calls = m.calls ++ [g] ∧
        (out.result = none ∨ out.result = some NS_ERROR_FAILURE) ∧ SameStreams m out.media ∧
        out.media.nextAddr = m.nextAddr) ∨
     ∃ (p : MediaPipeline) (U : List Call),
       PipelineFor m p level conduit rtp rtcp ∧
       (U = [] ∨ ∃ principal peer, U = [Call.UpdateSinkIdentity_m p.addr principal peer]) ∧
       out.media.nextAddr = m.nextAddr + 1 ∧
       ((out.result = none ∧ out.media.calls = m.calls ++ [g, Call.NewPipeline p] ∧
           SameStreams m out.media) ∨
        (NS_FAILED (env.Init (m.calls ++ g :: Call.NewPipeline p :: U) p) = true ∧
           out.result = some (env.Init (m.calls ++ g :: Call.NewPipeline p :: U) p) ∧
           out.media.calls = m.calls ++ g :: Call.NewPipeline p :: U ++ [Call.Init p.addr] ∧
           SameStreams m out.media) ∨
        (NS_FAILED (env.Init (m.calls ++ g :: Call.NewPipeline p :: U) p) = false ∧
           out.result = some NS_OK ∧
           out.media.calls = m.calls ++ g :: Call.NewPipeline p :: U ++
             [Call.Init p.addr,
              Call.StorePipeline remote ((p.track_id + SIZE_T_MOD - 1) % SIZE_T_MOD) p] ∧
           StoredIn m out.media remote ((p.track_id + SIZE_T_MOD - 1) % SIZE_T_MOD) p)))

/-- What a run of the conduit and pipeline stages of `CreateMediaPipeline` from
state `t` can look like: the conduit stage leads to the state `mid`; then
either the run ends there without success (a failure code is returned or the
process is terminated), or the pipeline stage runs from `mid` with the flows
`rtp` and `rtcp`. -/
def ConduitAndPipelineRun (env : Env) (t : PeerConnectionMedia) (level : Nat)
    (rtp rtcp : Option TransportFlow) (out : Outcome) : Prop :=
  ∃ mid : PeerConnectionMedia, ConduitStep t mid ∧
    ((out.media = mid ∧
        (out.result = none ∨ ∃ rv, out.result = some rv ∧ NS_FAILED rv = true)) ∨
     ∃ (remote : Bool) (conduit : Option MediaSessionConduit),
       PipelineStage env mid out remote level conduit rtp rtcp)

/-- What one run of `CreateMediaPipeline` from state `m` can look like: the
transport and conduit stages make the calls `A` and lead to the state `mid`
without touching the stream buckets; then either the run ends there without
success (a failure code is returned or the process is terminated), or the
pipeline stage runs from `mid`. -/
def PipelineRun (env : Env) (m : PeerConnectionMedia) (level : Nat) (out : Outcome) : Prop :=
  ∃ (mid : PeerConnectionMedia) (A : List Call),
    mid.calls = m.calls ++ A ∧
    (∀ c ∈ A, c.phase = Phase.transport ∨ c.phase = Phase.conduit) ∧
    SameStreams m mid ∧
    ((out.media = mid ∧
        (out.result = none ∨ ∃ rv, out.result = some rv ∧ NS_FAILED rv = true)) ∨
     ∃ (remote : Bool) (conduit : Option MediaSessionConduit) (rtp rtcp : Option TransportFlow),
       PipelineStage env mid out remote level conduit rtp rtcp)

/-- The environment `okEnv` with a pipeline `Init` that always fails. -/
def initFailEnv : Env := { okEnv with Init := fun _ _ => NS_ERROR_FAILURE }

/-- The transmit pipeline that `CreateMediaPipeline` constructs for
`samplePair0` and `audioSendTrack` from `emptyMedia`. -/
def sampleTransmitPipeline : MediaPipeline :=
  { addr := 3, kind := PipelineKind.Transmit, track_id := 1, level := 0,
    conduit := some { addr := 2, type := ConduitType.AUDIO, other := none },
    rtp_flow := some { addr := 0, id := "pc:0,rtp" },
    rtcp_flow := some { addr := 1, id := "pc:0,rtcp" },
    bundle_rtp_flow := none, bundle_rtcp_flow := none, filter := none }

/-- The environment `okEnv` with an external encoder and decoder at hand. -/
def externalCodecEnv : Env :=
  { okEnv with CreateEncoder := fun _ => true, CreateDecoder := fun _ => true }

/-- A video config named `VP9`: outside the whitelist and not an H.264 name. -/
def vp9Config : VideoCodecConfig :=
  { mType := 101, mName := "VP9", mRtcpFbTypes := 0, mMaxFrameSize := 0, mMaxFrameRate := 0,
    mH264 := none }

/-- A video config named `H264_P0`. -/
def h264Config : VideoCodecConfig :=
  { mType := 126, mName := "H264_P0", mRtcpFbTypes := 0, mMaxFrameSize := 0,
    mMaxFrameRate := 0, mH264 := none }

/-- A video config named `VP8`. -/
def vp8Config : VideoCodecConfig :=
  { mType := 120, mName := "VP8", mRtcpFbTypes := 0, mMaxFrameSize := 0, mMaxFrameRate := 0,
    mH264 := none }

/-- A video conduit, used as the receiver of the external-codec calls. -/
def sampleVideoConduit : MediaSessionConduit :=
  { addr := 9, type := ConduitType.VIDEO, other := none }

/-- A video track that sends `VP8` and `H264_P0`. -/
def videoSendTrack : JsepTrack :=
  { media_type := MediaType.kVideo, direction := Direction.kJsepTrackSending,
    codecs := [vp8Desc, h264Desc] }

/-- A state without any stream bucket, local or remote. -/
def noStreamsMedia : PeerConnectionMedia := PeerConnectionMedia.init [] []

/-- The receive pipeline that `CreateMediaPipeline` constructs for
`samplePair1` and `videoRecvTrack` from `emptyMedia`. -/
def sampleReceivePipeline : MediaPipeline :=
  { addr := 3, kind := PipelineKind.ReceiveVideo, track_id := 2, level := 1,
    conduit := some { addr := 2, type := ConduitType.VIDEO, other := none },
    rtp_flow := some { addr := 0, id := "pc:1,rtp" },
    rtcp_flow := some { addr := 1, id := "pc:1,rtcp" },
    bundle_rtp_flow := none, bundle_rtcp_flow := none, filter := none }

/-- The environment `okEnv` built with `MOZILLA_INTERNAL_API`, with a document
attached (principal 11) and a peer identity (12). -/
def internalApiEnv : Env :=
  { okEnv with MOZILLA_INTERNAL_API := true, GetExtantDoc := some 11, GetPeerIdentity := some 12 }

/-- The environment `okEnv` built with `MOZILLA_INTERNAL_API`, without a
document attached. -/
def noDocEnv : Env := { okEnv with MOZILLA_INTERNAL_API := true, GetExtantDoc := none }

/-- A track of the media type application, neither audio nor video. -/
def applicationTrack : JsepTrack :=
  { media_type := MediaType.kApplication, direction := Direction.kJsepTrackSending,
    codecs := [] }

/-- The pipeline kept in slot `k` of stream bucket `i` of a list of buckets:
`none` when there is no bucket `i`, `some none` when the slot is empty. -/
def pipelineAt (streams : List SourceStreamInfo) (i k : Nat) : Option (Option MediaPipeline) :=
  (streams.get? i).map (fun s => s.mPipelines.lookup k)

/-! ## GMPVideoHost.cpp -/

/-- The error codes `GMPVideoErr` (`gmp-video-errors.h`) that `GMPVideoHostImpl`
returns. -/
inductive GMPVideoErr where
  | GMPVideoNoErr
  | GMPVideoGenericErr
  | GMPVideoAllocErr
  deriving DecidableEq, Repr

/-- The enumeration `GMPVideoFrameFormat` (`gmp-video-frame.h`). -/
inductive GMPVideoFrameFormat where
  | kGMPEncodedVideoFrame
  | kGMPI420VideoFrame
  deriving DecidableEq, Repr

/-- The state of a `GMPVideoHostImpl`: the shared-memory manager (`none` is
`nullptr`) and the two arrays of tracked objects, each object known by its
address.  `invalidatedPlanes` and `invalidatedFrames` record, in program order,
the objects on which the host has called `InvalidateShmem()`. -/
structure GMPVideoHostImpl where
  mSharedMemMgr : Option Nat
  mPlanes : List Nat
  mEncodedFrames : List Nat
  invalidatedPlanes : List Nat
  invalidatedFrames : List Nat
  deriving DecidableEq, Repr

/-- `GMPVideoHostImpl::CreateFrame`.  `aFrame` tells whether the output pointer
is non-null and `newed` is what `new GMPVideoi420FrameImpl()` yields, should it
be evaluated (`none`: a null pointer).  The components of the result are the
returned code and what was written through `aFrame` (`none`: nothing was
written, `some none`: `nullptr`); the host itself is not changed. -/
def GMPVideoHostImpl.CreateFrame (h : GMPVideoHostImpl) (aFormat : GMPVideoFrameFormat)
    (aFrame : Bool) (newed : Option Nat) : GMPVideoErr × Option (Option Nat) :=
  if h.mSharedMemMgr = none then
    (GMPVideoErr.GMPVideoGenericErr, none)
  else if !aFrame then
    (GMPVideoErr.GMPVideoGenericErr, none)
  else if aFormat = GMPVideoFrameFormat.kGMPI420VideoFrame then
    match newed with
    | some f => (GMPVideoErr.GMPVideoNoErr, some (some f))
    | none => (GMPVideoErr.GMPVideoGenericErr, some none)
  else
    (GMPVideoErr.GMPVideoGenericErr, some none)

/-- `GMPVideoHostImpl::CreatePlane`, read as `CreateFrame`; the third component
is the host afterwards. -/
def GMPVideoHostImpl.CreatePlane (h : GMPVideoHostImpl) (aPlane : Bool)
    (newed : Option Nat) : GMPVideoErr × Option (Option Nat) × GMPVideoHostImpl :=
  if h.mSharedMemMgr = none then
    (GMPVideoErr.GMPVideoGenericErr, none, h)
  else if !aPlane then
    (GMPVideoErr.GMPVideoGenericErr, none, h)
  else
    match newed with
    | none => (GMPVideoErr.GMPVideoAllocErr, some none, h)
    | some p => (GMPVideoErr.GMPVideoNoErr, some (some p), { h with mPlanes := h.mPlanes ++ [p] })

/-- `GMPVideoHostImpl::CreateEncodedFrame`, read as `CreatePlane`. -/
def GMPVideoHostImpl.CreateEncodedFrame (h : GMPVideoHostImpl) (aFrame : Bool)
    (newed : Option Nat) : GMPVideoErr × Option (Option Nat) × GMPVideoHostImpl :=
  if h.mSharedMemMgr = none then
    (GMPVideoErr.GMPVideoGenericErr, none, h)
  else if !aFrame then
    (GMPVideoErr.GMPVideoGenericErr, none, h)
  else
    match newed with
    | none => (GMPVideoErr.GMPVideoAllocErr, some none, h)
    | some f =>
      (GMPVideoErr.GMPVideoNoErr, some (some f),
       { h with mEncodedFrames := h.mEncodedFrames ++ [f] })

/-- The loop `for (uint32_t i = ...; i < a.Length(); i++) { a[i]->InvalidateShmem();
a.RemoveElementAt(i); }` of `GMPVideoHostImpl::InvalidateShmem`, entered with
the index `i`, the array `tracked` and the objects invalidated so far; it
yields the array and the invalidated objects when the loop ends.  The index
stays below `Length()`, itself a `uint32_t`, so `i++` does not wrap. -/
def invalidateLoop (i : Nat) (tracked invalidated : List Nat) : List Nat × List Nat :=
  if h : i < tracked.length then
    invalidateLoop (i + 1) (tracked.eraseIdx i) (invalidated ++ [tracked[i]])
  else
    (tracked, invalidated)
termination_by tracked.length - i
decreasing_by
  simp only [List.length_eraseIdx, h, if_true]
  omega

/-- `GMPVideoHostImpl::InvalidateShmem`. -/
def GMPVideoHostImpl.InvalidateShmem (h : GMPVideoHostImpl) : GMPVideoHostImpl :=
  let planes := invalidateLoop 0 h.mPlanes h.invalidatedPlanes
  let frames := invalidateLoop 0 h.mEncodedFrames h.invalidatedFrames
  { mSharedMemMgr := none
    mPlanes := planes.1
    mEncodedFrames := frames.1
    invalidatedPlanes := planes.2
    invalidatedFrames := frames.2 }

/-- The entries of a list at the positions 0, 2, 4, ... -/
def evenPositions : List Nat → List Nat
  | [] => []
  | [a] => [a]
  | a :: _ :: rest => a :: evenPositions rest

/-- The entries of a list at the positions 1, 3, 5, ... -/
def oddPositions : List Nat → List Nat
  | [] => []
  | [_] => []
  | _ :: b :: rest => b :: oddPositions rest

/-- A host with a shared-memory manager that tracks five planes and two encoded
frames. -/
def sampleHost : GMPVideoHostImpl :=
  { mSharedMemMgr := some 1, mPlanes := [10, 11, 12, 13, 14], mEncodedFrames := [20, 21],
    invalidatedPlanes := [], invalidatedFrames := [] }

/-! ## AccEvent.cpp -/

/-- Value of `nsIAccessibleEvent::EVENT_SHOW` (`nsIAccessibleEvent.idl`); nothing
proved below depends on the number. -/
def EVENT_SHOW : Nat := 1

/-- Value of `nsIAccessibleEvent::EVENT_HIDE` (`nsIAccessibleEvent.idl`). -/
def EVENT_HIDE : Nat := 2

/-- The range of a `uint32_t`. -/
def UINT32_MOD : Nat := 2 ^ 32

/-- What `IsShowHideEventTarget` reads of an `AccEvent`: its type and the
address of its accessible. -/
structure AccEvent where
  mEventType : Nat
  mAccessible : Nat
  deriving DecidableEq, Repr

/-- The loop of `AccReorderEvent::IsShowHideEventTarget` entered with `index`,
for the dependent events `mDependentEvents`; `count` is
`mDependentEvents.Length()` as a `uint32_t` and `index--` wraps.  `none` is an
access `mDependentEvents[index]` outside the array, `some t` the returned
value. -/
def IsShowHideEventTargetLoop (mDependentEvents : List AccEvent) (aTarget : Nat)
    (index : Nat) : Option Nat :=
  if _h : index < mDependentEvents.length % UINT32_MOD then
    match mDependentEvents[index]? with
    | none => none
    | some e =>
      if e.mAccessible = aTarget then
        let eventType := e.mEventType
        if eventType = EVENT_SHOW ∨ eventType = EVENT_HIDE then
          some e.mEventType
        else
          IsShowHideEventTargetLoop mDependentEvents aTarget
            ((index + UINT32_MOD - 1) % UINT32_MOD)
      else
        IsShowHideEventTargetLoop mDependentEvents aTarget
          ((index + UINT32_MOD - 1) % UINT32_MOD)
  else
    some 0
termination_by if index < mDependentEvents.length % UINT32_MOD then index + 1 else 0
decreasing_by
  all_goals
    have hc : mDependentEvents.length % UINT32_MOD < UINT32_MOD :=
      Nat.mod_lt _ (by decide)
    simp only [_h, if_true]
    by_cases h0 : index = 0
    · subst h0
      have : (0 + UINT32_MOD - 1) % UINT32_MOD = UINT32_MOD - 1 := by decide
      rw [this, if_neg (by omega)]
      omega
    · have : (index + UINT32_MOD - 1) % UINT32_MOD = index - 1 := by
        have h1 : index + UINT32_MOD - 1 = (index - 1) + UINT32_MOD := by omega
        rw [h1, Nat.add_mod_right, Nat.mod_eq_of_lt (by omega)]
      rw [this, if_pos (by omega)]
      omega

/-- `AccReorderEvent::IsShowHideEventTarget`. -/
def IsShowHideEventTarget (mDependentEvents : List AccEvent) (aTarget : Nat) : Option Nat :=
  let count := mDependentEvents.length % UINT32_MOD
  IsShowHideEventTargetLoop mDependentEvents aTarget ((count + UINT32_MOD - 1) % UINT32_MOD)

/-- The event is a show or hide event of the accessible `aTarget`. -/
def AccEvent.isShowHideOf (e : AccEvent) (aTarget : Nat) : Prop :=
  e.mAccessible = aTarget ∧ (e.mEventType = EVENT_SHOW ∨ e.mEventType = EVENT_HIDE)

/-- Three dependent events: a show and a hide event of accessible 5 and a show
event of accessible 6. -/
def sampleDependentEvents : List AccEvent :=
  [{ mEventType := EVENT_SHOW, mAccessible := 5 },
   { mEventType := EVENT_HIDE, mAccessible := 5 },
   { mEventType := EVENT_SHOW, mAccessible := 6 }]

/-! ## VideoBenchmark.cpp -/

/-- The value of an `int` expression whose mathematical value is `x`, in 32-bit
two's complement. -/
def toInt32 (x : Int) : Int := (x + 2 ^ 31) % 2 ^ 32 - 2 ^ 31

/-- The members of a `YuvReader`: `input_fp_` and `frame_` tell whether the
pointer is non-null, `frame_` with the length of the array it points to. -/
structure YuvReader where
  input_fp_ : Bool
  init_ : Bool
  height_ : Int
  width_ : Int
  frame_size_ : Int
  frame_ : Option Int
  loop_ : Bool
  deriving DecidableEq, Repr

/-- The globals `g_width` and `g_height` of `VideoBenchmark.cpp`. -/
structure BenchmarkGlobals where
  g_width : Int
  g_height : Int
  deriving DecidableEq, Repr

/-- What the C library answers to `YuvReader::Init`: whether `fopen` yields a
stream, the line `fgets` reads (`none`: it fails), the result of `sscanf` with
the format `"YUV4MPEG2 W%d H%d"` on a line (the returned count and the two
converted integers), and whether `new unsigned char[n]` yields an array for a
size `n` that is not negative. -/
structure InputFile where
  fopen : Bool
  fgets : Option String
  sscanf : String → Int × Int × Int
  newArray : Nat → Bool

/-- `YuvReader::Init`.  `none`: the expression `new unsigned char[frame_size_]`
does not return, which is always so for a negative `frame_size_` and is up to
the allocator otherwise.  In every other case the returned `bool`, the reader
and the globals afterwards. -/
def YuvReader.Init (r : YuvReader) (g : BenchmarkGlobals) (file : InputFile)
    (loop : Bool) : Option (Bool × YuvReader × BenchmarkGlobals) :=
  let r := { r with loop_ := loop }
  let r := { r with input_fp_ := file.fopen }
  if !r.input_fp_ then
    some (false, r, g)
  else
    match file.fgets with
    | none => some (false, r, g)
    | some line =>
      let scanned := file.sscanf line
      let r := { r with
        width_ := if 1 ≤ scanned.1 then scanned.2.1 else r.width_
        height_ := if 2 ≤ scanned.1 then scanned.2.2 else r.height_ }
      if scanned.1 ≠ 2 then
        some (false, r, g)
      else if r.width_ ≤ 0 ∧ r.width_ > 2000 then
        some (false, r, g)
      else if r.height_ ≤ 0 ∧ r.height_ > 2000 then
        some (false, r, g)
      else
        let r := { r with
          frame_size_ := Int.tdiv (toInt32 (toInt32 (r.width_ * r.height_) * 3)) 2 }
        let g := { g with g_height := r.height_ }
        let g := { g with g_width := r.width_ }
        if r.frame_size_ < (0 : Int) then
          none
        else if file.newArray (r.frame_size_.toNat) then
          some (true, { r with frame_ := some r.frame_size_, init_ := true }, g)
        else
          none

/-- The body of the loop `for (int b = 0; b < 10; b++)` of
`Benchmark::ProcessFrame` that stamps the low bits of `frame_ct_` into the
frame, for a counter and a width that are not negative.  The loop state is the
frame and the variable `i`; `(char)(bit<<7)` stored in an `unsigned char` is
`(bit <<< 7) % 256`. -/
def ProcessFrameStampStep (frame_ct_ width_ : Nat) (s : List Nat × Nat) (b : Nat) :
    List Nat × Nat :=
  let bit := (frame_ct_ &&& (1 <<< s.2)) >>> s.2
  let i := s.2 + 1
  ((List.range 2).foldl
    (fun f y =>
      (List.range 2).foldl
        (fun f x => f.set (b * 2 + (y * width_ + x)) ((bit <<< 7) % 256)) f)
    s.1, i)

/-- The stamping loop of `Benchmark::ProcessFrame`, entered with `i = 0`: the
frame afterwards. -/
def ProcessFrameStamp (frame_ct_ width_ : Nat) (frame : List Nat) : List Nat :=
  ((List.range 10).foldl (ProcessFrameStampStep frame_ct_ width_) (frame, 0)).1

/-- The body of the loop `for (int b=0; b < 10; b++)` of
`Renderer::RenderVideoFrame` on the variable `total`; a read outside the
buffer yields 0. -/
def RenderVideoFrameStep (buffer : List Nat) (g_width : Nat) (total b : Nat) : Nat :=
  let sum := (List.range 2).foldl
    (fun sum y =>
      (List.range 2).foldl (fun sum x => sum + buffer.getD (b * 2 + y * g_width + x) 0) sum)
    0
  if sum / 4 > 60 then total + (1 <<< b) else total

/-- The value `total` that `Renderer::RenderVideoFrame` recovers from a
buffer. -/
def RenderVideoFrameTotal (buffer : List Nat) (g_width : Nat) : Nat :=
  (List.range 10).foldl (RenderVideoFrameStep buffer g_width) 0

/-- A file whose header is `YUV4MPEG2 W4000 H-3`; arrays of at most 2^30 bytes
can be allocated. -/
def sampleInputFile : InputFile :=
  { fopen := true, fgets := some "YUV4MPEG2 W4000 H-3", sscanf := fun _ => (2, 4000, -3),
    newArray := fun n => decide (n ≤ 2 ^ 30) }

/-- A file whose header is `YUV4MPEG2 W4000 H3000`; arrays of at most 2^30 bytes
can be allocated. -/
def largeInputFile : InputFile :=
  { fopen := true, fgets := some "YUV4MPEG2 W4000 H3000",
    sscanf := fun _ => (2, 4000, 3000), newArray := fun n => decide (n ≤ 2 ^ 30) }

/-- A reader as the constructor of `YuvReader` leaves it. -/
def newYuvReader : YuvReader :=
  { input_fp_ := false, init_ := false, height_ := 0, width_ := 0, frame_size_ := 0,
    frame_ := none, loop_ := false }

/-! # Properties -/

/-! ## Basic facts about the state operations -/

section StateLemmas

variable (m : PeerConnectionMedia) (c : Call)

@[simp] theorem record_mTransportFlows : (m.record c).mTransportFlows = m.mTransportFlows := rfl
@[simp] theorem record_mConduits : (m.record c).mConduits = m.mConduits := rfl
@[simp] theorem record_mLocalSourceStreams :
    (m.record c).mLocalSourceStreams = m.mLocalSourceStreams := rfl
@[simp] theorem record_mRemoteSourceStreams :
    (m.record c).mRemoteSourceStreams = m.mRemoteSourceStreams := rfl
@[simp] theorem record_stsQueue : (m.record c).stsQueue = m.stsQueue := rfl
@[simp] theorem record_flowLayers : (m.record c).flowLayers = m.flowLayers := rfl
@[simp] theorem record_nextAddr : (m.record c).nextAddr = m.nextAddr := rfl
@[simp] theorem record_calls : (m.record c).calls = m.calls ++ [c] := rfl
@[simp] theorem record_GetTransportFlow (level : Nat) (rtcp : Bool) :
    (m.record c).GetTransportFlow level rtcp = m.GetTransportFlow level rtcp := rfl
@[simp] theorem record_GetConduit (level : Nat) (receive : Bool) :
    (m.record c).GetConduit level receive = m.GetConduit level receive := rfl

@[simp] theorem alloc_fst : m.alloc.1 = m.nextAddr := rfl
@[simp] theorem alloc_mTransportFlows : m.alloc.2.mTransportFlows = m.mTransportFlows := rfl
@[simp] theorem alloc_mConduits : m.alloc.2.mConduits = m.mConduits := rfl
@[simp] theorem alloc_mLocalSourceStreams :
    m.alloc.2.mLocalSourceStreams = m.mLocalSourceStreams := rfl
@[simp] theorem alloc_mRemoteSourceStreams :
    m.alloc.2.mRemoteSourceStreams = m.mRemoteSourceStreams := rfl
@[simp] theorem alloc_stsQueue : m.alloc.2.stsQueue = m.stsQueue := rfl
@[simp] theorem alloc_flowLayers : m.alloc.2.flowLayers = m.flowLayers := rfl
@[simp] theorem alloc_nextAddr : m.alloc.2.nextAddr = m.nextAddr + 1 := rfl
@[simp] theorem alloc_calls : m.alloc.2.calls = m.calls := rfl
@[simp] theorem alloc_GetTransportFlow (level : Nat) (rtcp : Bool) :
    m.alloc.2.GetTransportFlow level rtcp = m.GetTransportFlow level rtcp := rfl
@[simp] theorem alloc_GetConduit (level : Nat) (receive : Bool) :
    m.alloc.2.GetConduit level receive = m.GetConduit level receive := rfl

end StateLemmas

section RegistryLemmas

variable (m : PeerConnectionMedia) (level : Nat) (flag : Bool)

@[simp] theorem AddTransportFlow_mTransportFlows (flow : TransportFlow) :
    (m.AddTransportFlow level flag flow).mTransportFlows =
      ((level, flag), flow) :: m.mTransportFlows.filter (fun e => e.1 ≠ (level, flag)) := rfl
@[simp] theorem AddTransportFlow_mConduits (flow : TransportFlow) :
    (m.AddTransportFlow level flag flow).mConduits = m.mConduits := rfl
@[simp] theorem AddTransportFlow_mLocalSourceStreams (flow : TransportFlow) :
    (m.AddTransportFlow level flag flow).mLocalSourceStreams = m.mLocalSourceStreams := rfl
@[simp] theorem AddTransportFlow_mRemoteSourceStreams (flow : TransportFlow) :
    (m.AddTransportFlow level flag flow).mRemoteSourceStreams = m.mRemoteSourceStreams := rfl
@[simp] theorem AddTransportFlow_stsQueue (flow : TransportFlow) :
    (m.AddTransportFlow level flag flow).stsQueue = m.stsQueue := rfl
@[simp] theorem AddTransportFlow_nextAddr (flow : TransportFlow) :
    (m.AddTransportFlow level flag flow).nextAddr = m.nextAddr := rfl
@[simp] theorem AddTransportFlow_calls (flow : TransportFlow) :
    (m.AddTransportFlow level flag flow).calls = m.calls := rfl
@[simp] theorem AddTransportFlow_GetConduit (flow : TransportFlow) (l : Nat) (r : Bool) :
    (m.AddTransportFlow level flag flow).GetConduit l r = m.GetConduit l r := rfl

@[simp] theorem AddConduit_mConduits (conduit : MediaSessionConduit) :
    (m.AddConduit level flag conduit).mConduits =
      ((level, flag), conduit) :: m.mConduits.filter (fun e => e.1 ≠ (level, flag)) := rfl
@[simp] theorem AddConduit_mTransportFlows (conduit : MediaSessionConduit) :
    (m.AddConduit level flag conduit).mTransportFlows = m.mTransportFlows := rfl
@[simp] theorem AddConduit_mLocalSourceStreams (conduit : MediaSessionConduit) :
    (m.AddConduit level flag conduit).mLocalSourceStreams = m.mLocalSourceStreams := rfl
@[simp] theorem AddConduit_mRemoteSourceStreams (conduit : MediaSessionConduit) :
    (m.AddConduit level flag conduit).mRemoteSourceStreams = m.mRemoteSourceStreams := rfl
@[simp] theorem AddConduit_stsQueue (conduit : MediaSessionConduit) :
    (m.AddConduit level flag conduit).stsQueue = m.stsQueue := rfl
@[simp] theorem AddConduit_nextAddr (conduit : MediaSessionConduit) :
    (m.AddConduit level flag conduit).nextAddr = m.nextAddr := rfl
@[simp] theorem AddConduit_calls (conduit : MediaSessionConduit) :
    (m.AddConduit level flag conduit).calls = m.calls := rfl
@[simp] theorem AddConduit_GetTransportFlow (conduit : MediaSessionConduit) (l : Nat)
    (r : Bool) :
    (m.AddConduit level flag conduit).GetTransportFlow l r = m.GetTransportFlow l r := rfl

/-- Removing the entries of another key does not change what a lookup finds. -/
theorem lookup_filter_ne {α : Type} (l : List ((Nat × Bool) × α)) (k k2 : Nat × Bool)
    (h : k2 ≠ k) :
    List.lookup k2 (l.filter (fun e => e.1 ≠ k)) = List.lookup k2 l := by
  induction l with
  | nil => rfl
  | cons e rest ih =>
    obtain ⟨a, b⟩ := e
    by_cases hk : a = k
    · have hne : (k2 == a) = false := by
        rw [hk]
        exact beq_false_of_ne h
      rw [List.filter_cons_of_neg (by simpa using hk), ih, List.lookup_cons, hne]
    · rw [List.filter_cons_of_pos (by simpa using hk), List.lookup_cons, List.lookup_cons, ih]

/-- A lookup in an association list with the key just put in front finds the new
value; at any other key the filtered rest answers as the old list did. -/
theorem lookup_insert {α : Type} (l : List ((Nat × Bool) × α)) (k k2 : Nat × Bool) (v : α) :
    List.lookup k2 ((k, v) :: l.filter (fun e => e.1 ≠ k)) =
      if k2 = k then some v else List.lookup k2 l := by
  by_cases h : k2 = k
  · subst h
    simp [List.lookup]
  · have hne : (k2 == k) = false := beq_false_of_ne h
    rw [List.lookup_cons, hne, if_neg h]
    exact lookup_filter_ne l k k2 h

theorem GetTransportFlow_AddTransportFlow (flow : TransportFlow) (l : Nat) (r : Bool) :
    (m.AddTransportFlow level flag flow).GetTransportFlow l r =
      if (l, r) = (level, flag) then some flow else m.GetTransportFlow l r := by
  simp only [PeerConnectionMedia.GetTransportFlow, AddTransportFlow_mTransportFlows]
  exact lookup_insert _ _ _ _

theorem GetConduit_AddConduit (conduit : MediaSessionConduit) (l : Nat) (r : Bool) :
    (m.AddConduit level flag conduit).GetConduit l r =
      if (l, r) = (level, flag) then some conduit else m.GetConduit l r := by
  simp only [PeerConnectionMedia.GetConduit, AddConduit_mConduits]
  exact lookup_insert _ _ _ _

end RegistryLemmas

theorem NS_FAILED_NS_OK : NS_FAILED NS_OK = false := by decide

theorem NS_FAILED_NS_ERROR_FAILURE : NS_FAILED NS_ERROR_FAILURE = true := by decide

theorem NS_FAILED_NS_ERROR_INVALID_ARG : NS_FAILED NS_ERROR_INVALID_ARG = true := by decide

/-! ## The transport-flow registry -/

/-- A registry hit: the registered flow is returned and the only effect is the
recorded lookup. -/
theorem CreateOrGetTransportFlow_hit (env : Env) (m : PeerConnectionMedia) (level : Nat)
    (rtcp : Bool) (transport : JsepTransport) (flow : TransportFlow)
    (h : m.GetTransportFlow level rtcp = some flow) :
    CreateOrGetTransportFlow env m level rtcp transport =
      (NS_OK, some flow, m.record (Call.GetTransportFlow level rtcp)) := by
  simp [CreateOrGetTransportFlow, h]

/-- An error of the fingerprint loop is always a failure code. -/
theorem installFingerprints_error (env : Env) (fps : List SdpFingerprint) :
    ∀ (dtls : TransportLayerDtls) (rv : nsresult),
      installFingerprints env dtls fps = Except.error rv → NS_FAILED rv = true := by
  induction fps with
  | nil => intro dtls rv h; simp [installFingerprints] at h
  | cons fp rest ih =>
    intro dtls rv h
    simp only [installFingerprints] at h
    split at h
    · next hp => cases h; exact hp
    · split at h
      · next hs => cases h; exact hs
      · exact ih _ _ h

/-- A call that does not fail returns `NS_OK`, stores a flow through `out`, and
that flow is the one registered under the key afterwards. -/
theorem CreateOrGetTransportFlow_success (env : Env) (m : PeerConnectionMedia) (level : Nat)
    (rtcp : Bool) (transport : JsepTransport)
    (h : NS_FAILED (CreateOrGetTransportFlow env m level rtcp transport).1 = false) :
    ∃ flow,
      (CreateOrGetTransportFlow env m level rtcp transport).1 = NS_OK ∧
      (CreateOrGetTransportFlow env m level rtcp transport).2.1 = some flow ∧
      (CreateOrGetTransportFlow env m level rtcp transport).2.2.GetTransportFlow level rtcp =
        some flow := by
  unfold CreateOrGetTransportFlow at h ⊢
  simp only at h ⊢
  split
  · next flow hf => exact ⟨flow, rfl, rfl, hf⟩
  · next hmiss =>
    rw [hmiss] at h
    simp only at h
    split
    · next hid => rw [hid] at h; simp [NS_FAILED_NS_ERROR_FAILURE] at h
    · next pcid hid =>
      rw [hid] at h
      simp only at h
      split
      · next rv hrv =>
        rw [hrv] at h
        simp only at h
        rw [installFingerprints_error _ _ _ _ hrv] at h
        exact absurd h (by simp)
      · next dtls hd =>
        rw [hd] at h
        simp only at h
        split
        · next hs => rw [if_pos hs] at h; simp only at h; rw [hs] at h; exact absurd h (by simp)
        · next hs =>
          rw [if_neg hs] at h
          split
          · next hdisp => rw [if_pos hdisp] at h; simp only at h; rw [hdisp] at h; exact absurd h (by simp)
          · refine ⟨_, rfl, rfl, ?_⟩
            simp [GetTransportFlow_AddTransportFlow]

/-- A failing call stores nothing through `out`, happened on a registry miss and
leaves the registry and the STS queue as they were. -/
theorem CreateOrGetTransportFlow_failure (env : Env) (m : PeerConnectionMedia) (level : Nat)
    (rtcp : Bool) (transport : JsepTransport)
    (h : NS_FAILED (CreateOrGetTransportFlow env m level rtcp transport).1 = true) :
    m.GetTransportFlow level rtcp = none ∧
    (CreateOrGetTransportFlow env m level rtcp transport).2.1 = none ∧
    (CreateOrGetTransportFlow env m level rtcp transport).2.2.mTransportFlows =
      m.mTransportFlows ∧
    (CreateOrGetTransportFlow env m level rtcp transport).2.2.stsQueue = m.stsQueue := by
  unfold CreateOrGetTransportFlow at h ⊢
  simp only at h ⊢
  split
  · next flow hf =>
    rw [hf] at h
    simp [NS_FAILED_NS_OK] at h
  · next hmiss =>
    rw [hmiss] at h
    simp only at h
    refine ⟨hmiss, ?_⟩
    split
    · refine ⟨rfl, ?_, ?_⟩ <;> simp
    · next pcid hid =>
      rw [hid] at h
      simp only at h
      split
      · refine ⟨rfl, ?_, ?_⟩ <;> simp
      · next dtls hd =>
        rw [hd] at h
        simp only at h
        split
        · refine ⟨rfl, ?_, ?_⟩ <;> simp
        · next hs =>
          rw [if_neg hs] at h
          split
          · refine ⟨rfl, ?_, ?_⟩ <;> simp
          · next hdisp =>
            rw [if_neg hdisp] at h
            simp [NS_FAILED_NS_OK] at h

/-- On a registry miss the call starts building: after the lookup it constructs
a new flow at the next free address, an ICE layer and a DTLS layer. -/
theorem CreateOrGetTransportFlow_miss_calls (env : Env) (m : PeerConnectionMedia)
    (level : Nat) (rtcp : Bool) (transport : JsepTransport)
    (hmiss : m.GetTransportFlow level rtcp = none) :
    ∃ rest,
      (CreateOrGetTransportFlow env m level rtcp transport).2.2.calls =
        m.calls ++
          [Call.GetTransportFlow level rtcp,
           Call.NewTransportFlow { addr := m.nextAddr, id := flowId env.handle level rtcp },
           Call.NewTransportLayerIce env.handle,
           Call.NewTransportLayerDtls] ++ rest := by
  unfold CreateOrGetTransportFlow
  simp only [record_GetTransportFlow, hmiss]
  split
  · exact ⟨[], by simp⟩
  · split
    · exact ⟨[], by simp⟩
    · split
      · exact ⟨[], by simp⟩
      · split
        · exact ⟨[_], by simp; rfl⟩
        · exact ⟨[_, _], by simp; exact ⟨rfl, rfl⟩⟩

/-- A fingerprint that cannot be decoded makes the fingerprint loop fail. -/
theorem installFingerprints_parse_failure (env : Env) (fps : List SdpFingerprint)
    (h : ∃ fp ∈ fps, NS_FAILED (env.ParseFingerprint fp.fingerprint).1 = true) :
    ∀ dtls : TransportLayerDtls, ∃ rv, installFingerprints env dtls fps = Except.error rv := by
  induction fps with
  | nil => simp at h
  | cons fp rest ih =>
    intro dtls
    simp only [installFingerprints]
    split
    · exact ⟨_, rfl⟩
    · next hp =>
      split
      · exact ⟨_, rfl⟩
      · obtain ⟨fp2, hmem, hfail⟩ := h
        rcases List.mem_cons.mp hmem with heq | hin
        · subst heq; exact absurd hfail hp
        · exact ih ⟨fp2, hin, hfail⟩ _

/-- A digest that the DTLS layer refuses to install makes the fingerprint loop
fail. -/
theorem installFingerprints_digest_failure (env : Env) (fps : List SdpFingerprint)
    (h : ∃ fp ∈ fps, ∀ dtls : TransportLayerDtls,
      NS_FAILED (env.SetVerificationDigest dtls fp.hashFunc
        (env.ParseFingerprint fp.fingerprint).2) = true) :
    ∀ dtls : TransportLayerDtls, ∃ rv, installFingerprints env dtls fps = Except.error rv := by
  induction fps with
  | nil => simp at h
  | cons fp rest ih =>
    intro dtls
    simp only [installFingerprints]
    split
    · exact ⟨_, rfl⟩
    · split
      · exact ⟨_, rfl⟩
      · next hs =>
        obtain ⟨fp2, hmem, hfail⟩ := h
        rcases List.mem_cons.mp hmem with heq | hin
        · subst heq; exact absurd (hfail dtls) hs
        · exact ih ⟨fp2, hin, hfail⟩ _

/-- On a registry miss each of the causes in `FlowCreationFails` makes the call
return a failure code. -/
theorem CreateOrGetTransportFlow_fails (env : Env) (m : PeerConnectionMedia) (level : Nat)
    (rtcp : Bool) (transport : JsepTransport)
    (hmiss : m.GetTransportFlow level rtcp = none)
    (hcause : FlowCreationFails env transport) :
    NS_FAILED (CreateOrGetTransportFlow env m level rtcp transport).1 = true := by
  unfold CreateOrGetTransportFlow
  simp only [record_GetTransportFlow, hmiss]
  split
  · exact NS_FAILED_NS_ERROR_FAILURE
  · next pcid hid =>
    split
    · next rv hrv => exact installFingerprints_error _ _ _ _ hrv
    · next dtls hd =>
      split
      · next hs => exact hs
      · next hs =>
        split
        · next hdisp => exact hdisp
        · next hdisp =>
          exfalso
          rcases hcause with h | h | h | h | h
          · rw [hid] at h; cases h
          · obtain ⟨rv, hrv⟩ := installFingerprints_parse_failure env _ h
              { role := some (if transport.mDtls.role = JsepDtlsRole.kJsepDtlsClient
                              then DtlsRole.CLIENT else DtlsRole.SERVER)
                identity := some pcid, digests := [], srtp_ciphers := [] }
            rw [hrv] at hd; cases hd
          · obtain ⟨rv, hrv⟩ := installFingerprints_digest_failure env _ h
              { role := some (if transport.mDtls.role = JsepDtlsRole.kJsepDtlsClient
                              then DtlsRole.CLIENT else DtlsRole.SERVER)
                identity := some pcid, digests := [], srtp_ciphers := [] }
            rw [hrv] at hd; cases hd
          · exact hs (h dtls)
          · exact hdisp (h _ _)

/-! ## Claims -/

/-- C1. Idempotent flow reuse: after a `CreateOrGetTransportFlow` for a key
that did not fail, a second call for the same key, whatever environment
(identity) and transport association it is given, returns `NS_OK` and the very
same flow; the registry, the STS queue (no second finalization dispatch) and
the allocator (no new flow, ICE or DTLS layer) are unchanged, and the only
call it makes is the lookup. -/
theorem CreateOrGetTransportFlow_idempotent (env1 env2 : Env) (m : PeerConnectionMedia)
    (level : Nat) (rtcp : Bool) (t1 t2 : JsepTransport)
    (h : NS_FAILED (CreateOrGetTransportFlow env1 m level rtcp t1).1 = false) :
    ∃ flow,
      (CreateOrGetTransportFlow env1 m level rtcp t1).2.1 = some flow ∧
      (CreateOrGetTransportFlow env2
        (CreateOrGetTransportFlow env1 m level rtcp t1).2.2 level rtcp t2).1 = NS_OK ∧
      (CreateOrGetTransportFlow env2
        (CreateOrGetTransportFlow env1 m level rtcp t1).2.2 level rtcp t2).2.1 = some flow ∧
      (CreateOrGetTransportFlow env2
        (CreateOrGetTransportFlow env1 m level rtcp t1).2.2 level rtcp t2).2.2.mTransportFlows =
        (CreateOrGetTransportFlow env1 m level rtcp t1).2.2.mTransportFlows ∧
      (CreateOrGetTransportFlow env2
        (CreateOrGetTransportFlow env1 m level rtcp t1).2.2 level rtcp t2).2.2.stsQueue =
        (CreateOrGetTransportFlow env1 m level rtcp t1).2.2.stsQueue ∧
      (CreateOrGetTransportFlow env2
        (CreateOrGetTransportFlow env1 m level rtcp t1).2.2 level rtcp t2).2.2.nextAddr =
        (CreateOrGetTransportFlow env1 m level rtcp t1).2.2.nextAddr ∧
      (CreateOrGetTransportFlow env2
        (CreateOrGetTransportFlow env1 m level rtcp t1).2.2 level rtcp t2).2.2.calls =
        (CreateOrGetTransportFlow env1 m level rtcp t1).2.2.calls ++
          [Call.GetTransportFlow level rtcp] := by
  obtain ⟨flow, _, hout, hreg⟩ := CreateOrGetTransportFlow_success env1 m level rtcp t1 h
  refine ⟨flow, hout, ?_⟩
  rw [CreateOrGetTransportFlow_hit env2 _ level rtcp t2 flow hreg]
  exact ⟨rfl, rfl, rfl, rfl, rfl, rfl⟩

theorem CreateOrGetTransportFlow_idempotent_witness :
    NS_FAILED (CreateOrGetTransportFlow okEnv emptyMedia 0 false sampleTransport).1 = false ∧
    ∃ flow,
      (CreateOrGetTransportFlow okEnv emptyMedia 0 false sampleTransport).2.1 = some flow ∧
      (CreateOrGetTransportFlow noIdentityEnv
        (CreateOrGetTransportFlow okEnv emptyMedia 0 false sampleTransport).2.2
        0 false sampleTransport).1 = NS_OK ∧
      (CreateOrGetTransportFlow noIdentityEnv
        (CreateOrGetTransportFlow okEnv emptyMedia 0 false sampleTransport).2.2
        0 false sampleTransport).2.1 = some flow ∧
      (CreateOrGetTransportFlow noIdentityEnv
        (CreateOrGetTransportFlow okEnv emptyMedia 0 false sampleTransport).2.2
        0 false sampleTransport).2.2.mTransportFlows =
        (CreateOrGetTransportFlow okEnv emptyMedia 0 false sampleTransport).2.2.mTransportFlows ∧
      (CreateOrGetTransportFlow noIdentityEnv
        (CreateOrGetTransportFlow okEnv emptyMedia 0 false sampleTransport).2.2
        0 false sampleTransport).2.2.stsQueue =
        (CreateOrGetTransportFlow okEnv emptyMedia 0 false sampleTransport).2.2.stsQueue ∧
      (CreateOrGetTransportFlow noIdentityEnv
        (CreateOrGetTransportFlow okEnv emptyMedia 0 false sampleTransport).2.2
        0 false sampleTransport).2.2.nextAddr =
        (CreateOrGetTransportFlow okEnv emptyMedia 0 false sampleTransport).2.2.nextAddr ∧
      (CreateOrGetTransportFlow noIdentityEnv
        (CreateOrGetTransportFlow okEnv emptyMedia 0 false sampleTransport).2.2
        0 false sampleTransport).2.2.calls =
        (CreateOrGetTransportFlow okEnv emptyMedia 0 false sampleTransport).2.2.calls ++
          [Call.GetTransportFlow 0 false] :=
  ⟨by decide,
   CreateOrGetTransportFlow_idempotent okEnv noIdentityEnv emptyMedia 0 false sampleTransport
     sampleTransport (by decide)⟩

/-- C2. Failed creation registers nothing: on a registry miss, when the local
identity is missing, a fingerprint cannot be decoded, a digest cannot be
installed, the SRTP cipher list is rejected (or the dispatch fails),
`CreateOrGetTransportFlow` returns a failure code, stores no flow through
`out`, and leaves the registry and the STS queue exactly as before; the key is
still unregistered, and any subsequent call for the key starts creation again
(new flow object, new ICE layer, new DTLS layer). -/
theorem CreateOrGetTransportFlow_failure_not_registered (env : Env) (m : PeerConnectionMedia)
    (level : Nat) (rtcp : Bool) (transport : JsepTransport)
    (hmiss : m.GetTransportFlow level rtcp = none)
    (hcause : FlowCreationFails env transport) :
    NS_FAILED (CreateOrGetTransportFlow env m level rtcp transport).1 = true ∧
    (CreateOrGetTransportFlow env m level rtcp transport).2.1 = none ∧
    (CreateOrGetTransportFlow env m level rtcp transport).2.2.mTransportFlows =
      m.mTransportFlows ∧
    (CreateOrGetTransportFlow env m level rtcp transport).2.2.stsQueue = m.stsQueue ∧
    (CreateOrGetTransportFlow env m level rtcp transport).2.2.GetTransportFlow level rtcp =
      none ∧
    ∀ (env2 : Env) (transport2 : JsepTransport), ∃ rest,
      (CreateOrGetTransportFlow env2
        (CreateOrGetTransportFlow env m level rtcp transport).2.2
        level rtcp transport2).2.2.calls =
      (CreateOrGetTransportFlow env m level rtcp transport).2.2.calls ++
        [Call.GetTransportFlow level rtcp,
         Call.NewTransportFlow
           { addr := (CreateOrGetTransportFlow env m level rtcp transport).2.2.nextAddr
             id := flowId env2.handle level rtcp },
         Call.NewTransportLayerIce env2.handle,
         Call.NewTransportLayerDtls] ++ rest := by
  have hfail := CreateOrGetTransportFlow_fails env m level rtcp transport hmiss hcause
  obtain ⟨_, hout, hreg, hq⟩ := CreateOrGetTransportFlow_failure env m level rtcp transport hfail
  have hstill :
      (CreateOrGetTransportFlow env m level rtcp transport).2.2.GetTransportFlow level rtcp =
        none := by
    simp only [PeerConnectionMedia.GetTransportFlow] at hmiss ⊢
    rw [hreg]
    exact hmiss
  exact ⟨hfail, hout, hreg, hq, hstill, fun env2 transport2 =>
    CreateOrGetTransportFlow_miss_calls env2 _ level rtcp transport2 hstill⟩

theorem CreateOrGetTransportFlow_failure_not_registered_witness :
    emptyMedia.GetTransportFlow 0 false = none ∧
    FlowCreationFails noIdentityEnv sampleTransport ∧
    NS_FAILED (CreateOrGetTransportFlow noIdentityEnv emptyMedia 0 false sampleTransport).1 =
      true ∧
    (CreateOrGetTransportFlow noIdentityEnv emptyMedia 0 false sampleTransport).2.2.mTransportFlows
      = emptyMedia.mTransportFlows :=
  ⟨by decide, Or.inl rfl,
   (CreateOrGetTransportFlow_failure_not_registered noIdentityEnv emptyMedia 0 false
     sampleTransport (by decide) (Or.inl rfl)).1,
   (CreateOrGetTransportFlow_failure_not_registered noIdentityEnv emptyMedia 0 false
     sampleTransport (by decide) (Or.inl rfl)).2.2.1⟩

/-- C5. Type safety of translation: a description whose media type is not
audio makes the audio translation return `NS_ERROR_INVALID_ARG` (a failure
code) without storing a config, likewise a description that is not video for
the video translation; a description of the matching type always yields
`NS_OK` and a config. -/
theorem JsepCodecDescToCodecConfig_type_safety (d : JsepCodecDescription) :
    NS_FAILED NS_ERROR_INVALID_ARG = true ∧
    (d.mType ≠ MediaType.kAudio →
      JsepCodecDescToCodecConfigAudio d = Except.error NS_ERROR_INVALID_ARG) ∧
    (d.mType ≠ MediaType.kVideo →
      JsepCodecDescToCodecConfigVideo d = Except.error NS_ERROR_INVALID_ARG) ∧
    (d.mType = MediaType.kAudio → ∃ c, JsepCodecDescToCodecConfigAudio d = Except.ok c) ∧
    (d.mType = MediaType.kVideo → ∃ c, JsepCodecDescToCodecConfigVideo d = Except.ok c) := by
  refine ⟨NS_FAILED_NS_ERROR_INVALID_ARG, ?_, ?_, ?_, ?_⟩
  · intro h; simp [JsepCodecDescToCodecConfigAudio, h]
  · intro h; simp [JsepCodecDescToCodecConfigVideo, h]
  · intro h; simp [JsepCodecDescToCodecConfigAudio, h]
  · intro h; simp [JsepCodecDescToCodecConfigVideo, h]

theorem JsepCodecDescToCodecConfig_type_safety_witness :
    JsepCodecDescToCodecConfigAudio vp8Desc = Except.error NS_ERROR_INVALID_ARG ∧
    JsepCodecDescToCodecConfigVideo opusDesc = Except.error NS_ERROR_INVALID_ARG ∧
    (∃ c, JsepCodecDescToCodecConfigAudio opusDesc = Except.ok c) ∧
    (∃ c, JsepCodecDescToCodecConfigVideo vp8Desc = Except.ok c) :=
  ⟨(JsepCodecDescToCodecConfig_type_safety vp8Desc).2.1 (by decide),
   (JsepCodecDescToCodecConfig_type_safety opusDesc).2.2.1 (by decide),
   (JsepCodecDescToCodecConfig_type_safety opusDesc).2.2.2.1 (by decide),
   (JsepCodecDescToCodecConfig_type_safety vp8Desc).2.2.2.2 (by decide)⟩

/-! ## Conduit configuration -/

theorem configureAudioConduit_no_codecs (env : Env) (m : PeerConnectionMedia)
    (conduit : MediaSessionConduit) (track : JsepTrack) (receiving : Bool)
    (h : track.codecs = []) :
    configureAudioConduit env m conduit track receiving = (NS_ERROR_FAILURE, none, m) := by
  simp [configureAudioConduit, JsepTrack.num_codecs, h]

theorem configureVideoConduit_no_codecs (env : Env) (m : PeerConnectionMedia)
    (conduit : MediaSessionConduit) (track : JsepTrack) (receiving : Bool)
    (h : track.codecs = []) :
    configureVideoConduit env m conduit track receiving = (NS_ERROR_FAILURE, none, m) := by
  simp [configureVideoConduit, JsepTrack.num_codecs, h]

/-- The sending branch of the audio configuration reads only the first codec. -/
theorem configureAudioConduit_send (env : Env) (m : PeerConnectionMedia)
    (conduit : MediaSessionConduit) (track : JsepTrack) (d : JsepCodecDescription)
    (r : List JsepCodecDescription) (h : track.codecs = d :: r) :
    configureAudioConduit env m conduit track false =
      match JsepCodecDescToCodecConfigAudio d with
      | Except.error rv => (rv, none, m)
      | Except.ok config =>
        if env.AudioConfigureSendMediaCodec m.calls conduit config ≠ 0 then
          (NS_ERROR_FAILURE, none,
            m.record (Call.AudioConfigureSendMediaCodec conduit.addr config))
        else
          (NS_OK, some conduit,
            m.record (Call.AudioConfigureSendMediaCodec conduit.addr config)) := by
  simp [configureAudioConduit, JsepTrack.num_codecs, JsepTrack.get_codec, h]

/-- The sending branch of the video configuration reads only the first codec. -/
theorem configureVideoConduit_send (env : Env) (m : PeerConnectionMedia)
    (conduit : MediaSessionConduit) (track : JsepTrack) (d : JsepCodecDescription)
    (r : List JsepCodecDescription) (h : track.codecs = d :: r) :
    configureVideoConduit env m conduit track false =
      match JsepCodecDescToCodecConfigVideo d with
      | Except.error rv => (rv, none, m)
      | Except.ok config =>
        if (EnsureExternalCodec env m conduit config true).1 ≠ 0 then
          (NS_ERROR_FAILURE, none, (EnsureExternalCodec env m conduit config true).2)
        else if env.VideoConfigureSendMediaCodec
            (EnsureExternalCodec env m conduit config true).2.calls conduit config ≠ 0 then
          (NS_ERROR_FAILURE, none,
            (EnsureExternalCodec env m conduit config true).2.record
              (Call.VideoConfigureSendMediaCodec conduit.addr config))
        else
          (NS_OK, some conduit,
            (EnsureExternalCodec env m conduit config true).2.record
              (Call.VideoConfigureSendMediaCodec conduit.addr config)) := by
  simp [configureVideoConduit, JsepTrack.num_codecs, JsepTrack.get_codec, h]

/-- The calls `EnsureExternalCodec` makes are appended to the trace and none of
them is a configuration call. -/
theorem EnsureExternalCodec_calls (env : Env) (m : PeerConnectionMedia)
    (conduit : MediaSessionConduit) (config : VideoCodecConfig) (send : Bool) :
    ∃ new, (EnsureExternalCodec env m conduit config send).2.calls = m.calls ++ new ∧
      new.filter Call.isConfigure = [] := by
  unfold EnsureExternalCodec
  split
  · exact ⟨[], by simp, rfl⟩
  · split
    · dsimp only
      split
      · split
        · exact ⟨_, by simp only [record_calls, List.append_assoc]; rfl,
            by simp [Call.isConfigure]⟩
        · exact ⟨_, by simp only [record_calls, List.append_assoc]; rfl,
            by simp [Call.isConfigure]⟩
      · split
        · exact ⟨_, by simp only [record_calls, List.append_assoc]; rfl,
            by simp [Call.isConfigure]⟩
        · exact ⟨_, by simp only [record_calls, List.append_assoc]; rfl,
            by simp [Call.isConfigure]⟩
    · exact ⟨[], by simp, rfl⟩

/-- The sending branch of the audio configuration makes at most one
configuration call, a `ConfigureSendMediaCodec` with the translation of the
first codec. -/
theorem configureAudioConduit_send_calls (env : Env) (m : PeerConnectionMedia)
    (conduit : MediaSessionConduit) (track : JsepTrack) (d : JsepCodecDescription)
    (r : List JsepCodecDescription) (h : track.codecs = d :: r) :
    ∃ new, (configureAudioConduit env m conduit track false).2.2.calls = m.calls ++ new ∧
      (new.filter Call.isConfigure = [] ∨
        ∃ config, JsepCodecDescToCodecConfigAudio d = Except.ok config ∧
          new.filter Call.isConfigure =
            [Call.AudioConfigureSendMediaCodec conduit.addr config]) := by
  rw [configureAudioConduit_send env m conduit track d r h]
  split
  · exact ⟨[], by simp, Or.inl rfl⟩
  · next config hc =>
    split
    · exact ⟨[_], rfl, Or.inr ⟨config, hc, by simp [Call.isConfigure]⟩⟩
    · exact ⟨[_], rfl, Or.inr ⟨config, hc, by simp [Call.isConfigure]⟩⟩

/-- The sending branch of the video configuration makes at most one
configuration call, a `ConfigureSendMediaCodec` with the translation of the
first codec. -/
theorem configureVideoConduit_send_calls (env : Env) (m : PeerConnectionMedia)
    (conduit : MediaSessionConduit) (track : JsepTrack) (d : JsepCodecDescription)
    (r : List JsepCodecDescription) (h : track.codecs = d :: r) :
    ∃ new, (configureVideoConduit env m conduit track false).2.2.calls = m.calls ++ new ∧
      (new.filter Call.isConfigure = [] ∨
        ∃ config, JsepCodecDescToCodecConfigVideo d = Except.ok config ∧
          new.filter Call.isConfigure =
            [Call.VideoConfigureSendMediaCodec conduit.addr config]) := by
  rw [configureVideoConduit_send env m conduit track d r h]
  split
  · exact ⟨[], by simp, Or.inl rfl⟩
  · next config hc =>
    obtain ⟨e, he, hef⟩ := EnsureExternalCodec_calls env m conduit config true
    split
    · exact ⟨e, he, Or.inl hef⟩
    · split
      · refine ⟨e ++ [Call.VideoConfigureSendMediaCodec conduit.addr config], ?_,
          Or.inr ⟨config, hc, ?_⟩⟩
        · simp [he]
        · simp [hef, Call.isConfigure]
      · refine ⟨e ++ [Call.VideoConfigureSendMediaCodec conduit.addr config], ?_,
          Or.inr ⟨config, hc, ?_⟩⟩
        · simp [he]
        · simp [hef, Call.isConfigure]

/-- How `CreateAudioConduit` proceeds: either `AudioSessionConduit::Create`
returns null and the call fails, or a conduit linked to the result of
`GetConduit(level, receiving)` is allocated and registered under
(level, receiving) and the codec configuration follows. -/
theorem CreateAudioConduit_cases (env : Env) (m : PeerConnectionMedia)
    (trackPair : JsepTrackPair) (track : JsepTrack) :
    (CreateAudioConduit env m trackPair track =
      (NS_ERROR_FAILURE, none,
        (m.record (Call.GetConduit trackPair.mLevel
          (decide (track.direction = Direction.kJsepTrackReceiving)))).record
          (Call.AudioSessionConduitCreate (m.GetConduit trackPair.mLevel
            (decide (track.direction = Direction.kJsepTrackReceiving))))) ∧
      env.AudioSessionConduitCreate
        (m.calls ++ [Call.GetConduit trackPair.mLevel
          (decide (track.direction = Direction.kJsepTrackReceiving))])
        (m.GetConduit trackPair.mLevel
          (decide (track.direction = Direction.kJsepTrackReceiving))) = false) ∨
    ∃ M : PeerConnectionMedia,
      CreateAudioConduit env m trackPair track =
        configureAudioConduit env M
          { addr := m.nextAddr, type := ConduitType.AUDIO,
            other := (m.GetConduit trackPair.mLevel
              (decide (track.direction = Direction.kJsepTrackReceiving))).map (·.addr) }
          track (decide (track.direction = Direction.kJsepTrackReceiving)) ∧
      M.calls = m.calls ++
        [Call.GetConduit trackPair.mLevel
           (decide (track.direction = Direction.kJsepTrackReceiving)),
         Call.AudioSessionConduitCreate (m.GetConduit trackPair.mLevel
           (decide (track.direction = Direction.kJsepTrackReceiving))),
         Call.AddConduit trackPair.mLevel
           (decide (track.direction = Direction.kJsepTrackReceiving))
           { addr := m.nextAddr, type := ConduitType.AUDIO,
             other := (m.GetConduit trackPair.mLevel
               (decide (track.direction = Direction.kJsepTrackReceiving))).map (·.addr) }] ∧
      M.mConduits =
        ((trackPair.mLevel, decide (track.direction = Direction.kJsepTrackReceiving)),
          { addr := m.nextAddr, type := ConduitType.AUDIO,
            other := (m.GetConduit trackPair.mLevel
              (decide (track.direction = Direction.kJsepTrackReceiving))).map (·.addr) }) ::
          m.mConduits.filter (fun e => e.1 ≠
            (trackPair.mLevel, decide (track.direction = Direction.kJsepTrackReceiving))) ∧
      M.mTransportFlows = m.mTransportFlows ∧
      M.mLocalSourceStreams = m.mLocalSourceStreams ∧
      M.mRemoteSourceStreams = m.mRemoteSourceStreams ∧
      M.stsQueue = m.stsQueue ∧
      M.nextAddr = m.nextAddr + 1 := by
  unfold CreateAudioConduit
  dsimp only
  split
  · next h => exact Or.inl ⟨rfl, by simpa using h⟩
  · exact Or.inr ⟨_, rfl, by simp, by simp, by simp, by simp, by simp, by simp, by simp⟩

/-- How `CreateVideoConduit` proceeds: either `VideoSessionConduit::Create`
returns null and the call fails, or a conduit linked to the result of
`GetConduit(level, true)` is allocated and registered under (level, receiving)
and the codec configuration follows. -/
theorem CreateVideoConduit_cases (env : Env) (m : PeerConnectionMedia)
    (trackPair : JsepTrackPair) (track : JsepTrack) :
    (CreateVideoConduit env m trackPair track =
      (NS_ERROR_FAILURE, none,
        (m.record (Call.GetConduit trackPair.mLevel true)).record
          (Call.VideoSessionConduitCreate (m.GetConduit trackPair.mLevel true))) ∧
      env.VideoSessionConduitCreate (m.calls ++ [Call.GetConduit trackPair.mLevel true])
        (m.GetConduit trackPair.mLevel true) = false) ∨
    ∃ M : PeerConnectionMedia,
      CreateVideoConduit env m trackPair track =
        configureVideoConduit env M
          { addr := m.nextAddr, type := ConduitType.VIDEO,
            other := (m.GetConduit trackPair.mLevel true).map (·.addr) }
          track (decide (track.direction = Direction.kJsepTrackReceiving)) ∧
      M.calls = m.calls ++
        [Call.GetConduit trackPair.mLevel true,
         Call.VideoSessionConduitCreate (m.GetConduit trackPair.mLevel true),
         Call.AddConduit trackPair.mLevel
           (decide (track.direction = Direction.kJsepTrackReceiving))
           { addr := m.nextAddr, type := ConduitType.VIDEO,
             other := (m.GetConduit trackPair.mLevel true).map (·.addr) }] ∧
      M.mConduits =
        ((trackPair.mLevel, decide (track.direction = Direction.kJsepTrackReceiving)),
          { addr := m.nextAddr, type := ConduitType.VIDEO,
            other := (m.GetConduit trackPair.mLevel true).map (·.addr) }) ::
          m.mConduits.filter (fun e => e.1 ≠
            (trackPair.mLevel, decide (track.direction = Direction.kJsepTrackReceiving))) ∧
      M.mTransportFlows = m.mTransportFlows ∧
      M.mLocalSourceStreams = m.mLocalSourceStreams ∧
      M.mRemoteSourceStreams = m.mRemoteSourceStreams ∧
      M.stsQueue = m.stsQueue ∧
      M.nextAddr = m.nextAddr + 1 := by
  unfold CreateVideoConduit
  dsimp only
  split
  · next h => exact Or.inl ⟨rfl, by simpa using h⟩
  · exact Or.inr ⟨_, rfl, by simp, by simp, by simp, by simp, by simp, by simp, by simp⟩

/-- C3. Zero-codec rejection: for a track with an empty codec list, whatever
its media type and direction, `CreateAudioConduit` and `CreateVideoConduit`
fail with `NS_ERROR_FAILURE` (the code's result for "Can't set up a conduit
with 0 codecs"), hand no conduit back, and none of the calls they make is a
send- or receive-configuration call. -/
theorem CreateConduit_no_codecs (env : Env) (m : PeerConnectionMedia)
    (trackPair : JsepTrackPair) (track : JsepTrack) (h : track.codecs = []) :
    NS_FAILED NS_ERROR_FAILURE = true ∧
    ((CreateAudioConduit env m trackPair track).1 = NS_ERROR_FAILURE ∧
      (CreateAudioConduit env m trackPair track).2.1 = none ∧
      ∃ new, (CreateAudioConduit env m trackPair track).2.2.calls = m.calls ++ new ∧
        new.filter Call.isConfigure = []) ∧
    ((CreateVideoConduit env m trackPair track).1 = NS_ERROR_FAILURE ∧
      (CreateVideoConduit env m trackPair track).2.1 = none ∧
      ∃ new, (CreateVideoConduit env m trackPair track).2.2.calls = m.calls ++ new ∧
        new.filter Call.isConfigure = []) := by
  refine ⟨NS_FAILED_NS_ERROR_FAILURE, ?_, ?_⟩
  · rcases CreateAudioConduit_cases env m trackPair track with ⟨hc, hcr⟩ | ⟨M, hc, hcalls, _⟩
    · rw [hc]
      exact ⟨rfl, rfl, _, by simp only [record_calls, List.append_assoc]; rfl,
        by simp [Call.isConfigure]⟩
    · rw [hc, configureAudioConduit_no_codecs _ _ _ _ _ h]
      exact ⟨rfl, rfl, _, hcalls, by simp [Call.isConfigure]⟩
  · rcases CreateVideoConduit_cases env m trackPair track with ⟨hc, hcr⟩ | ⟨M, hc, hcalls, _⟩
    · rw [hc]
      exact ⟨rfl, rfl, _, by simp only [record_calls, List.append_assoc]; rfl,
        by simp [Call.isConfigure]⟩
    · rw [hc, configureVideoConduit_no_codecs _ _ _ _ _ h]
      exact ⟨rfl, rfl, _, hcalls, by simp [Call.isConfigure]⟩

theorem CreateConduit_no_codecs_witness :
    ({ media_type := MediaType.kAudio, direction := Direction.kJsepTrackSending,
       codecs := [] } : JsepTrack).codecs = [] ∧
    (CreateAudioConduit okEnv emptyMedia samplePair0
      { media_type := MediaType.kAudio, direction := Direction.kJsepTrackSending,
        codecs := [] }).1 = NS_ERROR_FAILURE ∧
    (CreateVideoConduit okEnv emptyMedia samplePair0
      { media_type := MediaType.kAudio, direction := Direction.kJsepTrackSending,
        codecs := [] }).1 = NS_ERROR_FAILURE :=
  ⟨rfl,
   (CreateConduit_no_codecs okEnv emptyMedia samplePair0
     { media_type := MediaType.kAudio, direction := Direction.kJsepTrackSending,
       codecs := [] } rfl).2.1.1,
   (CreateConduit_no_codecs okEnv emptyMedia samplePair0
     { media_type := MediaType.kAudio, direction := Direction.kJsepTrackSending,
       codecs := [] } rfl).2.2.1⟩

/-- C6. Send-codec single selection: for two sending tracks whose codec lists
share the first entry `d` (in particular two orderings of the remaining
entries), `CreateAudioConduit` and `CreateVideoConduit` give the same result,
the same conduit and the same trace of calls.  The configuration calls of the
run are determined by `d` alone.  Audio: when the conduit object is created and
`d` is an audio description, exactly one configuration call is made,
`ConfigureSendMediaCodec` on the new conduit with the translation of `d`, and
the result is `NS_OK` with the conduit when it reports no error and
`NS_ERROR_FAILURE` otherwise; in every other run no configuration call is made.
Video: the same with the translation of the video description `d`, the call
being made exactly when `EnsureExternalCodec` reports no error for it. -/
theorem CreateConduit_send_first_codec (env : Env) (m : PeerConnectionMedia)
    (trackPair : JsepTrackPair) (t1 t2 : JsepTrack) (d : JsepCodecDescription)
    (r1 r2 : List JsepCodecDescription)
    (hs1 : t1.direction = Direction.kJsepTrackSending)
    (hs2 : t2.direction = Direction.kJsepTrackSending)
    (h1 : t1.codecs = d :: r1) (h2 : t2.codecs = d :: r2) :
    CreateAudioConduit env m trackPair t1 = CreateAudioConduit env m trackPair t2 ∧
    CreateVideoConduit env m trackPair t1 = CreateVideoConduit env m trackPair t2 ∧
    (∃ new, (CreateAudioConduit env m trackPair t1).2.2.calls = m.calls ++ new ∧
      (env.AudioSessionConduitCreate (m.calls ++ [Call.GetConduit trackPair.mLevel false])
          (m.GetConduit trackPair.mLevel false) = true →
        d.mType = MediaType.kAudio →
        ∃ config, JsepCodecDescToCodecConfigAudio d = Except.ok config ∧
          new = [Call.GetConduit trackPair.mLevel false,
            Call.AudioSessionConduitCreate (m.GetConduit trackPair.mLevel false),
            Call.AddConduit trackPair.mLevel false
              { addr := m.nextAddr, type := ConduitType.AUDIO,
                other := (m.GetConduit trackPair.mLevel false).map (·.addr) },
            Call.AudioConfigureSendMediaCodec m.nextAddr config] ∧
          new.filter Call.isConfigure =
            [Call.AudioConfigureSendMediaCodec m.nextAddr config] ∧
          (CreateAudioConduit env m trackPair t1).1 =
            (if env.AudioConfigureSendMediaCodec (m.calls ++ new.dropLast)
                { addr := m.nextAddr, type := ConduitType.AUDIO,
                  other := (m.GetConduit trackPair.mLevel false).map (·.addr) } config = 0
              then NS_OK else NS_ERROR_FAILURE) ∧
          (CreateAudioConduit env m trackPair t1).2.1 =
            (if env.AudioConfigureSendMediaCodec (m.calls ++ new.dropLast)
                { addr := m.nextAddr, type := ConduitType.AUDIO,
                  other := (m.GetConduit trackPair.mLevel false).map (·.addr) } config = 0
              then some { addr := m.nextAddr, type := ConduitType.AUDIO,
                          other := (m.GetConduit trackPair.mLevel false).map (·.addr) }
              else none)) ∧
      (env.AudioSessionConduitCreate (m.calls ++ [Call.GetConduit trackPair.mLevel false])
          (m.GetConduit trackPair.mLevel false) = false ∨
        d.mType ≠ MediaType.kAudio →
        new.filter Call.isConfigure = [] ∧
        NS_FAILED (CreateAudioConduit env m trackPair t1).1 = true ∧
        (CreateAudioConduit env m trackPair t1).2.1 = none)) ∧
    (∃ (M : PeerConnectionMedia) (new : List Call),
      (CreateVideoConduit env m trackPair t1).2.2.calls = m.calls ++ new ∧
      M.calls = m.calls ++
        [Call.GetConduit trackPair.mLevel true,
         Call.VideoSessionConduitCreate (m.GetConduit trackPair.mLevel true),
         Call.AddConduit trackPair.mLevel false
           { addr := m.nextAddr, type := ConduitType.VIDEO,
             other := (m.GetConduit trackPair.mLevel true).map (·.addr) }] ∧
      (env.VideoSessionConduitCreate (m.calls ++ [Call.GetConduit trackPair.mLevel true])
          (m.GetConduit trackPair.mLevel true) = true →
        d.mType = MediaType.kVideo →
        ∃ config, JsepCodecDescToCodecConfigVideo d = Except.ok config ∧
          ((EnsureExternalCodec env M
              { addr := m.nextAddr, type := ConduitType.VIDEO,
                other := (m.GetConduit trackPair.mLevel true).map (·.addr) } config true).1 = 0 →
            new.filter Call.isConfigure =
              [Call.VideoConfigureSendMediaCodec m.nextAddr config] ∧
            new.getLast? = some (Call.VideoConfigureSendMediaCodec m.nextAddr config) ∧
            (CreateVideoConduit env m trackPair t1).1 =
              (if env.VideoConfigureSendMediaCodec (m.calls ++ new.dropLast)
                  { addr := m.nextAddr, type := ConduitType.VIDEO,
                    other := (m.GetConduit trackPair.mLevel true).map (·.addr) } config = 0
                then NS_OK else NS_ERROR_FAILURE) ∧
            (CreateVideoConduit env m trackPair t1).2.1 =
              (if env.VideoConfigureSendMediaCodec (m.calls ++ new.dropLast)
                  { addr := m.nextAddr, type := ConduitType.VIDEO,
                    other := (m.GetConduit trackPair.mLevel true).map (·.addr) } config = 0
                then some { addr := m.nextAddr, type := ConduitType.VIDEO,
                            other := (m.GetConduit trackPair.mLevel true).map (·.addr) }
                else none)) ∧
          ((EnsureExternalCodec env M
              { addr := m.nextAddr, type := ConduitType.VIDEO,
                other := (m.GetConduit trackPair.mLevel true).map (·.addr) } config true).1 ≠ 0 →
            new.filter Call.isConfigure = [] ∧
            (CreateVideoConduit env m trackPair t1).1 = NS_ERROR_FAILURE ∧
            (CreateVideoConduit env m trackPair t1).2.1 = none)) ∧
      (env.VideoSessionConduitCreate (m.calls ++ [Call.GetConduit trackPair.mLevel true])
          (m.GetConduit trackPair.mLevel true) = false ∨
        d.mType ≠ MediaType.kVideo →
        new.filter Call.isConfigure = [] ∧
        NS_FAILED (CreateVideoConduit env m trackPair t1).1 = true ∧
        (CreateVideoConduit env m trackPair t1).2.1 = none)) := by
  have hdec : decide (Direction.kJsepTrackSending = Direction.kJsepTrackReceiving) = false := by
    decide
  refine ⟨?_, ?_, ?_, ?_⟩
  · unfold CreateAudioConduit
    simp only [hs1, hs2, hdec, configureAudioConduit_send _ _ _ t1 d r1 h1,
      configureAudioConduit_send _ _ _ t2 d r2 h2]
  · unfold CreateVideoConduit
    simp only [hs1, hs2, hdec, configureVideoConduit_send _ _ _ t1 d r1 h1,
      configureVideoConduit_send _ _ _ t2 d r2 h2]
  · rcases CreateAudioConduit_cases env m trackPair t1 with ⟨hc, hcr⟩ | ⟨M, hc, hcalls, _⟩
    · simp only [hs1, hdec] at hc hcr
      rw [hc]
      refine ⟨_, by simp only [record_calls, List.append_assoc]; rfl, ?_, ?_⟩
      · intro hcreate
        rw [hcreate] at hcr
        cases hcr
      · intro _
        exact ⟨by simp [Call.isConfigure], NS_FAILED_NS_ERROR_FAILURE, rfl⟩
    · simp only [hs1, hdec] at hc hcalls
      have hcreated : env.AudioSessionConduitCreate
          (m.calls ++ [Call.GetConduit trackPair.mLevel false])
          (m.GetConduit trackPair.mLevel false) = true := by
        rcases Bool.eq_false_or_eq_true (env.AudioSessionConduitCreate
          (m.calls ++ [Call.GetConduit trackPair.mLevel false])
          (m.GetConduit trackPair.mLevel false)) with h | h
        · exact h
        · exfalso
          have hfail : CreateAudioConduit env m trackPair t1 =
              (NS_ERROR_FAILURE, none,
                (m.record (Call.GetConduit trackPair.mLevel false)).record
                  (Call.AudioSessionConduitCreate (m.GetConduit trackPair.mLevel false))) := by
            unfold CreateAudioConduit
            simp [hs1, h]
          have hlen := congrArg (fun x => x.2.2.calls.length) hfail
          obtain ⟨extra, hextra, _⟩ := configureAudioConduit_send_calls env M
            { addr := m.nextAddr, type := ConduitType.AUDIO,
              other := (m.GetConduit trackPair.mLevel false).map (·.addr) } t1 d r1 h1
          rw [hc] at hlen
          simp only [hextra, hcalls, record_calls, List.length_append, List.length_cons,
            List.length_nil] at hlen
          omega
      rw [hc, configureAudioConduit_send env M _ t1 d r1 h1]
      by_cases hty : d.mType = MediaType.kAudio
      · obtain ⟨config, hcfg⟩ : ∃ config, JsepCodecDescToCodecConfigAudio d =
            Except.ok config := by
          simp [JsepCodecDescToCodecConfigAudio, hty]
        rw [hcfg]
        dsimp only
        refine ⟨[Call.GetConduit trackPair.mLevel false,
            Call.AudioSessionConduitCreate (m.GetConduit trackPair.mLevel false),
            Call.AddConduit trackPair.mLevel false
              { addr := m.nextAddr, type := ConduitType.AUDIO,
                other := (m.GetConduit trackPair.mLevel false).map (·.addr) },
            Call.AudioConfigureSendMediaCodec m.nextAddr config], ?_, ?_, ?_⟩
        · split <;> simp [hcalls]
        · intro _ _
          refine ⟨config, rfl, rfl, by simp [Call.isConfigure], ?_, ?_⟩
          · have hpre : m.calls ++ [Call.GetConduit trackPair.mLevel false,
                Call.AudioSessionConduitCreate (m.GetConduit trackPair.mLevel false),
                Call.AddConduit trackPair.mLevel false
                  { addr := m.nextAddr, type := ConduitType.AUDIO,
                    other := (m.GetConduit trackPair.mLevel false).map (·.addr) },
                Call.AudioConfigureSendMediaCodec m.nextAddr config].dropLast = M.calls := by
              rw [hcalls]; rfl
            rw [hpre]
            split <;> simp_all
          · have hpre : m.calls ++ [Call.GetConduit trackPair.mLevel false,
                Call.AudioSessionConduitCreate (m.GetConduit trackPair.mLevel false),
                Call.AddConduit trackPair.mLevel false
                  { addr := m.nextAddr, type := ConduitType.AUDIO,
                    other := (m.GetConduit trackPair.mLevel false).map (·.addr) },
                Call.AudioConfigureSendMediaCodec m.nextAddr config].dropLast = M.calls := by
              rw [hcalls]; rfl
            rw [hpre]
            split <;> simp_all
        · intro hor
          rcases hor with h | h
          · rw [hcreated] at h; cases h
          · exact absurd hty h
      · have herr : JsepCodecDescToCodecConfigAudio d = Except.error NS_ERROR_INVALID_ARG := by
          simp [JsepCodecDescToCodecConfigAudio, hty]
        rw [herr]
        dsimp only
        refine ⟨_, hcalls, fun _ h => absurd h hty, fun _ =>
          ⟨by simp [Call.isConfigure], NS_FAILED_NS_ERROR_INVALID_ARG, rfl⟩⟩
  · rcases CreateVideoConduit_cases env m trackPair t1 with ⟨hc, hcr⟩ | ⟨M, hc, hcalls, _⟩
    · rw [hc]
      refine ⟨(((m.record (Call.GetConduit trackPair.mLevel true)).record
          (Call.VideoSessionConduitCreate (m.GetConduit trackPair.mLevel true))).record
          (Call.AddConduit trackPair.mLevel false
            { addr := m.nextAddr, type := ConduitType.VIDEO,
              other := (m.GetConduit trackPair.mLevel true).map (·.addr) })), _,
        by simp only [record_calls, List.append_assoc]; rfl,
        by simp only [record_calls, List.append_assoc]; rfl, ?_, ?_⟩
      · intro hcreate
        rw [hcreate] at hcr
        cases hcr
      · intro _
        exact ⟨by simp [Call.isConfigure], NS_FAILED_NS_ERROR_FAILURE, rfl⟩
    · simp only [hs1, hdec] at hc hcalls
      have hcreated : env.VideoSessionConduitCreate
          (m.calls ++ [Call.GetConduit trackPair.mLevel true])
          (m.GetConduit trackPair.mLevel true) = true := by
        rcases Bool.eq_false_or_eq_true (env.VideoSessionConduitCreate
          (m.calls ++ [Call.GetConduit trackPair.mLevel true])
          (m.GetConduit trackPair.mLevel true)) with h | h
        · exact h
        · exfalso
          have hfail : CreateVideoConduit env m trackPair t1 =
              (NS_ERROR_FAILURE, none,
                (m.record (Call.GetConduit trackPair.mLevel true)).record
                  (Call.VideoSessionConduitCreate (m.GetConduit trackPair.mLevel true))) := by
            unfold CreateVideoConduit
            simp [h]
          have hlen := congrArg (fun x => x.2.2.calls.length) hfail
          obtain ⟨extra, hextra, _⟩ := configureVideoConduit_send_calls env M
            { addr := m.nextAddr, type := ConduitType.VIDEO,
              other := (m.GetConduit trackPair.mLevel true).map (·.addr) } t1 d r1 h1
          rw [hc] at hlen
          simp only [hextra, hcalls, record_calls, List.length_append, List.length_cons,
            List.length_nil] at hlen
          omega
      obtain ⟨p0, hp0, hp0f⟩ : ∃ p0, M.calls = m.calls ++ p0 ∧
          p0.filter Call.isConfigure = [] := ⟨_, hcalls, by simp [Call.isConfigure]⟩
      rw [hc, configureVideoConduit_send env M _ t1 d r1 h1]
      by_cases hty : d.mType = MediaType.kVideo
      · obtain ⟨config, hcfg⟩ : ∃ config, JsepCodecDescToCodecConfigVideo d =
            Except.ok config := by
          simp [JsepCodecDescToCodecConfigVideo, hty]
        obtain ⟨e, he, hef⟩ := EnsureExternalCodec_calls env M
          { addr := m.nextAddr, type := ConduitType.VIDEO,
            other := (m.GetConduit trackPair.mLevel true).map (·.addr) } config true
        rw [hcfg]
        dsimp only
        by_cases hens : (EnsureExternalCodec env M
            { addr := m.nextAddr, type := ConduitType.VIDEO,
              other := (m.GetConduit trackPair.mLevel true).map (·.addr) } config true).1 = 0
        · rw [if_neg (by simpa using hens)]
          have hdrop : m.calls ++ (p0 ++ e ++
              [Call.VideoConfigureSendMediaCodec m.nextAddr config]).dropLast =
              (EnsureExternalCodec env M
                { addr := m.nextAddr, type := ConduitType.VIDEO,
                  other := (m.GetConduit trackPair.mLevel true).map (·.addr) }
                config true).2.calls := by
            rw [List.dropLast_concat, he, hp0, List.append_assoc]
          refine ⟨M, p0 ++ e ++ [Call.VideoConfigureSendMediaCodec m.nextAddr config],
            ?_, hcalls, ?_, ?_⟩
          · split <;> simp [he, hp0]
          · intro _ _
            refine ⟨config, rfl, fun _ => ⟨by simp [hp0f, hef, Call.isConfigure],
              by simp, ?_, ?_⟩, fun h => absurd hens h⟩
            · rw [hdrop]
              split <;> simp_all
            · rw [hdrop]
              split <;> simp_all
          · intro hor
            rcases hor with h | h
            · rw [hcreated] at h; cases h
            · exact absurd hty h
        · rw [if_pos hens]
          refine ⟨M, p0 ++ e, by simp [he, hp0], hcalls, ?_, ?_⟩
          · intro _ _
            exact ⟨config, rfl, fun h => absurd h hens,
              fun _ => ⟨by simp [hp0f, hef], rfl, rfl⟩⟩
          · intro hor
            rcases hor with h | h
            · rw [hcreated] at h; cases h
            · exact absurd hty h
      · have herr : JsepCodecDescToCodecConfigVideo d = Except.error NS_ERROR_INVALID_ARG := by
          simp [JsepCodecDescToCodecConfigVideo, hty]
        rw [herr]
        dsimp only
        refine ⟨M, p0, hp0, hcalls, fun _ h => absurd h hty, fun _ =>
          ⟨hp0f, NS_FAILED_NS_ERROR_INVALID_ARG, rfl⟩⟩

theorem CreateConduit_send_first_codec_witness :
    audioSendTrack.direction = Direction.kJsepTrackSending ∧
    audioSendTrack.codecs = opusDesc :: [pcmuDesc] ∧
    CreateAudioConduit okEnv emptyMedia samplePair0 audioSendTrack =
      CreateAudioConduit okEnv emptyMedia samplePair0
        { audioSendTrack with codecs := [opusDesc, vp8Desc, pcmuDesc] } ∧
    ∃ new config,
      (CreateAudioConduit okEnv emptyMedia samplePair0 audioSendTrack).2.2.calls =
        emptyMedia.calls ++ new ∧
      JsepCodecDescToCodecConfigAudio opusDesc = Except.ok config ∧
      new.filter Call.isConfigure = [Call.AudioConfigureSendMediaCodec 0 config] := by
  obtain ⟨heq, _, ⟨new, hcalls, hmade, _⟩, _⟩ :=
    CreateConduit_send_first_codec okEnv emptyMedia samplePair0 audioSendTrack
      { audioSendTrack with codecs := [opusDesc, vp8Desc, pcmuDesc] } opusDesc
      [pcmuDesc] [vp8Desc, pcmuDesc] rfl rfl rfl rfl
  obtain ⟨config, hcfg, _, hfilter, _⟩ := hmade rfl rfl
  exact ⟨rfl, rfl, heq, new, config, hcalls, hcfg, hfilter⟩

/-- C7 (evaluation of the code at the failing input).  The registry holds an
audio receive conduit under (level 0, receiving) and nothing under
(level 0, sending).  For an audio sending track at level 0 `CreateAudioConduit`
looks up `GetConduit(0, false)`, the track's own direction, finds nothing and
creates the send conduit with no link, although the conduit of the opposite
direction exists. -/
theorem CreateAudioConduit_links_own_direction :
    mediaWithRecvAudio.GetConduit 0 true = some recvAudioConduit ∧
    (CreateAudioConduit okEnv mediaWithRecvAudio samplePair0 audioSendTrack).1 = NS_OK ∧
    (CreateAudioConduit okEnv mediaWithRecvAudio samplePair0 audioSendTrack).2.1 =
      some { addr := 51, type := ConduitType.AUDIO, other := none } ∧
    ((CreateAudioConduit okEnv mediaWithRecvAudio samplePair0 audioSendTrack).2.2.calls.take 2
      = [Call.GetConduit 0 false, Call.AudioSessionConduitCreate none]) := by
  decide

/-! ## The video receive loop -/

/-- Entry `k` of the codec list, for an index in range. -/
theorem get_codec_of_lt (track : JsepTrack) (k : Nat) (h : k < track.codecs.length) :
    track.get_codec k = Except.ok (track.codecs[k]) := by
  simp [JsepTrack.get_codec, h]

/-- Without an external decoder `EnsureExternalCodec` for the receive side
accepts exactly the name `VP8` and reports `kMediaConduitInvalidReceiveCodec`
for every other name. -/
theorem EnsureExternalCodec_recv_no_decoder (env : Env) (m : PeerConnectionMedia)
    (conduit : MediaSessionConduit) (config : VideoCodecConfig)
    (hdec : ∀ calls, env.CreateDecoder calls = false) :
    (EnsureExternalCodec env m conduit config false).1 =
      if config.mName = "VP8" then 0 else kMediaConduitInvalidReceiveCodec := by
  unfold EnsureExternalCodec
  split
  · rfl
  · split
    · simp [hdec]
    · simp

/-- Without an external decoder the receive loop of `CreateVideoConduit` never
returns early on a list of video codecs; it ends with the translations of the
codecs named `VP8`, in order, and makes no configuration call. -/
theorem videoRecvConfigs_no_decoder (env : Env) (conduit : MediaSessionConduit)
    (track : JsepTrack) (hdec : ∀ calls, env.CreateDecoder calls = false)
    (hvideo : ∀ d ∈ track.codecs, d.mType = MediaType.kVideo) :
    ∀ (n k : Nat) (m : PeerConnectionMedia) (configs : List VideoCodecConfig),
      k + n = track.codecs.length →
      ∃ (m2 : PeerConnectionMedia) (kept : List VideoCodecConfig) (new : List Call),
        videoRecvConfigs env conduit track (List.range' k n) m configs =
          Except.ok (configs ++ kept, m2) ∧
        ((track.codecs.drop k).filter (fun d => d.mName = "VP8")).map
          JsepCodecDescToCodecConfigVideo = kept.map Except.ok ∧
        m2.calls = m.calls ++ new ∧ new.filter Call.isConfigure = [] := by
  intro n
  induction n with
  | zero =>
    intro k m configs hk
    have hdrop : track.codecs.drop k = [] := List.drop_eq_nil_of_le (by omega)
    exact ⟨m, [], [], by simp [videoRecvConfigs], by simp [hdrop], by simp, rfl⟩
  | succ n ih =>
    intro k m configs hk
    have hlt : k < track.codecs.length := by omega
    have hmem : track.codecs[k] ∈ track.codecs := List.getElem_mem hlt
    have htype := hvideo _ hmem
    rw [List.range'_succ, List.drop_eq_getElem_cons hlt]
    simp only [videoRecvConfigs, get_codec_of_lt track k hlt]
    obtain ⟨cfg, htr, hcn⟩ : ∃ cfg, JsepCodecDescToCodecConfigVideo track.codecs[k] =
        Except.ok cfg ∧ cfg.mName = track.codecs[k].mName := by
      simp [JsepCodecDescToCodecConfigVideo, htype]
    rw [htr]
    simp only [EnsureExternalCodec_recv_no_decoder env _ _ _ hdec, hcn]
    obtain ⟨e, he, hef⟩ := EnsureExternalCodec_calls env m conduit cfg false
    by_cases hname : track.codecs[k].mName = "VP8"
    · obtain ⟨m2, kept, new, hrun, hkept, hcalls, hnew⟩ :=
        ih (k + 1) (EnsureExternalCodec env m conduit cfg false).2 (configs ++ [cfg])
          (by omega)
      refine ⟨m2, cfg :: kept, e ++ new, ?_, ?_, ?_, ?_⟩
      · simp only [hname, if_true, ne_eq, not_true_eq_false, if_false]
        rw [hrun]
        simp
      · rw [List.filter_cons_of_pos (by simpa using hname), List.map_cons, List.map_cons,
          hkept, htr]
      · rw [hcalls, he, List.append_assoc]
      · simp [hef, hnew]
    · obtain ⟨m2, kept, new, hrun, hkept, hcalls, hnew⟩ :=
        ih (k + 1) (EnsureExternalCodec env m conduit cfg false).2 configs (by omega)
      refine ⟨m2, kept, e ++ new, ?_, ?_, ?_, ?_⟩
      · simp only [hname, if_false]
        rw [if_pos (by decide), hrun]
      · rw [List.filter_cons_of_neg (by simpa using hname), hkept]
      · rw [hcalls, he, List.append_assoc]
      · simp [hef, hnew]

/-- The receiving branch of the video configuration when no external decoder is
available: one `ConfigureRecvMediaCodecs` call with the translations of the
`VP8` codecs ends the trace, and the result is decided by that call. -/
theorem configureVideoConduit_recv_no_decoder (env : Env) (m : PeerConnectionMedia)
    (conduit : MediaSessionConduit) (track : JsepTrack)
    (hdec : ∀ calls, env.CreateDecoder calls = false)
    (hvideo : ∀ d ∈ track.codecs, d.mType = MediaType.kVideo)
    (hne : track.codecs ≠ []) :
    ∃ (pre : List Call) (configs : List VideoCodecConfig),
      (configureVideoConduit env m conduit track true).2.2.calls =
        m.calls ++ pre ++ [Call.VideoConfigureRecvMediaCodecs conduit.addr configs] ∧
      pre.filter Call.isConfigure = [] ∧
      (track.codecs.filter (fun d => d.mName = "VP8")).map JsepCodecDescToCodecConfigVideo =
        configs.map Except.ok ∧
      (configureVideoConduit env m conduit track true).1 =
        (if env.VideoConfigureRecvMediaCodecs (m.calls ++ pre) conduit configs = 0
          then NS_OK else NS_ERROR_FAILURE) := by
  obtain ⟨m2, kept, new, hrun, hkept, hcalls, hnew⟩ :=
    videoRecvConfigs_no_decoder env conduit track hdec hvideo track.codecs.length 0 m []
      (by omega)
  have hlen : track.codecs.length ≠ 0 := by
    intro h
    exact hne (List.length_eq_zero.mp h)
  refine ⟨new, kept, ?_, hnew, by simpa using hkept, ?_⟩
  · unfold configureVideoConduit
    simp only [JsepTrack.num_codecs, hlen, if_false, if_true, List.range_eq_range', hrun,
      List.nil_append]
    split <;> simp [hcalls]
  · unfold configureVideoConduit
    simp only [JsepTrack.num_codecs, hlen, if_false, if_true, List.range_eq_range', hrun,
      List.nil_append, hcalls]
    split <;> simp_all

/-- C4 (counterexample).  A receiving video track negotiates `VP8` and
`H264_P0` and no external decoder is available: `CreateVideoConduit` does not
fail, it returns `NS_OK`, and it does make the receive-configuration call, with
the `VP8` config alone. -/
theorem CreateVideoConduit_recv_unsupported_not_rejected :
    okEnv.CreateDecoder [] = false ∧
    (CreateVideoConduit okEnv emptyMedia samplePair1 videoRecvTrackH264).1 = NS_OK ∧
    ((CreateVideoConduit okEnv emptyMedia samplePair1 videoRecvTrackH264).2.2.calls.filter
        Call.isConfigure =
      [Call.VideoConfigureRecvMediaCodecs 0
        [{ mType := 120, mName := "VP8", mRtcpFbTypes := 0, mMaxFrameSize := 0,
           mMaxFrameRate := 0, mH264 := none }]]) := by
  decide

/-- C4 (amended).  For a receiving video track with a non-empty list of video
codecs, when the conduit can be created and no external decoder is available:
`EnsureExternalCodec` reports `kMediaConduitInvalidReceiveCodec` for every
codec named outside the whitelist (`VP8`), such a codec is skipped, and
`CreateVideoConduit` still makes exactly one configuration call, a
`ConfigureRecvMediaCodecs` on the new conduit with the translations of the
whitelisted codecs in negotiated order; it returns `NS_OK` when that call
reports no error and `NS_ERROR_FAILURE` otherwise. -/
theorem CreateVideoConduit_recv_skips_unsupported (env : Env) (m : PeerConnectionMedia)
    (trackPair : JsepTrackPair) (track : JsepTrack)
    (hrecv : track.direction = Direction.kJsepTrackReceiving)
    (hvideo : ∀ d ∈ track.codecs, d.mType = MediaType.kVideo)
    (hne : track.codecs ≠ [])
    (hcreate : ∀ calls other, env.VideoSessionConduitCreate calls other = true)
    (hdec : ∀ calls, env.CreateDecoder calls = false) :
    (∀ (M : PeerConnectionMedia) (c : MediaSessionConduit) (config : VideoCodecConfig),
      config.mName ≠ "VP8" →
        (EnsureExternalCodec env M c config false).1 = kMediaConduitInvalidReceiveCodec) ∧
    ∃ (pre : List Call) (configs : List VideoCodecConfig),
      (CreateVideoConduit env m trackPair track).2.2.calls =
        m.calls ++ pre ++ [Call.VideoConfigureRecvMediaCodecs m.nextAddr configs] ∧
      pre.filter Call.isConfigure = [] ∧
      (track.codecs.filter (fun d => d.mName = "VP8")).map JsepCodecDescToCodecConfigVideo =
        configs.map Except.ok ∧
      (CreateVideoConduit env m trackPair track).1 =
        (if env.VideoConfigureRecvMediaCodecs (m.calls ++ pre)
            { addr := m.nextAddr, type := ConduitType.VIDEO,
              other := (m.GetConduit trackPair.mLevel true).map (·.addr) } configs = 0
          then NS_OK else NS_ERROR_FAILURE) := by
  refine ⟨fun M c config hn => ?_, ?_⟩
  · rw [EnsureExternalCodec_recv_no_decoder env M c config hdec, if_neg hn]
  · rcases CreateVideoConduit_cases env m trackPair track with ⟨hc, hcr⟩ | ⟨M, hc, hcalls, _⟩
    · rw [hcreate] at hcr
      cases hcr
    · simp only [hrecv, decide_True] at hc hcalls
      obtain ⟨pre, configs, hcl, hpre, hcfg, hres⟩ :=
        configureVideoConduit_recv_no_decoder env M
          { addr := m.nextAddr, type := ConduitType.VIDEO,
            other := (m.GetConduit trackPair.mLevel true).map (·.addr) } track hdec hvideo hne
      obtain ⟨p0, hp0, hp0f⟩ : ∃ p0, M.calls = m.calls ++ p0 ∧
          p0.filter Call.isConfigure = [] := ⟨_, hcalls, by simp [Call.isConfigure]⟩
      refine ⟨p0 ++ pre, configs, ?_, by simp [hp0f, hpre], hcfg, ?_⟩
      · rw [hc, hcl, hp0]
        simp
      · rw [hc, hres, hp0, List.append_assoc]

theorem CreateVideoConduit_recv_skips_unsupported_witness :
    videoRecvTrackH264.direction = Direction.kJsepTrackReceiving ∧
    (∀ d ∈ videoRecvTrackH264.codecs, d.mType = MediaType.kVideo) ∧
    videoRecvTrackH264.codecs ≠ [] ∧
    (∀ (M : PeerConnectionMedia) (c : MediaSessionConduit) (config : VideoCodecConfig),
      config.mName ≠ "VP8" →
        (EnsureExternalCodec okEnv M c config false).1 = kMediaConduitInvalidReceiveCodec) :=
  ⟨rfl, by decide, by decide,
   (CreateVideoConduit_recv_skips_unsupported okEnv emptyMedia samplePair1 videoRecvTrackH264
     rfl (by decide) (by decide) (fun _ _ => rfl) (fun _ => rfl)).1⟩

/-! ## Stages of `CreateMediaPipeline` -/

theorem ConduitStep.conduit_refl (m : PeerConnectionMedia) : ConduitStep m m :=
  ⟨⟨[], by simp, by simp⟩, rfl, rfl, rfl, rfl, le_refl _⟩

theorem ConduitStep.conduit_trans {m1 m2 m3 : PeerConnectionMedia} (h12 : ConduitStep m1 m2)
    (h23 : ConduitStep m2 m3) : ConduitStep m1 m3 := by
  obtain ⟨⟨n1, hc1, hp1⟩, hf1, hl1, hr1, hq1, ha1⟩ := h12
  obtain ⟨⟨n2, hc2, hp2⟩, hf2, hl2, hr2, hq2, ha2⟩ := h23
  refine ⟨⟨n1 ++ n2, by rw [hc2, hc1, List.append_assoc], ?_⟩, hf2.trans hf1, hl2.trans hl1,
    hr2.trans hr1, hq2.trans hq1, le_trans ha1 ha2⟩
  intro c hc
  rcases List.mem_append.mp hc with h | h
  · exact hp1 c h
  · exact hp2 c h

theorem ConduitStep.conduit_record (m : PeerConnectionMedia) (c : Call) (h : c.phase = Phase.conduit) :
    ConduitStep m (m.record c) :=
  ⟨⟨[c], rfl, by simpa using h⟩, rfl, rfl, rfl, rfl, le_refl _⟩

theorem TransportStep.transport_refl (m : PeerConnectionMedia) : TransportStep m m :=
  ⟨⟨[], by simp, by simp⟩, rfl, rfl, rfl, le_refl _⟩

theorem TransportStep.transport_trans {m1 m2 m3 : PeerConnectionMedia} (h12 : TransportStep m1 m2)
    (h23 : TransportStep m2 m3) : TransportStep m1 m3 := by
  obtain ⟨⟨n1, hc1, hp1⟩, hf1, hl1, hr1, ha1⟩ := h12
  obtain ⟨⟨n2, hc2, hp2⟩, hf2, hl2, hr2, ha2⟩ := h23
  refine ⟨⟨n1 ++ n2, by rw [hc2, hc1, List.append_assoc], ?_⟩, hf2.trans hf1, hl2.trans hl1,
    hr2.trans hr1, le_trans ha1 ha2⟩
  intro c hc
  rcases List.mem_append.mp hc with h | h
  · exact hp1 c h
  · exact hp2 c h

theorem ConfigureStep.configure_refl (m : PeerConnectionMedia) : ConfigureStep m m :=
  ⟨[], by simp, by simp⟩

theorem ConfigureStep.configure_trans {m1 m2 m3 : PeerConnectionMedia} (h12 : ConfigureStep m1 m2)
    (h23 : ConfigureStep m2 m3) : ConfigureStep m1 m3 := by
  obtain ⟨n1, hc1, hp1⟩ := h12
  obtain ⟨n2, hc2, hp2⟩ := h23
  refine ⟨n1 ++ n2, by rw [hc2, hc1]; simp, ?_⟩
  intro c hc
  rcases List.mem_append.mp hc with h | h
  · exact hp1 c h
  · exact hp2 c h

theorem ConfigureStep.configure_record (m : PeerConnectionMedia) (c : Call)
    (h : c.phase = Phase.conduit) : ConfigureStep m (m.record c) :=
  ⟨[c], rfl, by simpa using h⟩

theorem ConfigureStep.toConduitStep {m m2 : PeerConnectionMedia} (h : ConfigureStep m m2) :
    ConduitStep m m2 := by
  obtain ⟨new, rfl, hp⟩ := h
  exact ⟨⟨new, rfl, hp⟩, rfl, rfl, rfl, rfl, le_refl _⟩

theorem EnsureExternalCodec_step (env : Env) (m : PeerConnectionMedia)
    (conduit : MediaSessionConduit) (config : VideoCodecConfig) (send : Bool) :
    ConfigureStep m (EnsureExternalCodec env m conduit config send).2 := by
  unfold EnsureExternalCodec
  split
  · exact ConfigureStep.configure_refl m
  · split
    · dsimp only
      split
      · split
        · exact (ConfigureStep.configure_record m Call.CreateEncoder rfl).configure_trans (ConfigureStep.configure_record _ _ rfl)
        · exact ConfigureStep.configure_record m _ rfl
      · split
        · exact (ConfigureStep.configure_record m Call.CreateDecoder rfl).configure_trans (ConfigureStep.configure_record _ _ rfl)
        · exact ConfigureStep.configure_record m _ rfl
    · exact ConfigureStep.configure_refl m

theorem videoRecvConfigs_step (env : Env) (conduit : MediaSessionConduit) (track : JsepTrack)
    (is : List Nat) :
    ∀ (m : PeerConnectionMedia) (configs : List VideoCodecConfig),
      match videoRecvConfigs env conduit track is m configs with
      | Except.error e => ConfigureStep m e.2
      | Except.ok r => ConfigureStep m r.2 := by
  induction is with
  | nil => intro m configs; simp only [videoRecvConfigs]; exact ConfigureStep.configure_refl m
  | cons i rest ih =>
    intro m configs
    simp only [videoRecvConfigs]
    split
    · next hrun =>
      split at hrun
      · cases hrun; exact ConfigureStep.configure_refl m
      · split at hrun
        · cases hrun; exact ConfigureStep.configure_refl m
        · next cfg _ =>
          have hstep := EnsureExternalCodec_step env m conduit cfg false
          split at hrun
          · have := ih (EnsureExternalCodec env m conduit cfg false).2 configs
            rw [hrun] at this
            exact hstep.configure_trans this
          · have := ih (EnsureExternalCodec env m conduit cfg false).2 (configs ++ [cfg])
            rw [hrun] at this
            exact hstep.configure_trans this
    · next hrun =>
      split at hrun
      · cases hrun
      · split at hrun
        · cases hrun
        · next cfg _ =>
          have hstep := EnsureExternalCodec_step env m conduit cfg false
          split at hrun
          · have := ih (EnsureExternalCodec env m conduit cfg false).2 configs
            rw [hrun] at this
            exact hstep.configure_trans this
          · have := ih (EnsureExternalCodec env m conduit cfg false).2 (configs ++ [cfg])
            rw [hrun] at this
            exact hstep.configure_trans this

theorem configureAudioConduit_step (env : Env) (m : PeerConnectionMedia)
    (conduit : MediaSessionConduit) (track : JsepTrack) (receiving : Bool) :
    ConfigureStep m (configureAudioConduit env m conduit track receiving).2.2 := by
  unfold configureAudioConduit
  dsimp only
  split
  · exact ConfigureStep.configure_refl m
  · split
    · split
      · exact ConfigureStep.configure_refl m
      · split
        · exact ConfigureStep.configure_record m _ rfl
        · exact ConfigureStep.configure_record m _ rfl
    · split
      · exact ConfigureStep.configure_refl m
      · split
        · exact ConfigureStep.configure_refl m
        · split
          · exact ConfigureStep.configure_record m _ rfl
          · exact ConfigureStep.configure_record m _ rfl

theorem configureVideoConduit_step (env : Env) (m : PeerConnectionMedia)
    (conduit : MediaSessionConduit) (track : JsepTrack) (receiving : Bool) :
    ConfigureStep m (configureVideoConduit env m conduit track receiving).2.2 := by
  unfold configureVideoConduit
  dsimp only
  split
  · exact ConfigureStep.configure_refl m
  · split
    · have hloop := videoRecvConfigs_step env conduit track (List.range track.num_codecs) m []
      split
      · next hrun => rw [hrun] at hloop; exact hloop
      · next hrun =>
        rw [hrun] at hloop
        split
        · exact hloop.configure_trans (ConfigureStep.configure_record _ _ rfl)
        · exact hloop.configure_trans (ConfigureStep.configure_record _ _ rfl)
    · split
      · exact ConfigureStep.configure_refl m
      · split
        · exact ConfigureStep.configure_refl m
        · next cfg _ =>
          have hstep := EnsureExternalCodec_step env m conduit cfg true
          split
          · exact hstep
          · split
            · exact hstep.configure_trans (ConfigureStep.configure_record _ _ rfl)
            · exact hstep.configure_trans (ConfigureStep.configure_record _ _ rfl)

theorem CreateAudioConduit_step (env : Env) (m : PeerConnectionMedia)
    (trackPair : JsepTrackPair) (track : JsepTrack) :
    ConduitStep m (CreateAudioConduit env m trackPair track).2.2 := by
  rcases CreateAudioConduit_cases env m trackPair track with
    ⟨hc, _⟩ | ⟨M, hc, hcalls, _, hf, hl, hr, hq, ha⟩
  · rw [hc]
    exact (ConduitStep.conduit_record m (Call.GetConduit _ _) rfl).conduit_trans (ConduitStep.conduit_record _ _ rfl)
  · rw [hc]
    have hM : ConduitStep m M :=
      ⟨⟨_, hcalls, by simp [Call.phase]⟩, hf, hl, hr, hq, by omega⟩
    exact hM.conduit_trans (configureAudioConduit_step env M _ track _).toConduitStep

theorem CreateVideoConduit_step (env : Env) (m : PeerConnectionMedia)
    (trackPair : JsepTrackPair) (track : JsepTrack) :
    ConduitStep m (CreateVideoConduit env m trackPair track).2.2 := by
  rcases CreateVideoConduit_cases env m trackPair track with
    ⟨hc, _⟩ | ⟨M, hc, hcalls, _, hf, hl, hr, hq, ha⟩
  · rw [hc]
    exact (ConduitStep.conduit_record m (Call.GetConduit _ _) rfl).conduit_trans (ConduitStep.conduit_record _ _ rfl)
  · rw [hc]
    have hM : ConduitStep m M :=
      ⟨⟨_, hcalls, by simp [Call.phase]⟩, hf, hl, hr, hq, by omega⟩
    exact hM.conduit_trans (configureVideoConduit_step env M _ track _).toConduitStep

/-- The three ways `CreateOrGetTransportFlow` ends: a registry hit; a failed
creation, which leaves registry and STS queue alone; a successful creation,
which registers the new flow (allocated at the next free address) under the
key and queues one finalization task.  In every case the lookup of the key is
the first call and the only lookup. -/
theorem CreateOrGetTransportFlow_cases (env : Env) (m : PeerConnectionMedia) (level : Nat)
    (rtcp : Bool) (transport : JsepTransport) :
    (∃ flow, m.GetTransportFlow level rtcp = some flow ∧
      CreateOrGetTransportFlow env m level rtcp transport =
        (NS_OK, some flow, m.record (Call.GetTransportFlow level rtcp))) ∨
    (m.GetTransportFlow level rtcp = none ∧
      NS_FAILED (CreateOrGetTransportFlow env m level rtcp transport).1 = true ∧
      (CreateOrGetTransportFlow env m level rtcp transport).2.1 = none ∧
      (∃ rest, (CreateOrGetTransportFlow env m level rtcp transport).2.2.calls =
          m.calls ++ Call.GetTransportFlow level rtcp :: rest ∧
        ∀ c ∈ rest, c.phase = Phase.transport ∧ ∀ l r, c ≠ Call.GetTransportFlow l r) ∧
      (CreateOrGetTransportFlow env m level rtcp transport).2.2.mTransportFlows =
        m.mTransportFlows ∧
      (CreateOrGetTransportFlow env m level rtcp transport).2.2.mConduits = m.mConduits ∧
      (CreateOrGetTransportFlow env m level rtcp transport).2.2.mLocalSourceStreams =
        m.mLocalSourceStreams ∧
      (CreateOrGetTransportFlow env m level rtcp transport).2.2.mRemoteSourceStreams =
        m.mRemoteSourceStreams ∧
      (CreateOrGetTransportFlow env m level rtcp transport).2.2.stsQueue = m.stsQueue ∧
      (CreateOrGetTransportFlow env m level rtcp transport).2.2.nextAddr = m.nextAddr + 1) ∨
    (m.GetTransportFlow level rtcp = none ∧
      (CreateOrGetTransportFlow env m level rtcp transport).1 = NS_OK ∧
      (CreateOrGetTransportFlow env m level rtcp transport).2.1 =
        some { addr := m.nextAddr, id := flowId env.handle level rtcp } ∧
      (∃ rest, (CreateOrGetTransportFlow env m level rtcp transport).2.2.calls =
          m.calls ++ Call.GetTransportFlow level rtcp :: rest ∧
        ∀ c ∈ rest, c.phase = Phase.transport ∧ ∀ l r, c ≠ Call.GetTransportFlow l r) ∧
      (CreateOrGetTransportFlow env m level rtcp transport).2.2.mTransportFlows =
        ((level, rtcp), { addr := m.nextAddr, id := flowId env.handle level rtcp }) ::
          m.mTransportFlows.filter (fun e => e.1 ≠ (level, rtcp)) ∧
      (CreateOrGetTransportFlow env m level rtcp transport).2.2.mConduits = m.mConduits ∧
      (CreateOrGetTransportFlow env m level rtcp transport).2.2.mLocalSourceStreams =
        m.mLocalSourceStreams ∧
      (CreateOrGetTransportFlow env m level rtcp transport).2.2.mRemoteSourceStreams =
        m.mRemoteSourceStreams ∧
      (∃ task : FinalizeTask,
        task.flow = { addr := m.nextAddr, id := flowId env.handle level rtcp } ∧
        (CreateOrGetTransportFlow env m level rtcp transport).2.2.stsQueue =
          m.stsQueue ++ [task]) ∧
      (CreateOrGetTransportFlow env m level rtcp transport).2.2.nextAddr = m.nextAddr + 1) := by
  cases hlook : m.GetTransportFlow level rtcp with
  | some flow =>
    exact Or.inl ⟨flow, rfl, CreateOrGetTransportFlow_hit env m level rtcp transport flow hlook⟩
  | none =>
    right
    unfold CreateOrGetTransportFlow
    simp only [record_GetTransportFlow, hlook]
    split
    · exact Or.inl ⟨trivial, NS_FAILED_NS_ERROR_FAILURE, rfl,
        ⟨_, by simp only [record_calls, alloc_calls, List.append_assoc]; rfl,
          by simp [Call.phase]⟩,
        by simp, by simp, by simp, by simp, by simp, by simp⟩
    · split
      · next rv hrv =>
        exact Or.inl ⟨trivial, installFingerprints_error _ _ _ _ hrv, rfl,
          ⟨_, by simp only [record_calls, alloc_calls, List.append_assoc]; rfl,
            by simp [Call.phase]⟩,
          by simp, by simp, by simp, by simp, by simp, by simp⟩
      · split
        · next hs =>
          exact Or.inl ⟨trivial, hs, rfl,
            ⟨_, by simp only [record_calls, alloc_calls, List.append_assoc]; rfl,
              by simp [Call.phase]⟩,
            by simp, by simp, by simp, by simp, by simp, by simp⟩
        · split
          · next hd =>
            exact Or.inl ⟨trivial, hd, rfl,
              ⟨_, by simp only [record_calls, alloc_calls, List.append_assoc]; rfl,
                by simp [Call.phase]⟩,
              by simp, by simp, by simp, by simp, by simp, by simp⟩
          · exact Or.inr ⟨trivial, rfl, rfl,
              ⟨_, by simp only [record_calls, alloc_calls, AddTransportFlow_calls,
                  List.append_assoc]; rfl,
                by simp [Call.phase]⟩,
              by simp, by simp, by simp, by simp,
              Exists.intro _ (And.symm ⟨by exact rfl, by rfl⟩), by simp⟩

theorem CreateMediaPipelineReceiving_stage (env : Env) (m : PeerConnectionMedia)
    (rtp_flow rtcp_flow bundle_rtp_flow bundle_rtcp_flow : Option TransportFlow)
    (trackPair : JsepTrackPair) (track : JsepTrack) (conduit : Option MediaSessionConduit) :
    PipelineStage env m
      (CreateMediaPipelineReceiving env m rtp_flow rtcp_flow bundle_rtp_flow bundle_rtcp_flow
        trackPair track conduit)
      true trackPair.mLevel conduit rtp_flow rtcp_flow := by
  unfold CreateMediaPipelineReceiving
  dsimp only
  split
  · exact ⟨rfl, rfl, rfl, Call.GetRemoteStream 0, rfl,
      Or.inl ⟨rfl, Or.inr rfl, ⟨rfl, rfl⟩, rfl⟩⟩
  · next stream hstream =>
    split
    · exact ⟨rfl, rfl, rfl, Call.GetRemoteStream 0, rfl,
        Or.inl ⟨rfl, Or.inl rfl, ⟨rfl, rfl⟩, rfl⟩⟩
    · next kind hkind =>
      split
      · next hfail =>
        refine ⟨rfl, rfl, rfl, Call.GetRemoteStream 0, rfl, Or.inr ⟨(⟨m.nextAddr, kind, (trackPair.mLevel + 1) % SIZE_T_MOD, trackPair.mLevel,
            conduit, rtp_flow, rtcp_flow, bundle_rtp_flow, bundle_rtcp_flow, none⟩ : MediaPipeline), [],
          ⟨rfl, rfl, rfl, rfl, rfl, rfl, rfl⟩, Or.inl rfl, rfl, Or.inr (Or.inl ⟨?_, ?_, ?_, rfl, rfl⟩)⟩⟩
        · simpa using hfail
        · simp [Outcome.result]
        · simp [Outcome.media]
      · next hfail =>
        refine ⟨rfl, rfl, rfl, Call.GetRemoteStream 0, rfl, Or.inr ⟨(⟨m.nextAddr, kind, (trackPair.mLevel + 1) % SIZE_T_MOD, trackPair.mLevel,
            conduit, rtp_flow, rtcp_flow, bundle_rtp_flow, bundle_rtcp_flow, none⟩ : MediaPipeline), [],
          ⟨rfl, rfl, rfl, rfl, rfl, rfl, rfl⟩, Or.inl rfl, rfl, Or.inr (Or.inr ⟨?_, ?_, ?_, ?_⟩)⟩⟩
        · simpa using hfail
        · simp [Outcome.result]
        · simp [Outcome.media]
        · exact ⟨stream, by simpa using hstream, by simp [Outcome.media], by simp [Outcome.media]⟩

set_option maxHeartbeats 1600000 in
theorem CreateMediaPipelineSending_stage (env : Env) (m : PeerConnectionMedia)
    (rtp_flow rtcp_flow : Option TransportFlow)
    (trackPair : JsepTrackPair) (conduit : Option MediaSessionConduit) :
    PipelineStage env m
      (CreateMediaPipelineSending env m rtp_flow rtcp_flow trackPair conduit)
      false trackPair.mLevel conduit rtp_flow rtcp_flow := by
  unfold CreateMediaPipelineSending PipelineStage PipelineFor SameStreams StoredIn
  dsimp only
  split
  · exact ⟨rfl, rfl, rfl, Call.GetLocalStream 0, rfl,
      Or.inl ⟨rfl, Or.inr rfl, ⟨rfl, rfl⟩, rfl⟩⟩
  · next stream hstream =>
    split
    · next hid =>
      refine ⟨by simp [Outcome.media], by simp [Outcome.media], by simp [Outcome.media], Call.GetLocalStream 0, rfl,
        Or.inr ⟨(⟨m.nextAddr, PipelineKind.Transmit, (trackPair.mLevel + 1) % SIZE_T_MOD,
            trackPair.mLevel, conduit, rtp_flow, rtcp_flow, none, none, none⟩ : MediaPipeline),
          [], ⟨rfl, rfl, rfl, rfl, rfl, rfl, rfl⟩, Or.inl rfl, by simp [Outcome.media],
          Or.inl ⟨rfl, ?_, rfl, rfl⟩⟩⟩
      simp [Outcome.media]
    · next M hid =>
      by_cases hapi : env.MOZILLA_INTERNAL_API = true
      · rw [if_pos hapi] at hid
        cases hdoc : env.GetExtantDoc with
        | none => rw [hdoc] at hid; cases hid
        | some principal =>
          rw [hdoc] at hid
          simp only [Option.some.injEq] at hid
          subst hid
          split
          · next hfail =>
            refine ⟨by simp [Outcome.media], by simp [Outcome.media], by simp [Outcome.media], Call.GetLocalStream 0, rfl,
              Or.inr ⟨(⟨m.nextAddr, PipelineKind.Transmit,
                  (trackPair.mLevel + 1) % SIZE_T_MOD, trackPair.mLevel, conduit, rtp_flow,
                  rtcp_flow, none, none, none⟩ : MediaPipeline),
                [Call.UpdateSinkIdentity_m m.nextAddr principal env.GetPeerIdentity],
                ⟨rfl, rfl, rfl, rfl, rfl, rfl, rfl⟩, Or.inr ⟨_, _, rfl⟩, by simp [Outcome.media],
                Or.inr (Or.inl ⟨?_, ?_, ?_, by simp [Outcome.media], by simp [Outcome.media]⟩)⟩⟩
            · simpa using hfail
            · simp [Outcome.result]
            · simp [Outcome.media]
          · next hfail =>
            refine ⟨by simp [Outcome.media], by simp [Outcome.media], by simp [Outcome.media], Call.GetLocalStream 0, rfl,
              Or.inr ⟨(⟨m.nextAddr, PipelineKind.Transmit,
                  (trackPair.mLevel + 1) % SIZE_T_MOD, trackPair.mLevel, conduit, rtp_flow,
                  rtcp_flow, none, none, none⟩ : MediaPipeline),
                [Call.UpdateSinkIdentity_m m.nextAddr principal env.GetPeerIdentity],
                ⟨rfl, rfl, rfl, rfl, rfl, rfl, rfl⟩, Or.inr ⟨_, _, rfl⟩, by simp [Outcome.media],
                Or.inr (Or.inr ⟨?_, ?_, ?_, ?_⟩)⟩⟩
            · simpa using hfail
            · simp [Outcome.result]
            · simp [Outcome.media]
            · exact ⟨stream, by simpa using hstream, by simp [Outcome.media],
                by simp [Outcome.media]⟩
      · rw [if_neg hapi] at hid
        simp only [Option.some.injEq] at hid
        subst hid
        split
        · next hfail =>
          refine ⟨by simp [Outcome.media], by simp [Outcome.media], by simp [Outcome.media], Call.GetLocalStream 0, rfl,
            Or.inr ⟨(⟨m.nextAddr, PipelineKind.Transmit,
                (trackPair.mLevel + 1) % SIZE_T_MOD, trackPair.mLevel, conduit, rtp_flow,
                rtcp_flow, none, none, none⟩ : MediaPipeline),
              [], ⟨rfl, rfl, rfl, rfl, rfl, rfl, rfl⟩, Or.inl rfl, by simp [Outcome.media],
              Or.inr (Or.inl ⟨?_, ?_, ?_, by simp [Outcome.media], by simp [Outcome.media]⟩)⟩⟩
          · simpa using hfail
          · simp [Outcome.result]
          · simp [Outcome.media]
        · next hfail =>
          refine ⟨by simp [Outcome.media], by simp [Outcome.media], by simp [Outcome.media], Call.GetLocalStream 0, rfl,
            Or.inr ⟨(⟨m.nextAddr, PipelineKind.Transmit,
                (trackPair.mLevel + 1) % SIZE_T_MOD, trackPair.mLevel, conduit, rtp_flow,
                rtcp_flow, none, none, none⟩ : MediaPipeline),
              [], ⟨rfl, rfl, rfl, rfl, rfl, rfl, rfl⟩, Or.inl rfl, by simp [Outcome.media],
              Or.inr (Or.inr ⟨?_, ?_, ?_, ?_⟩)⟩⟩
          · simpa using hfail
          · simp [Outcome.result]
          · simp [Outcome.media]
          · exact ⟨stream, by simpa using hstream, by simp [Outcome.media],
              by simp [Outcome.media]⟩

theorem Outcome.eq_of_result_some {out : Outcome} {rv : nsresult}
    (h : out.result = some rv) : out = Outcome.returned rv out.media := by
  cases out with
  | returned rv2 m => simp [Outcome.result] at h; subst h; rfl
  | crashed m => simp [Outcome.result] at h

theorem Outcome.eq_of_result_none {out : Outcome} (h : out.result = none) :
    out = Outcome.crashed out.media := by
  cases out with
  | returned rv2 m => simp [Outcome.result] at h
  | crashed m => rfl

/-- The call site in `CreateMediaPipeline` (`if (NS_FAILED(rv)) return rv;` and
`return NS_OK` otherwise) hands the outcome of the pipeline stage on as it
is. -/
theorem PipelineStage.forward {env : Env} {m : PeerConnectionMedia} {out : Outcome}
    {remote : Bool} {level : Nat} {conduit : Option MediaSessionConduit}
    {rtp rtcp : Option TransportFlow}
    (h : PipelineStage env m out remote level conduit rtp rtcp) :
    returnOrOk out = out := by
  cases out with
  | crashed m2 => rfl
  | returned rv m2 =>
    by_cases hf : NS_FAILED rv = true
    · simp [returnOrOk, hf]
    · obtain ⟨_, _, _, g, _, h1 | ⟨p, U, _, _, _, h2 | h2 | h2⟩⟩ := h
      · obtain ⟨_, hr | hr, _⟩ := h1
        · simp [Outcome.result] at hr
        · simp only [Outcome.result, Option.some.injEq] at hr
          subst hr
          exact absurd NS_FAILED_NS_ERROR_FAILURE hf
      · simp [Outcome.result] at h2
      · obtain ⟨hfail, hr, _⟩ := h2
        simp only [Outcome.result, Option.some.injEq] at hr
        rw [← hr] at hfail
        exact absurd hfail hf
      · obtain ⟨_, hr, _⟩ := h2
        simp only [Outcome.result, Option.some.injEq] at hr
        subst hr
        simp [returnOrOk, NS_FAILED_NS_OK]

theorem ConduitStep.conduit_calls {m m2 : PeerConnectionMedia} (h : ConduitStep m m2) :
    ∃ new, m2.calls = m.calls ++ new ∧
      ∀ c ∈ new, c.phase = Phase.transport ∨ c.phase = Phase.conduit := by
  obtain ⟨⟨new, hc, hp⟩, _⟩ := h
  exact ⟨new, hc, fun c hc => Or.inr (hp c hc)⟩

theorem createConduit_step (env : Env) (m : PeerConnectionMedia) (trackPair : JsepTrackPair)
    (track : JsepTrack) (c : nsresult × Option MediaSessionConduit × PeerConnectionMedia)
    (h : createConduit env m trackPair track = some c) : ConduitStep m c.2.2 := by
  unfold createConduit at h
  split at h
  · cases h; exact CreateAudioConduit_step env m trackPair track
  · split at h
    · cases h; exact CreateVideoConduit_step env m trackPair track
    · cases h

/-- Every run of the conduit and pipeline stages has the shape
`ConduitAndPipelineRun`. -/
theorem createConduitAndPipeline_run (env : Env) (m : PeerConnectionMedia)
    (rtp_flow rtcp_flow : Option TransportFlow) (trackPair : JsepTrackPair)
    (track : JsepTrack) :
    ConduitAndPipelineRun env m trackPair.mLevel rtp_flow rtcp_flow
      (createConduitAndPipeline env m rtp_flow rtcp_flow trackPair track) := by
  unfold createConduitAndPipeline
  dsimp only
  split
  · exact ⟨m, ConduitStep.conduit_refl m, Or.inl ⟨rfl, Or.inl rfl⟩⟩
  · next c hc =>
    have hstep := createConduit_step env m trackPair track c hc
    split
    · next hfail =>
      exact ⟨c.2.2, hstep, Or.inl ⟨rfl, Or.inr ⟨c.1, rfl, hfail⟩⟩⟩
    · split
      · have hstage := CreateMediaPipelineReceiving_stage env c.2.2 rtp_flow rtcp_flow none none
          trackPair track c.2.1
        rw [hstage.forward]
        exact ⟨c.2.2, hstep, Or.inr ⟨_, _, hstage⟩⟩
      · have hstage := CreateMediaPipelineSending_stage env c.2.2 rtp_flow rtcp_flow
          trackPair c.2.1
        rw [hstage.forward]
        exact ⟨c.2.2, hstep, Or.inr ⟨_, _, hstage⟩⟩

theorem CreateOrGetTransportFlow_step (env : Env) (m : PeerConnectionMedia) (level : Nat)
    (rtcp : Bool) (transport : JsepTransport) :
    TransportStep m (CreateOrGetTransportFlow env m level rtcp transport).2.2 := by
  rcases CreateOrGetTransportFlow_cases env m level rtcp transport with
    ⟨flow, _, h⟩ | ⟨_, _, _, ⟨rest, hc, hp⟩, _, hcd, hl, hr, _, ha⟩ |
    ⟨_, _, _, ⟨rest, hc, hp⟩, _, hcd, hl, hr, _, ha⟩
  · rw [h]
    exact ⟨⟨[_], rfl, by simp [Call.phase]⟩, rfl, rfl, rfl, le_refl _⟩
  · refine ⟨⟨_, hc, ?_⟩, hcd, hl, hr, by omega⟩
    intro c hmem
    rcases List.mem_cons.mp hmem with h | h
    · subst h; rfl
    · exact (hp c h).1
  · refine ⟨⟨_, hc, ?_⟩, hcd, hl, hr, by omega⟩
    intro c hmem
    rcases List.mem_cons.mp hmem with h | h
    · subst h; rfl
    · exact (hp c h).1

theorem TransportStep.transport_calls {m m2 : PeerConnectionMedia} (h : TransportStep m m2) :
    ∃ new, m2.calls = m.calls ++ new ∧
      ∀ c ∈ new, c.phase = Phase.transport ∨ c.phase = Phase.conduit := by
  obtain ⟨⟨new, hc, hp⟩, _⟩ := h
  exact ⟨new, hc, fun c hc => Or.inl (hp c hc)⟩

theorem resolveTransportFlows_step (env : Env) (m : PeerConnectionMedia)
    (trackPair : JsepTrackPair) :
    TransportStep m (resolveTransportFlows env m trackPair).2.2.2 := by
  have h1 := CreateOrGetTransportFlow_step env m trackPair.mLevel false trackPair.mRtpTransport
  unfold resolveTransportFlows
  dsimp only
  split
  · exact h1
  · split
    · next t _ =>
      have h2 := CreateOrGetTransportFlow_step env
        (CreateOrGetTransportFlow env m trackPair.mLevel false trackPair.mRtpTransport).2.2
        trackPair.mLevel true t
      split
      · exact h1.transport_trans h2
      · exact h1.transport_trans h2
    · exact h1

/-- Every run of `CreateMediaPipeline` has the shape `PipelineRun`. -/
theorem CreateMediaPipeline_run (env : Env) (m : PeerConnectionMedia)
    (trackPair : JsepTrackPair) (track : JsepTrack) :
    PipelineRun env m trackPair.mLevel (CreateMediaPipeline env m trackPair track) := by
  have h1 := resolveTransportFlows_step env m trackPair
  obtain ⟨n1, hn1, hp1⟩ := h1.transport_calls
  unfold CreateMediaPipeline
  dsimp only
  split
  · next hfail =>
    exact ⟨_, n1, hn1, hp1, ⟨h1.2.2.1, h1.2.2.2.1⟩, Or.inl ⟨rfl, Or.inr ⟨_, rfl, hfail⟩⟩⟩
  · obtain ⟨mid, hstep, hcase⟩ := createConduitAndPipeline_run env
      (resolveTransportFlows env m trackPair).2.2.2
      (resolveTransportFlows env m trackPair).2.1
      (resolveTransportFlows env m trackPair).2.2.1 trackPair track
    obtain ⟨n2, hn2, hp2⟩ := hstep.conduit_calls
    refine ⟨mid, n1 ++ n2, by rw [hn2, hn1, List.append_assoc], ?_,
      ⟨hstep.2.2.1.trans h1.2.2.1, hstep.2.2.2.1.trans h1.2.2.2.1⟩, ?_⟩
    · intro c hc
      rcases List.mem_append.mp hc with h | h
      · exact hp1 c h
      · exact hp2 c h
    · rcases hcase with h | ⟨remote, conduit, h⟩
      · exact Or.inl h
      · exact Or.inr ⟨remote, conduit, _, _, h⟩

/-- A list splits in only one way around its only element with property `P`. -/
theorem split_unique {α : Type} (P : α → Prop) (L1 L2 pre post : List α) (x0 x : α)
    (h : L1 ++ x0 :: L2 = pre ++ x :: post)
    (h1 : ∀ y ∈ L1, ¬ P y) (h2 : ∀ y ∈ L2, ¬ P y) (hx : P x) :
    pre = L1 ∧ x = x0 ∧ post = L2 := by
  rcases List.append_eq_append_iff.mp h with ⟨a, hpre, hrest⟩ | ⟨c, hL1, hrest⟩
  · cases a with
    | nil =>
      simp only [List.nil_append, List.cons.injEq] at hrest
      exact ⟨by simpa using hpre, hrest.1.symm, hrest.2.symm⟩
    | cons y a =>
      simp only [List.cons_append, List.cons.injEq] at hrest
      exact absurd hx (h2 x (by rw [hrest.2]; simp))
  · cases c with
    | nil =>
      simp only [List.nil_append, List.cons.injEq] at hrest
      exact ⟨by simpa using hL1.symm, hrest.1, hrest.2⟩
    | cons y c =>
      simp only [List.cons_append, List.cons.injEq] at hrest
      exact absurd hx (h1 x (by rw [hL1, hrest.1]; simp))

/-- C8. A failed `Init` aborts pipeline creation: if in a run of
`CreateMediaPipeline` (receiving or sending branch) `Init` is called, after the
calls `pre` of this run, on the pipeline `p` constructed in this run, and
returns a failure code, then `CreateMediaPipeline` returns exactly that code,
`Init` is the last call of the run, `StorePipeline` is never called, and the
pipeline slots of the local and remote stream buckets are as before the
call. -/
theorem CreateMediaPipeline_init_failure (env : Env) (m : PeerConnectionMedia)
    (trackPair : JsepTrackPair) (track : JsepTrack) (pre post : List Call)
    (p : MediaPipeline)
    (hrun : (CreateMediaPipeline env m trackPair track).media.calls =
      m.calls ++ pre ++ Call.Init p.addr :: post)
    (hp : Call.NewPipeline p ∈ pre)
    (hfail : NS_FAILED (env.Init (m.calls ++ pre) p) = true) :
    (CreateMediaPipeline env m trackPair track).result = some (env.Init (m.calls ++ pre) p) ∧
    post = [] ∧
    (∀ remote slot q, Call.StorePipeline remote slot q ∉ pre) ∧
    (CreateMediaPipeline env m trackPair track).media.mLocalSourceStreams =
      m.mLocalSourceStreams ∧
    (CreateMediaPipeline env m trackPair track).media.mRemoteSourceStreams =
      m.mRemoteSourceStreams := by
  obtain ⟨mid, A, hmid, hA, hss, hcase⟩ := CreateMediaPipeline_run env m trackPair track
  have hAinit : ∀ y ∈ A, ¬ ∃ a, y = Call.Init a := by
    rintro y hy ⟨a, rfl⟩
    rcases hA _ hy with h | h <;> simp [Call.phase] at h
  have hAnew : ∀ q, Call.NewPipeline q ∉ A := by
    intro q hq
    rcases hA _ hq with h | h <;> simp [Call.phase] at h
  have hAstore : ∀ r s q, Call.StorePipeline r s q ∉ A := by
    intro r s q hq
    rcases hA _ hq with h | h <;> simp [Call.phase] at h
  rcases hcase with ⟨hout, _⟩ | ⟨remote, conduit, rtp, rtcp, hst⟩
  · exfalso
    rw [hout, hmid, List.append_assoc] at hrun
    have := List.append_cancel_left hrun
    exact hAinit (Call.Init p.addr) (by rw [this]; simp) ⟨_, rfl⟩
  · obtain ⟨_, _, _, g, hg, h1 | ⟨p0, U, hpf, hU, _, h2 | h2 | h2⟩⟩ := hst
    · exfalso
      obtain ⟨hc, _⟩ := h1
      rw [hc, hmid, List.append_assoc, List.append_assoc] at hrun
      have := List.append_cancel_left hrun
      have hmem : Call.Init p.addr ∈ A ++ [g] := by rw [this]; simp
      rcases List.mem_append.mp hmem with h | h
      · exact hAinit _ h ⟨_, rfl⟩
      · simp only [List.mem_singleton] at h
        rw [← h] at hg
        simp [Call.phase] at hg
    · exfalso
      obtain ⟨_, hc, _⟩ := h2
      rw [hc, hmid, List.append_assoc, List.append_assoc] at hrun
      have := List.append_cancel_left hrun
      have hmem : Call.Init p.addr ∈ A ++ [g, Call.NewPipeline p0] := by rw [this]; simp
      rcases List.mem_append.mp hmem with h | h
      · exact hAinit _ h ⟨_, rfl⟩
      · simp only [List.mem_cons, List.mem_singleton, List.not_mem_nil, or_false] at h
        rcases h with h | h
        · rw [← h] at hg
          simp [Call.phase] at hg
        · cases h
    all_goals
      have hUinit : ∀ y ∈ g :: Call.NewPipeline p0 :: U, ¬ ∃ a, y = Call.Init a := by
        rintro y hy ⟨a, rfl⟩
        rcases List.mem_cons.mp hy with h | h
        · rw [← h] at hg
          simp [Call.phase] at hg
        · rcases List.mem_cons.mp h with h | h
          · cases h
          · rcases hU with rfl | ⟨pr, pi, rfl⟩ <;> simp at h
      have hL1 : ∀ y ∈ A ++ g :: Call.NewPipeline p0 :: U, ¬ ∃ a, y = Call.Init a := by
        intro y hy
        rcases List.mem_append.mp hy with h | h
        · exact hAinit y h
        · exact hUinit y h
    · obtain ⟨_, hres, hc, hsame⟩ := h2
      rw [hc, hmid] at hrun
      have hrun2 : (A ++ g :: Call.NewPipeline p0 :: U) ++ Call.Init p0.addr :: [] =
          pre ++ Call.Init p.addr :: post := by
        apply @List.append_cancel_left _ m.calls
        simpa [List.append_assoc] using hrun
      obtain ⟨hpre, _, hpost⟩ := split_unique (fun c => ∃ a, c = Call.Init a) _ _ _ _ _ _
        hrun2 hL1 (by simp) ⟨_, rfl⟩
      have hpp : p = p0 := by
        rw [hpre] at hp
        rcases List.mem_append.mp hp with h | h
        · exact absurd h (hAnew p)
        · rcases List.mem_cons.mp h with h | h
          · rw [← h] at hg
            simp [Call.phase] at hg
          · rcases List.mem_cons.mp h with h | h
            · simpa using h
            · rcases hU with rfl | ⟨pr, pi, rfl⟩ <;> simp at h
      subst hpp
      refine ⟨?_, hpost, ?_, hsame.1.trans hss.1, hsame.2.trans hss.2⟩
      · rw [hres, hpre, hmid, List.append_assoc]
      · intro r s q hq
        rw [hpre] at hq
        rcases List.mem_append.mp hq with h | h
        · exact hAstore r s q h
        · rcases List.mem_cons.mp h with h | h
          · rw [← h] at hg
            simp [Call.phase] at hg
          · rcases List.mem_cons.mp h with h | h
            · cases h
            · rcases hU with rfl | ⟨pr, pi, rfl⟩ <;> simp at h
    · exfalso
      obtain ⟨hok, _, hc, _⟩ := h2
      rw [hc, hmid] at hrun
      have hrun2 : (A ++ g :: Call.NewPipeline p0 :: U) ++ Call.Init p0.addr ::
          [Call.StorePipeline remote ((p0.track_id + SIZE_T_MOD - 1) % SIZE_T_MOD) p0] =
          pre ++ Call.Init p.addr :: post := by
        apply @List.append_cancel_left _ m.calls
        simpa [List.append_assoc] using hrun
      obtain ⟨hpre, _, hpost⟩ := split_unique (fun c => ∃ a, c = Call.Init a) _ _ _ _ _ _
        hrun2 hL1 (by simp) ⟨_, rfl⟩
      have hpp : p = p0 := by
        rw [hpre] at hp
        rcases List.mem_append.mp hp with h | h
        · exact absurd h (hAnew p)
        · rcases List.mem_cons.mp h with h | h
          · rw [← h] at hg
            simp [Call.phase] at hg
          · rcases List.mem_cons.mp h with h | h
            · simpa using h
            · rcases hU with rfl | ⟨pr, pi, rfl⟩ <;> simp at h
      subst hpp
      rw [hpre] at hfail
      rw [hmid, List.append_assoc] at hok
      rw [hok] at hfail
      cases hfail

theorem CreateMediaPipeline_init_failure_witness :
    (CreateMediaPipeline initFailEnv emptyMedia samplePair0 audioSendTrack).media.calls =
      emptyMedia.calls ++
        (CreateMediaPipeline initFailEnv emptyMedia samplePair0 audioSendTrack).media.calls.dropLast
        ++ Call.Init sampleTransmitPipeline.addr :: [] ∧
    Call.NewPipeline sampleTransmitPipeline ∈
      (CreateMediaPipeline initFailEnv emptyMedia samplePair0 audioSendTrack).media.calls.dropLast ∧
    (CreateMediaPipeline initFailEnv emptyMedia samplePair0 audioSendTrack).result =
      some NS_ERROR_FAILURE ∧
    (CreateMediaPipeline initFailEnv emptyMedia samplePair0 audioSendTrack).media.mLocalSourceStreams
      = emptyMedia.mLocalSourceStreams :=
  ⟨by decide, by decide,
   (CreateMediaPipeline_init_failure initFailEnv emptyMedia samplePair0 audioSendTrack
     (CreateMediaPipeline initFailEnv emptyMedia samplePair0 audioSendTrack).media.calls.dropLast
     [] sampleTransmitPipeline (by decide) (by decide) (by decide)).1,
   (CreateMediaPipeline_init_failure initFailEnv emptyMedia samplePair0 audioSendTrack
     (CreateMediaPipeline initFailEnv emptyMedia samplePair0 audioSendTrack).media.calls.dropLast
     [] sampleTransmitPipeline (by decide) (by decide) (by decide)).2.2.2.1⟩

/-! ## Flow resolution in `CreateMediaPipeline` -/

/-- The lookup of the key is the first call of `CreateOrGetTransportFlow` and
its only lookup; all its calls belong to the transport stage. -/
theorem CreateOrGetTransportFlow_calls (env : Env) (m : PeerConnectionMedia) (level : Nat)
    (rtcp : Bool) (transport : JsepTransport) :
    ∃ rest, (CreateOrGetTransportFlow env m level rtcp transport).2.2.calls =
        m.calls ++ Call.GetTransportFlow level rtcp :: rest ∧
      ∀ c ∈ rest, c.phase = Phase.transport ∧ ∀ l r, c ≠ Call.GetTransportFlow l r := by
  rcases CreateOrGetTransportFlow_cases env m level rtcp transport with
    ⟨flow, _, h⟩ | ⟨_, _, _, h, _⟩ | ⟨_, _, _, h, _⟩
  · rw [h]
    exact ⟨[], rfl, by simp⟩
  · exact h
  · exact h

/-- `CreateOrGetTransportFlow` changes the registry at most at its own key. -/
theorem CreateOrGetTransportFlow_other_keys (env : Env) (m : PeerConnectionMedia)
    (level : Nat) (rtcp : Bool) (transport : JsepTransport) (l : Nat) (r : Bool)
    (hne : (l, r) ≠ (level, rtcp)) :
    (CreateOrGetTransportFlow env m level rtcp transport).2.2.GetTransportFlow l r =
      m.GetTransportFlow l r := by
  rcases CreateOrGetTransportFlow_cases env m level rtcp transport with
    ⟨flow, _, h⟩ | ⟨_, _, _, _, h, _⟩ | ⟨_, _, _, _, h, _⟩
  · rw [h]
    rfl
  · simp only [PeerConnectionMedia.GetTransportFlow, h]
  · simp only [PeerConnectionMedia.GetTransportFlow, h]
    rw [lookup_insert, if_neg hne]

/-- The calls of the flow-resolution part: the lookup of (level, false) comes
first; the only other lookup is that of (level, true), made exactly when the
RTP resolution did not fail and the track pair has an RTCP transport. -/
theorem resolveTransportFlows_calls (env : Env) (m : PeerConnectionMedia)
    (trackPair : JsepTrackPair) :
    ∃ R, (resolveTransportFlows env m trackPair).2.2.2.calls =
        m.calls ++ Call.GetTransportFlow trackPair.mLevel false :: R ∧
      (∀ c ∈ R, c.phase = Phase.transport) ∧
      (∀ l r, Call.GetTransportFlow l r ∈ R → l = trackPair.mLevel ∧ r = true) ∧
      (Call.GetTransportFlow trackPair.mLevel true ∈ R ↔
        NS_FAILED (CreateOrGetTransportFlow env m trackPair.mLevel false
          trackPair.mRtpTransport).1 = false ∧ trackPair.mRtcpTransport ≠ none) := by
  obtain ⟨r1, hc1, hp1⟩ := CreateOrGetTransportFlow_calls env m trackPair.mLevel false
    trackPair.mRtpTransport
  have hno1 : ∀ l r, Call.GetTransportFlow l r ∉ r1 := fun l r h => (hp1 _ h).2 l r rfl
  unfold resolveTransportFlows
  dsimp only
  split
  · next hfail =>
    refine ⟨r1, hc1, fun c hc => (hp1 c hc).1, fun l r h => absurd h (hno1 l r), ?_⟩
    constructor
    · intro h; exact absurd h (hno1 _ _)
    · rintro ⟨h, _⟩; rw [hfail] at h; cases h
  · next hok =>
    have hok2 : NS_FAILED (CreateOrGetTransportFlow env m trackPair.mLevel false
        trackPair.mRtpTransport).1 = false := by simpa using hok
    split
    · next t ht =>
      obtain ⟨r2, hc2, hp2⟩ := CreateOrGetTransportFlow_calls env
        (CreateOrGetTransportFlow env m trackPair.mLevel false trackPair.mRtpTransport).2.2
        trackPair.mLevel true t
      have hno2 : ∀ l r, Call.GetTransportFlow l r ∉ r2 := fun l r h => (hp2 _ h).2 l r rfl
      have key : ∃ R, (CreateOrGetTransportFlow env
            (CreateOrGetTransportFlow env m trackPair.mLevel false
              trackPair.mRtpTransport).2.2 trackPair.mLevel true t).2.2.calls =
            m.calls ++ Call.GetTransportFlow trackPair.mLevel false :: R ∧
          (∀ c ∈ R, c.phase = Phase.transport) ∧
          (∀ l r, Call.GetTransportFlow l r ∈ R → l = trackPair.mLevel ∧ r = true) ∧
          (Call.GetTransportFlow trackPair.mLevel true ∈ R ↔
            NS_FAILED (CreateOrGetTransportFlow env m trackPair.mLevel false
              trackPair.mRtpTransport).1 = false ∧ trackPair.mRtcpTransport ≠ none) := by
        refine ⟨r1 ++ Call.GetTransportFlow trackPair.mLevel true :: r2, ?_, ?_, ?_, ?_⟩
        · rw [hc2, hc1]; simp
        · intro c hc
          rcases List.mem_append.mp hc with h | h
          · exact (hp1 c h).1
          · rcases List.mem_cons.mp h with h | h
            · subst h; rfl
            · exact (hp2 c h).1
        · intro l r hc
          rcases List.mem_append.mp hc with h | h
          · exact absurd h (hno1 l r)
          · rcases List.mem_cons.mp h with h | h
            · cases h; exact ⟨rfl, rfl⟩
            · exact absurd h (hno2 l r)
        · exact ⟨fun _ => ⟨hok2, by simp [ht]⟩, fun _ => by simp⟩
      split
      · exact key
      · exact key
    · next hnone =>
      refine ⟨r1, hc1, fun c hc => (hp1 c hc).1, fun l r h => absurd h (hno1 l r), ?_⟩
      constructor
      · intro h; exact absurd h (hno1 _ _)
      · rintro ⟨_, h⟩; exact absurd hnone h

/-- When the flow-resolution part does not fail, `rtp_flow` is the flow
registered under (level, false); `rtcp_flow` is the flow registered under
(level, true) when the track pair has an RTCP transport, and null otherwise, in
which case no entry with the RTCP flag has changed. -/
theorem resolveTransportFlows_ok (env : Env) (m : PeerConnectionMedia)
    (trackPair : JsepTrackPair)
    (hok : NS_FAILED (resolveTransportFlows env m trackPair).1 = false) :
    (∃ flow, (resolveTransportFlows env m trackPair).2.1 = some flow ∧
      (resolveTransportFlows env m trackPair).2.2.2.GetTransportFlow trackPair.mLevel false =
        some flow) ∧
    (trackPair.mRtcpTransport ≠ none →
      ∃ flow, (resolveTransportFlows env m trackPair).2.2.1 = some flow ∧
        (resolveTransportFlows env m trackPair).2.2.2.GetTransportFlow trackPair.mLevel true =
          some flow) ∧
    (trackPair.mRtcpTransport = none →
      (resolveTransportFlows env m trackPair).2.2.1 = none ∧
      ∀ l, (resolveTransportFlows env m trackPair).2.2.2.GetTransportFlow l true =
        m.GetTransportFlow l true) := by
  cases hf1 : NS_FAILED (CreateOrGetTransportFlow env m trackPair.mLevel false
      trackPair.mRtpTransport).1 with
  | true => simp [resolveTransportFlows, hf1] at hok
  | false =>
    obtain ⟨flow, _, hout, hreg⟩ := CreateOrGetTransportFlow_success env m trackPair.mLevel
      false trackPair.mRtpTransport hf1
    cases hrt : trackPair.mRtcpTransport with
    | none =>
      simp only [resolveTransportFlows, hf1, hrt, Bool.false_eq_true, if_false]
      refine ⟨⟨flow, hout, hreg⟩, fun h => absurd rfl h, fun _ => ⟨trivial, fun l => ?_⟩⟩
      exact CreateOrGetTransportFlow_other_keys env m trackPair.mLevel false
        trackPair.mRtpTransport l true (by simp)
    | some t =>
      cases hf2 : NS_FAILED (CreateOrGetTransportFlow env
          (CreateOrGetTransportFlow env m trackPair.mLevel false
            trackPair.mRtpTransport).2.2 trackPair.mLevel true t).1 with
      | true => simp [resolveTransportFlows, hf1, hrt, hf2] at hok
      | false =>
        obtain ⟨flow2, _, hout2, hreg2⟩ := CreateOrGetTransportFlow_success env _
          trackPair.mLevel true t hf2
        simp only [resolveTransportFlows, hf1, hrt, hf2, Bool.false_eq_true, if_false]
        refine ⟨⟨flow, hout, ?_⟩, fun _ => ⟨flow2, hout2, hreg2⟩, fun h => by cases h⟩
        rw [CreateOrGetTransportFlow_other_keys env _ trackPair.mLevel true t
          trackPair.mLevel false (by simp)]
        exact hreg

/-- What the conduit and pipeline stages leave behind: the transport-flow
registry is untouched, none of their calls belongs to the transport stage, and
a pipeline they construct is bound to the flows `rtp` and `rtcp`. -/
theorem ConduitAndPipelineRun.summary {env : Env} {t : PeerConnectionMedia} {level : Nat}
    {rtp rtcp : Option TransportFlow} {out : Outcome}
    (h : ConduitAndPipelineRun env t level rtp rtcp out) :
    out.media.mTransportFlows = t.mTransportFlows ∧
    ∃ B, out.media.calls = t.calls ++ B ∧
      (∀ c ∈ B, c.phase ≠ Phase.transport) ∧
      ∀ p, Call.NewPipeline p ∈ B → p.rtp_flow = rtp ∧ p.rtcp_flow = rtcp ∧ p.level = level := by
  obtain ⟨mid, ⟨⟨new, hnew, hph⟩, hflows, _⟩, hcase⟩ := h
  have hnewT : ∀ c ∈ new, c.phase ≠ Phase.transport := by
    intro c hc; rw [hph c hc]; decide
  have hnewP : ∀ p, Call.NewPipeline p ∉ new := by
    intro p hp
    have := hph _ hp
    simp [Call.phase] at this
  rcases hcase with ⟨hout, _⟩ | ⟨remote, conduit, hfl, _, _, g, hg, h1 | ⟨p0, U, hpf, hU, _, h2⟩⟩
  · rw [hout]
    exact ⟨hflows, new, hnew, hnewT, fun p hp => absurd hp (hnewP p)⟩
  · refine ⟨hfl.trans hflows, new ++ [g], by rw [h1.1, hnew, List.append_assoc], ?_, ?_⟩
    · intro c hc
      rcases List.mem_append.mp hc with h | h
      · exact hnewT c h
      · simp only [List.mem_singleton] at h
        rw [h, hg]; decide
    · intro p hp
      rcases List.mem_append.mp hp with h | h
      · exact absurd h (hnewP p)
      · simp only [List.mem_singleton] at h
        rw [← h] at hg
        simp [Call.phase] at hg
  · have hgU : ∀ c ∈ g :: Call.NewPipeline p0 :: U, c.phase ≠ Phase.transport ∧
        ∀ p, c = Call.NewPipeline p → p = p0 := by
      intro c hc
      rcases List.mem_cons.mp hc with h | h
      · subst h
        refine ⟨by rw [hg]; decide, ?_⟩
        rintro p rfl
        simp [Call.phase] at hg
      · rcases List.mem_cons.mp h with h | h
        · subst h
          exact ⟨by simp [Call.phase], fun p hp => by cases hp; rfl⟩
        · rcases hU with rfl | ⟨pr, pi, rfl⟩
          · cases h
          · simp only [List.mem_singleton] at h
            subst h
            exact ⟨by simp [Call.phase], fun p hp => by cases hp⟩
    have hbind : p0.rtp_flow = rtp ∧ p0.rtcp_flow = rtcp ∧ p0.level = level :=
      ⟨hpf.2.2.2.2.1, hpf.2.2.2.2.2.1, hpf.2.1⟩
    have build : ∀ T : List Call, (∀ c ∈ T, c.phase = Phase.pipeline ∧ ∀ p, c ≠ Call.NewPipeline p) →
        out.media.calls = mid.calls ++ g :: Call.NewPipeline p0 :: U ++ T →
        ∃ B, out.media.calls = t.calls ++ B ∧
          (∀ c ∈ B, c.phase ≠ Phase.transport) ∧
          ∀ p, Call.NewPipeline p ∈ B →
            p.rtp_flow = rtp ∧ p.rtcp_flow = rtcp ∧ p.level = level := by
      intro T hT hcalls
      refine ⟨new ++ (g :: Call.NewPipeline p0 :: U ++ T), ?_, ?_, ?_⟩
      · rw [hcalls, hnew]; simp
      · intro c hc
        rcases List.mem_append.mp hc with h | h
        · exact hnewT c h
        · rcases List.mem_append.mp h with h | h
          · exact (hgU c h).1
          · rw [(hT c h).1]; decide
      · intro p hp
        rcases List.mem_append.mp hp with h | h
        · exact absurd h (hnewP p)
        · rcases List.mem_append.mp h with h | h
          · rw [(hgU _ h).2 p rfl]; exact hbind
          · exact absurd rfl ((hT _ h).2 p)
    refine ⟨hfl.trans hflows, ?_⟩
    rcases h2 with ⟨_, hc, _⟩ | ⟨_, _, hc, _⟩ | ⟨_, _, hc, _⟩
    · rcases hU with rfl | ⟨pr, pi, rfl⟩
      · exact build [] (by simp) (by rw [hc]; simp)
      · refine ⟨new ++ [g, Call.NewPipeline p0], by rw [hc, hnew]; simp, ?_, ?_⟩
        · intro c hc
          rcases List.mem_append.mp hc with h | h
          · exact hnewT c h
          · exact (hgU c (by
              simp only [List.mem_cons, List.mem_singleton, List.not_mem_nil, or_false] at h ⊢
              rcases h with h | h
              · exact Or.inl h
              · exact Or.inr (Or.inl h))).1
        · intro p hp
          rcases List.mem_append.mp hp with h | h
          · exact absurd h (hnewP p)
          · simp only [List.mem_cons, List.mem_singleton, List.not_mem_nil, or_false] at h
            rcases h with h | h
            · rw [← h] at hg
              simp [Call.phase] at hg
            · cases h; exact hbind
    · exact build [Call.Init p0.addr] (by simp [Call.phase]) hc
    · exact build _ (by simp [Call.phase]) hc

/-- `CreateMediaPipeline` returns the failure of the flow resolution, or goes on
with the conduit and pipeline stages. -/
theorem CreateMediaPipeline_after_flows (env : Env) (m : PeerConnectionMedia)
    (trackPair : JsepTrackPair) (track : JsepTrack) :
    (NS_FAILED (resolveTransportFlows env m trackPair).1 = true ∧
      CreateMediaPipeline env m trackPair track =
        Outcome.returned (resolveTransportFlows env m trackPair).1
          (resolveTransportFlows env m trackPair).2.2.2) ∨
    (NS_FAILED (resolveTransportFlows env m trackPair).1 = false ∧
      ConduitAndPipelineRun env (resolveTransportFlows env m trackPair).2.2.2 trackPair.mLevel
        (resolveTransportFlows env m trackPair).2.1
        (resolveTransportFlows env m trackPair).2.2.1
        (CreateMediaPipeline env m trackPair track)) := by
  unfold CreateMediaPipeline
  dsimp only
  split
  · next h => exact Or.inl ⟨h, rfl⟩
  · next h =>
    exact Or.inr ⟨by simpa using h, createConduitAndPipeline_run env _ _ _ trackPair track⟩

/-- Without an RTCP transport the flow resolution leaves every registry entry
with the RTCP flag as it was. -/
theorem resolveTransportFlows_rtcp_keys (env : Env) (m : PeerConnectionMedia)
    (trackPair : JsepTrackPair) (hnone : trackPair.mRtcpTransport = none) (l : Nat) :
    (resolveTransportFlows env m trackPair).2.2.2.GetTransportFlow l true =
      m.GetTransportFlow l true := by
  have key := CreateOrGetTransportFlow_other_keys env m trackPair.mLevel false
    trackPair.mRtpTransport l true (by simp)
  unfold resolveTransportFlows
  simp only [hnone]
  split
  · exact key
  · exact key

/-- C9 (counterexample).  The track pair has an RTCP transport, but the local
identity is missing, so the RTP resolution fails and `CreateMediaPipeline`
returns before any lookup of the key (level, true). -/
theorem CreateMediaPipeline_rtcp_not_resolved :
    samplePair0.mRtcpTransport ≠ none ∧
    (CreateMediaPipeline noIdentityEnv emptyMedia samplePair0 audioSendTrack).result =
      some NS_ERROR_FAILURE ∧
    Call.GetTransportFlow samplePair0.mLevel true ∉
      (CreateMediaPipeline noIdentityEnv emptyMedia samplePair0 audioSendTrack).media.calls := by
  decide

/-- C9 (amended).  For every track pair, the first call of `CreateMediaPipeline`
is the lookup of the RTP flow under (level, false); the only other lookup it
can make is that of (level, true), and it makes it if and only if the RTP
resolution did not fail and the track pair has an RTCP transport.  A pipeline
it constructs is bound to the flow registered under (level, false), and to the
flow registered under (level, true) when the pair has an RTCP transport; when
it has none the pipeline's RTCP flow is null and no registry entry with the
RTCP flag has changed. -/
theorem CreateMediaPipeline_flow_resolution (env : Env) (m : PeerConnectionMedia)
    (trackPair : JsepTrackPair) (track : JsepTrack) :
    (∃ rest, (CreateMediaPipeline env m trackPair track).media.calls =
        m.calls ++ Call.GetTransportFlow trackPair.mLevel false :: rest ∧
      (∀ l r, Call.GetTransportFlow l r ∈ rest → l = trackPair.mLevel ∧ r = true) ∧
      (Call.GetTransportFlow trackPair.mLevel true ∈ rest ↔
        NS_FAILED (CreateOrGetTransportFlow env m trackPair.mLevel false
          trackPair.mRtpTransport).1 = false ∧ trackPair.mRtcpTransport ≠ none) ∧
      (∀ p, Call.NewPipeline p ∈ rest →
        p.rtp_flow ≠ none ∧
        p.rtp_flow =
          (CreateMediaPipeline env m trackPair track).media.GetTransportFlow
            trackPair.mLevel false ∧
        (trackPair.mRtcpTransport ≠ none →
          p.rtcp_flow ≠ none ∧
          p.rtcp_flow =
            (CreateMediaPipeline env m trackPair track).media.GetTransportFlow
              trackPair.mLevel true) ∧
        (trackPair.mRtcpTransport = none → p.rtcp_flow = none))) ∧
    (trackPair.mRtcpTransport = none →
      ∀ l, (CreateMediaPipeline env m trackPair track).media.GetTransportFlow l true =
        m.GetTransportFlow l true) := by
  obtain ⟨R, hR, hRph, hRl, hRiff⟩ := resolveTransportFlows_calls env m trackPair
  have hRnew : ∀ p, Call.NewPipeline p ∉ R := by
    intro p hp
    have := hRph _ hp
    simp [Call.phase] at this
  rcases CreateMediaPipeline_after_flows env m trackPair track with ⟨_, hout⟩ | ⟨hok, hrun⟩
  · rw [hout]
    refine ⟨⟨R, hR, hRl, hRiff, fun p hp => absurd hp (hRnew p)⟩, fun hnone l => ?_⟩
    exact resolveTransportFlows_rtcp_keys env m trackPair hnone l
  · obtain ⟨hflows, B, hB, hBph, hBnew⟩ := hrun.summary
    obtain ⟨⟨f1, hf1, hreg1⟩, hsome, hnone⟩ := resolveTransportFlows_ok env m trackPair hok
    have hget : ∀ l r, (CreateMediaPipeline env m trackPair track).media.GetTransportFlow l r =
        (resolveTransportFlows env m trackPair).2.2.2.GetTransportFlow l r := by
      intro l r
      simp only [PeerConnectionMedia.GetTransportFlow, hflows]
    have hBlook : ∀ l r, Call.GetTransportFlow l r ∉ B := by
      intro l r h
      exact hBph _ h rfl
    refine ⟨⟨R ++ B, by rw [hB, hR]; simp, ?_, ?_, ?_⟩, fun hn l => ?_⟩
    · intro l r h
      rcases List.mem_append.mp h with h | h
      · exact hRl l r h
      · exact absurd h (hBlook l r)
    · rw [← hRiff]
      constructor
      · intro h
        rcases List.mem_append.mp h with h | h
        · exact h
        · exact absurd h (hBlook _ _)
      · intro h
        exact List.mem_append.mpr (Or.inl h)
    · intro p hp
      rcases List.mem_append.mp hp with h | h
      · exact absurd h (hRnew p)
      · obtain ⟨hrtp, hrtcp, _⟩ := hBnew p h
        refine ⟨by rw [hrtp, hf1]; simp, by rw [hrtp, hf1, hget, hreg1], ?_, ?_⟩
        · intro hs
          obtain ⟨f2, hf2, hreg2⟩ := hsome hs
          exact ⟨by rw [hrtcp, hf2]; simp, by rw [hrtcp, hf2, hget, hreg2]⟩
        · intro hn
          rw [hrtcp]
          exact (hnone hn).1
    · rw [hget]
      exact (hnone hn).2 l

/-! ## The end-to-end scenario -/

/-- A creation that did not fail on a registry miss put the new flow, allocated
at the next free address, in front of the registry. -/
theorem CreateOrGetTransportFlow_created (env : Env) (m : PeerConnectionMedia) (level : Nat)
    (rtcp : Bool) (transport : JsepTransport)
    (hmiss : m.GetTransportFlow level rtcp = none)
    (hok : NS_FAILED (CreateOrGetTransportFlow env m level rtcp transport).1 = false) :
    (CreateOrGetTransportFlow env m level rtcp transport).2.2.mTransportFlows =
      ((level, rtcp), { addr := m.nextAddr, id := flowId env.handle level rtcp }) ::
        m.mTransportFlows.filter (fun e => e.1 ≠ (level, rtcp)) ∧
    (CreateOrGetTransportFlow env m level rtcp transport).2.2.mConduits = m.mConduits ∧
    (CreateOrGetTransportFlow env m level rtcp transport).2.2.nextAddr = m.nextAddr + 1 := by
  rcases CreateOrGetTransportFlow_cases env m level rtcp transport with
    ⟨flow, h, _⟩ | ⟨_, h, _⟩ | ⟨_, _, _, _, hf, hc, _, _, _, ha⟩
  · rw [hmiss] at h; cases h
  · rw [hok] at h; cases h
  · exact ⟨hf, hc, ha⟩

/-- After a flow resolution that did not fail, for a track pair with an RTCP
transport whose two keys were unregistered, the registry has gained the RTCP
flow and the RTP flow, allocated at the next two addresses. -/
theorem resolveTransportFlows_created (env : Env) (m : PeerConnectionMedia)
    (trackPair : JsepTrackPair) (t : JsepTransport)
    (hrt : trackPair.mRtcpTransport = some t)
    (hm1 : m.GetTransportFlow trackPair.mLevel false = none)
    (hm2 : m.GetTransportFlow trackPair.mLevel true = none)
    (hok : NS_FAILED (resolveTransportFlows env m trackPair).1 = false) :
    (resolveTransportFlows env m trackPair).2.2.2.mTransportFlows =
      ((trackPair.mLevel, true),
          { addr := m.nextAddr + 1, id := flowId env.handle trackPair.mLevel true }) ::
        ((trackPair.mLevel, false),
          { addr := m.nextAddr, id := flowId env.handle trackPair.mLevel false }) ::
        (m.mTransportFlows.filter (fun e => e.1 ≠ (trackPair.mLevel, false))).filter
          (fun e => e.1 ≠ (trackPair.mLevel, true)) ∧
    (resolveTransportFlows env m trackPair).2.2.2.mConduits = m.mConduits ∧
    (resolveTransportFlows env m trackPair).2.2.2.nextAddr = m.nextAddr + 2 := by
  cases hf1 : NS_FAILED (CreateOrGetTransportFlow env m trackPair.mLevel false
      trackPair.mRtpTransport).1 with
  | true => simp [resolveTransportFlows, hf1] at hok
  | false =>
    obtain ⟨hreg1, hcd1, ha1⟩ := CreateOrGetTransportFlow_created env m trackPair.mLevel false
      trackPair.mRtpTransport hm1 hf1
    have hm2b : (CreateOrGetTransportFlow env m trackPair.mLevel false
        trackPair.mRtpTransport).2.2.GetTransportFlow trackPair.mLevel true = none := by
      rw [CreateOrGetTransportFlow_other_keys env m trackPair.mLevel false
        trackPair.mRtpTransport trackPair.mLevel true (by simp)]
      exact hm2
    cases hf2 : NS_FAILED (CreateOrGetTransportFlow env
        (CreateOrGetTransportFlow env m trackPair.mLevel false
          trackPair.mRtpTransport).2.2 trackPair.mLevel true t).1 with
    | true => simp [resolveTransportFlows, hf1, hrt, hf2] at hok
    | false =>
      obtain ⟨hreg2, hcd2, ha2⟩ := CreateOrGetTransportFlow_created env _ trackPair.mLevel
        true t hm2b hf2
      simp only [resolveTransportFlows, hf1, hrt, hf2, Bool.false_eq_true, if_false]
      refine ⟨?_, hcd2.trans hcd1, by rw [ha2, ha1]⟩
      rw [hreg2, hreg1, ha1]
      simp

/-- A conduit creation that did not fail registered the new conduit, allocated
at the next free address and linked to what `GetConduit` returned for the key
that was looked up, and touched neither the transport-flow registry nor
anything else but the trace. -/
theorem CreateAudioConduit_ok (env : Env) (m : PeerConnectionMedia)
    (trackPair : JsepTrackPair) (track : JsepTrack)
    (hok : NS_FAILED (CreateAudioConduit env m trackPair track).1 = false) :
    (CreateAudioConduit env m trackPair track).2.2.mConduits =
      ((trackPair.mLevel, decide (track.direction = Direction.kJsepTrackReceiving)),
        { addr := m.nextAddr, type := ConduitType.AUDIO,
          other := (m.GetConduit trackPair.mLevel
            (decide (track.direction = Direction.kJsepTrackReceiving))).map (·.addr) }) ::
        m.mConduits.filter (fun e => e.1 ≠
          (trackPair.mLevel, decide (track.direction = Direction.kJsepTrackReceiving))) ∧
    (CreateAudioConduit env m trackPair track).2.2.mTransportFlows = m.mTransportFlows ∧
    (CreateAudioConduit env m trackPair track).2.2.nextAddr = m.nextAddr + 1 := by
  rcases CreateAudioConduit_cases env m trackPair track with
    ⟨hc, _⟩ | ⟨M, hc, _, hcd, hf, _, _, _, ha⟩
  · rw [hc] at hok
    exact absurd hok (by simp [NS_FAILED_NS_ERROR_FAILURE])
  · obtain ⟨new, hnew, _⟩ := configureAudioConduit_step env M
      { addr := m.nextAddr, type := ConduitType.AUDIO,
        other := (m.GetConduit trackPair.mLevel
          (decide (track.direction = Direction.kJsepTrackReceiving))).map (·.addr) }
      track (decide (track.direction = Direction.kJsepTrackReceiving))
    rw [hc, hnew]
    exact ⟨hcd, hf, ha⟩

/-- The video counterpart of `CreateAudioConduit_ok`; the key looked up is
always (level, true). -/
theorem CreateVideoConduit_ok (env : Env) (m : PeerConnectionMedia)
    (trackPair : JsepTrackPair) (track : JsepTrack)
    (hok : NS_FAILED (CreateVideoConduit env m trackPair track).1 = false) :
    (CreateVideoConduit env m trackPair track).2.2.mConduits =
      ((trackPair.mLevel, decide (track.direction = Direction.kJsepTrackReceiving)),
        { addr := m.nextAddr, type := ConduitType.VIDEO,
          other := (m.GetConduit trackPair.mLevel true).map (·.addr) }) ::
        m.mConduits.filter (fun e => e.1 ≠
          (trackPair.mLevel, decide (track.direction = Direction.kJsepTrackReceiving))) ∧
    (CreateVideoConduit env m trackPair track).2.2.mTransportFlows = m.mTransportFlows ∧
    (CreateVideoConduit env m trackPair track).2.2.nextAddr = m.nextAddr + 1 := by
  rcases CreateVideoConduit_cases env m trackPair track with
    ⟨hc, _⟩ | ⟨M, hc, _, hcd, hf, _, _, _, ha⟩
  · rw [hc] at hok
    exact absurd hok (by simp [NS_FAILED_NS_ERROR_FAILURE])
  · obtain ⟨new, hnew, _⟩ := configureVideoConduit_step env M
      { addr := m.nextAddr, type := ConduitType.VIDEO,
        other := (m.GetConduit trackPair.mLevel true).map (·.addr) }
      track (decide (track.direction = Direction.kJsepTrackReceiving))
    rw [hc, hnew]
    exact ⟨hcd, hf, ha⟩

/-- A run of `CreateMediaPipeline` that returned `NS_OK` went through all three
stages: the flow resolution and the conduit creation did not fail, the
registries are those the conduit stage left, and one more object (the
pipeline) was allocated. -/
theorem CreateMediaPipeline_ok (env : Env) (m : PeerConnectionMedia)
    (trackPair : JsepTrackPair) (track : JsepTrack)
    (hok : (CreateMediaPipeline env m trackPair track).result = some NS_OK) :
    NS_FAILED (resolveTransportFlows env m trackPair).1 = false ∧
    ∃ c, createConduit env (resolveTransportFlows env m trackPair).2.2.2 trackPair track =
        some c ∧
      NS_FAILED c.1 = false ∧
      (CreateMediaPipeline env m trackPair track).media.mTransportFlows =
        c.2.2.mTransportFlows ∧
      (CreateMediaPipeline env m trackPair track).media.mConduits = c.2.2.mConduits ∧
      (CreateMediaPipeline env m trackPair track).media.nextAddr = c.2.2.nextAddr + 1 := by
  unfold CreateMediaPipeline at hok ⊢
  dsimp only at hok ⊢
  split at hok
  · next hfail =>
    simp only [Outcome.result, Option.some.injEq] at hok
    rw [hok] at hfail
    exact absurd hfail (by simp [NS_FAILED_NS_OK])
  · next hflows =>
    rw [if_neg hflows]
    refine ⟨by simpa using hflows, ?_⟩
    unfold createConduitAndPipeline at hok ⊢
    dsimp only at hok ⊢
    split at hok
    · simp [Outcome.result] at hok
    · next c hc =>
      rw [hc]
      refine ⟨c, rfl, ?_⟩
      split at hok
      · next hfail =>
        simp only [Outcome.result, Option.some.injEq] at hok
        rw [hok] at hfail
        exact absurd hfail (by simp [NS_FAILED_NS_OK])
      · next hcok =>
        rw [if_neg hcok]
        refine ⟨by simpa using hcok, ?_⟩
        have finish : ∀ (out : Outcome) (remote : Bool) (rtp rtcp : Option TransportFlow),
            PipelineStage env c.2.2 out remote trackPair.mLevel c.2.1 rtp rtcp →
            (returnOrOk out).result = some NS_OK →
            (returnOrOk out).media.mTransportFlows = c.2.2.mTransportFlows ∧
            (returnOrOk out).media.mConduits = c.2.2.mConduits ∧
            (returnOrOk out).media.nextAddr = c.2.2.nextAddr + 1 := by
          intro out remote rtp rtcp hst hres
          rw [hst.forward] at hres ⊢
          obtain ⟨hf, hcd, _, g, _, h1 | ⟨p, U, _, _, ha, _⟩⟩ := hst
          · obtain ⟨_, hr | hr, _⟩ := h1
            · rw [hr] at hres; cases hres
            · rw [hr] at hres
              simp [NS_OK, NS_ERROR_FAILURE] at hres
          · exact ⟨hf, hcd, ha⟩
        split at hok
        · next hrecv =>
          rw [if_pos hrecv]
          exact finish _ true _ _
            (CreateMediaPipelineReceiving_stage env c.2.2 _ _ none none trackPair track c.2.1)
            hok
        · next hrecv =>
          rw [if_neg hrecv]
          exact finish _ false _ _
            (CreateMediaPipelineSending_stage env c.2.2 _ _ trackPair c.2.1) hok

/-- The registries after a run of `CreateMediaPipeline` that returned `NS_OK`,
for a track pair with an RTCP transport whose two flow keys were unregistered:
two new flows, one new conduit and the pipeline were allocated, in this
order. -/
theorem CreateMediaPipeline_ok_registries (env : Env) (m : PeerConnectionMedia)
    (trackPair : JsepTrackPair) (track : JsepTrack) (t : JsepTransport)
    (hrt : trackPair.mRtcpTransport = some t)
    (hm1 : m.GetTransportFlow trackPair.mLevel false = none)
    (hm2 : m.GetTransportFlow trackPair.mLevel true = none)
    (hok : (CreateMediaPipeline env m trackPair track).result = some NS_OK) :
    (CreateMediaPipeline env m trackPair track).media.mTransportFlows =
      ((trackPair.mLevel, true),
          { addr := m.nextAddr + 1, id := flowId env.handle trackPair.mLevel true }) ::
        ((trackPair.mLevel, false),
          { addr := m.nextAddr, id := flowId env.handle trackPair.mLevel false }) ::
        (m.mTransportFlows.filter (fun e => e.1 ≠ (trackPair.mLevel, false))).filter
          (fun e => e.1 ≠ (trackPair.mLevel, true)) ∧
    (CreateMediaPipeline env m trackPair track).media.nextAddr = m.nextAddr + 4 ∧
    (track.media_type = MediaType.kAudio →
      (CreateMediaPipeline env m trackPair track).media.mConduits =
        ((trackPair.mLevel, decide (track.direction = Direction.kJsepTrackReceiving)),
          { addr := m.nextAddr + 2, type := ConduitType.AUDIO,
            other := (m.GetConduit trackPair.mLevel
              (decide (track.direction = Direction.kJsepTrackReceiving))).map (·.addr) }) ::
          m.mConduits.filter (fun e => e.1 ≠
            (trackPair.mLevel, decide (track.direction = Direction.kJsepTrackReceiving)))) ∧
    (track.media_type = MediaType.kVideo →
      (CreateMediaPipeline env m trackPair track).media.mConduits =
        ((trackPair.mLevel, decide (track.direction = Direction.kJsepTrackReceiving)),
          { addr := m.nextAddr + 2, type := ConduitType.VIDEO,
            other := (m.GetConduit trackPair.mLevel true).map (·.addr) }) ::
          m.mConduits.filter (fun e => e.1 ≠
            (trackPair.mLevel, decide (track.direction = Direction.kJsepTrackReceiving)))) := by
  obtain ⟨hf, c, hc, hcok, hflows, hcond, haddr⟩ := CreateMediaPipeline_ok env m trackPair track hok
  obtain ⟨hreg, hcd, ha⟩ := resolveTransportFlows_created env m trackPair t hrt hm1 hm2 hf
  have hget : ∀ l r, (resolveTransportFlows env m trackPair).2.2.2.GetConduit l r =
      m.GetConduit l r := by
    intro l r
    simp only [PeerConnectionMedia.GetConduit, hcd]
  unfold createConduit at hc
  split at hc
  · next haudio =>
    cases hc
    obtain ⟨hcc, hcf, hca⟩ := CreateAudioConduit_ok env _ trackPair track hcok
    refine ⟨by rw [hflows, hcf, hreg], by rw [haddr, hca, ha], fun _ => ?_, fun hv => ?_⟩
    · rw [hcond, hcc, hget, hcd, ha]
    · rw [haudio] at hv; cases hv
  · split at hc
    · next hna hvideo =>
      cases hc
      obtain ⟨hcc, hcf, hca⟩ := CreateVideoConduit_ok env _ trackPair track hcok
      refine ⟨by rw [hflows, hcf, hreg], by rw [haddr, hca, ha], fun ha2 => ?_, fun _ => ?_⟩
      · exact absurd ha2 hna
      · rw [hcond, hcc, hget, hcd, ha]
    · cases hc

/-- C10. The end-to-end scenario: starting from empty registries,
`CreateMediaPipeline` returns `NS_OK` for a sending audio track pair at level 0
and then for a receiving video track pair at level 1, each with its own RTCP
transport.  Afterwards the transport-flow registry holds exactly four entries,
under the keys (1, rtcp), (1, rtp), (0, rtcp), (0, rtp), with four distinct
flow objects (addresses 5, 4, 1, 0), and the conduit registry holds exactly two
conduits, the audio conduit under (0, sending) and the video conduit under
(1, receiving), each created with a null peer link. -/
theorem CreateMediaPipeline_two_tracks (env1 env2 : Env)
    (locals remotes : List SourceStreamInfo) (t0 t0r t1 t1r : JsepTransport)
    (codecs0 codecs1 : List JsepCodecDescription)
    (h1 : (CreateMediaPipeline env1 (PeerConnectionMedia.init locals remotes)
      { mLevel := 0, mRtpTransport := t0, mRtcpTransport := some t0r }
      { media_type := MediaType.kAudio, direction := Direction.kJsepTrackSending,
        codecs := codecs0 }).result = some NS_OK)
    (h2 : (CreateMediaPipeline env2
      (CreateMediaPipeline env1 (PeerConnectionMedia.init locals remotes)
        { mLevel := 0, mRtpTransport := t0, mRtcpTransport := some t0r }
        { media_type := MediaType.kAudio, direction := Direction.kJsepTrackSending,
          codecs := codecs0 }).media
      { mLevel := 1, mRtpTransport := t1, mRtcpTransport := some t1r }
      { media_type := MediaType.kVideo, direction := Direction.kJsepTrackReceiving,
        codecs := codecs1 }).result = some NS_OK) :
    (CreateMediaPipeline env2
      (CreateMediaPipeline env1 (PeerConnectionMedia.init locals remotes)
        { mLevel := 0, mRtpTransport := t0, mRtcpTransport := some t0r }
        { media_type := MediaType.kAudio, direction := Direction.kJsepTrackSending,
          codecs := codecs0 }).media
      { mLevel := 1, mRtpTransport := t1, mRtcpTransport := some t1r }
      { media_type := MediaType.kVideo, direction := Direction.kJsepTrackReceiving,
        codecs := codecs1 }).media.mTransportFlows =
      [((1, true), { addr := 5, id := flowId env2.handle 1 true }),
       ((1, false), { addr := 4, id := flowId env2.handle 1 false }),
       ((0, true), { addr := 1, id := flowId env1.handle 0 true }),
       ((0, false), { addr := 0, id := flowId env1.handle 0 false })] ∧
    (CreateMediaPipeline env2
      (CreateMediaPipeline env1 (PeerConnectionMedia.init locals remotes)
        { mLevel := 0, mRtpTransport := t0, mRtcpTransport := some t0r }
        { media_type := MediaType.kAudio, direction := Direction.kJsepTrackSending,
          codecs := codecs0 }).media
      { mLevel := 1, mRtpTransport := t1, mRtcpTransport := some t1r }
      { media_type := MediaType.kVideo, direction := Direction.kJsepTrackReceiving,
        codecs := codecs1 }).media.mConduits =
      [((1, true), { addr := 6, type := ConduitType.VIDEO, other := none }),
       ((0, false), { addr := 2, type := ConduitType.AUDIO, other := none })] ∧
    ((CreateMediaPipeline env2
      (CreateMediaPipeline env1 (PeerConnectionMedia.init locals remotes)
        { mLevel := 0, mRtpTransport := t0, mRtcpTransport := some t0r }
        { media_type := MediaType.kAudio, direction := Direction.kJsepTrackSending,
          codecs := codecs0 }).media
      { mLevel := 1, mRtpTransport := t1, mRtcpTransport := some t1r }
      { media_type := MediaType.kVideo, direction := Direction.kJsepTrackReceiving,
        codecs := codecs1 }).media.mTransportFlows.map (fun e => e.2.addr)).Nodup := by
  obtain ⟨hfl1, had1, hau1, _⟩ := CreateMediaPipeline_ok_registries env1
    (PeerConnectionMedia.init locals remotes)
    { mLevel := 0, mRtpTransport := t0, mRtcpTransport := some t0r }
    { media_type := MediaType.kAudio, direction := Direction.kJsepTrackSending,
      codecs := codecs0 } t0r rfl rfl rfl h1
  have hcd1 := hau1 rfl
  generalize (CreateMediaPipeline env1 (PeerConnectionMedia.init locals remotes)
    { mLevel := 0, mRtpTransport := t0, mRtcpTransport := some t0r }
    { media_type := MediaType.kAudio, direction := Direction.kJsepTrackSending,
      codecs := codecs0 }).media = M at h2 hfl1 had1 hcd1 ⊢
  have hfl1b : M.mTransportFlows =
      [((0, true), { addr := 1, id := flowId env1.handle 0 true }),
       ((0, false), { addr := 0, id := flowId env1.handle 0 false })] := hfl1
  have had1b : M.nextAddr = 4 := had1
  have hcd1b : M.mConduits =
      [((0, false), { addr := 2, type := ConduitType.AUDIO, other := none })] := hcd1
  obtain ⟨hfl2, had2, _, hvi2⟩ := CreateMediaPipeline_ok_registries env2 M
    { mLevel := 1, mRtpTransport := t1, mRtcpTransport := some t1r }
    { media_type := MediaType.kVideo, direction := Direction.kJsepTrackReceiving,
      codecs := codecs1 } t1r rfl
    (by simp only [PeerConnectionMedia.GetTransportFlow, hfl1b]; rfl)
    (by simp only [PeerConnectionMedia.GetTransportFlow, hfl1b]; rfl) h2
  have hcd2 := hvi2 rfl
  rw [hfl1b, had1b] at hfl2
  simp only [PeerConnectionMedia.GetConduit, hcd1b, had1b] at hcd2
  have hfl2b : (CreateMediaPipeline env2 M
      { mLevel := 1, mRtpTransport := t1, mRtcpTransport := some t1r }
      { media_type := MediaType.kVideo, direction := Direction.kJsepTrackReceiving,
        codecs := codecs1 }).media.mTransportFlows =
      [((1, true), { addr := 5, id := flowId env2.handle 1 true }),
       ((1, false), { addr := 4, id := flowId env2.handle 1 false }),
       ((0, true), { addr := 1, id := flowId env1.handle 0 true }),
       ((0, false), { addr := 0, id := flowId env1.handle 0 false })] := hfl2
  refine ⟨hfl2b, hcd2, ?_⟩
  rw [hfl2b]
  simp


theorem CreateMediaPipeline_two_tracks_witness :
    (CreateMediaPipeline okEnv (PeerConnectionMedia.init emptyMedia.mLocalSourceStreams
        emptyMedia.mRemoteSourceStreams)
      { mLevel := 0, mRtpTransport := sampleTransport, mRtcpTransport := some sampleTransport }
      { media_type := MediaType.kAudio, direction := Direction.kJsepTrackSending,
        codecs := [opusDesc] }).result = some NS_OK ∧
    (CreateMediaPipeline okEnv
      (CreateMediaPipeline okEnv (PeerConnectionMedia.init emptyMedia.mLocalSourceStreams
          emptyMedia.mRemoteSourceStreams)
        { mLevel := 0, mRtpTransport := sampleTransport, mRtcpTransport := some sampleTransport }
        { media_type := MediaType.kAudio, direction := Direction.kJsepTrackSending,
          codecs := [opusDesc] }).media
      { mLevel := 1, mRtpTransport := sampleTransport, mRtcpTransport := some sampleTransport }
      { media_type := MediaType.kVideo, direction := Direction.kJsepTrackReceiving,
        codecs := [vp8Desc] }).result = some NS_OK ∧
    (CreateMediaPipeline okEnv
      (CreateMediaPipeline okEnv (PeerConnectionMedia.init emptyMedia.mLocalSourceStreams
          emptyMedia.mRemoteSourceStreams)
        { mLevel := 0, mRtpTransport := sampleTransport, mRtcpTransport := some sampleTransport }
        { media_type := MediaType.kAudio, direction := Direction.kJsepTrackSending,
          codecs := [opusDesc] }).media
      { mLevel := 1, mRtpTransport := sampleTransport, mRtcpTransport := some sampleTransport }
      { media_type := MediaType.kVideo, direction := Direction.kJsepTrackReceiving,
        codecs := [vp8Desc] }).media.mConduits =
      [((1, true), { addr := 6, type := ConduitType.VIDEO, other := none }),
       ((0, false), { addr := 2, type := ConduitType.AUDIO, other := none })] :=
  ⟨by decide, by decide,
   (CreateMediaPipeline_two_tracks okEnv okEnv emptyMedia.mLocalSourceStreams
     emptyMedia.mRemoteSourceStreams sampleTransport sampleTransport sampleTransport
     sampleTransport [opusDesc] [vp8Desc] (by decide) (by decide)).2.1⟩

/-! ## Codec translation, field by field -/

/-- C12. Audio translation is verbatim: for every audio codec description the
translation succeeds, and the config it yields carries the description's
payload type, name, clock rate, packet size, channel count and bitrate, each
in its own field. -/
theorem JsepCodecDescToCodecConfigAudio_verbatim (d : JsepCodecDescription)
    (h : d.mType = MediaType.kAudio) :
    ∃ c, JsepCodecDescToCodecConfigAudio d = Except.ok c ∧
      c.mType = d.mDefaultPt ∧ c.mName = d.mName ∧ c.mFreq = d.mClock ∧
      c.mPacSize = d.mPacketSize ∧ c.mChannels = d.mChannels ∧ c.mRate = d.mBitrate := by
  unfold JsepCodecDescToCodecConfigAudio
  rw [if_neg (by simp [h])]
  exact ⟨_, rfl, rfl, rfl, rfl, rfl, rfl, rfl⟩

theorem JsepCodecDescToCodecConfigAudio_verbatim_witness :
    opusDesc.mType = MediaType.kAudio ∧
    ∃ c, JsepCodecDescToCodecConfigAudio opusDesc = Except.ok c ∧
      c.mType = 109 ∧ c.mName = "opus" ∧ c.mFreq = 48000 ∧
      c.mPacSize = 960 ∧ c.mChannels = 2 ∧ c.mRate = 40000 :=
  ⟨rfl, JsepCodecDescToCodecConfigAudio_verbatim opusDesc rfl⟩

/-- C13. Video translation: for every video codec description the translation
succeeds; the config carries the description's payload type and name, its
feedback types, maximal frame size and maximal frame rate are 0 and its H.264
pointer is null.  Two video descriptions with the same payload type and name
have the same translation, whatever their other fields. -/
theorem JsepCodecDescToCodecConfigVideo_fields (d : JsepCodecDescription)
    (h : d.mType = MediaType.kVideo) :
    (∃ c, JsepCodecDescToCodecConfigVideo d = Except.ok c ∧
      c.mType = d.mDefaultPt ∧ c.mName = d.mName ∧ c.mRtcpFbTypes = 0 ∧
      c.mMaxFrameSize = 0 ∧ c.mMaxFrameRate = 0 ∧ c.mH264 = none) ∧
    ∀ d2 : JsepCodecDescription, d2.mType = MediaType.kVideo →
      d2.mDefaultPt = d.mDefaultPt → d2.mName = d.mName →
      JsepCodecDescToCodecConfigVideo d2 = JsepCodecDescToCodecConfigVideo d := by
  refine ⟨?_, ?_⟩
  · unfold JsepCodecDescToCodecConfigVideo
    rw [if_neg (by simp [h])]
    exact ⟨_, rfl, rfl, rfl, rfl, rfl, rfl, rfl⟩
  · intro d2 h2 hpt hname
    simp [JsepCodecDescToCodecConfigVideo, h, h2, hpt, hname]

theorem JsepCodecDescToCodecConfigVideo_fields_witness :
    vp8Desc.mType = MediaType.kVideo ∧
    JsepCodecDescToCodecConfigVideo { vp8Desc with mClock := 1, mBitrate := 77 } =
      JsepCodecDescToCodecConfigVideo vp8Desc :=
  ⟨rfl, (JsepCodecDescToCodecConfigVideo_fields vp8Desc rfl).2
    { vp8Desc with mClock := 1, mBitrate := 77 } rfl rfl rfl⟩

/-! ## The external-codec step -/

/-- C14 (counterexample).  An external encoder is at hand and the conduit would
accept it, yet for the name `VP9`, outside the whitelist, `EnsureExternalCodec`
makes no attempt to bind it: it returns `kMediaConduitInvalidSendCodec` at once
and calls neither the encoder factory nor `SetExternalSendCodec`. -/
theorem EnsureExternalCodec_no_binding_attempt :
    externalCodecEnv.CreateEncoder emptyMedia.calls = true ∧
    vp9Config.mName ≠ "VP8" ∧
    EnsureExternalCodec externalCodecEnv emptyMedia sampleVideoConduit vp9Config true =
      (kMediaConduitInvalidSendCodec, emptyMedia) ∧
    (EnsureExternalCodec externalCodecEnv emptyMedia sampleVideoConduit h264Config true).1 =
      externalCodecEnv.SetExternalSendCodec [Call.CreateEncoder] sampleVideoConduit
        h264Config := by
  decide

/-- C14 (amended).  `EnsureExternalCodec` by codec name.  `VP8` returns 0 and
binds nothing.  `H264_P0` and `H264_P1` ask the external factory (encoder when
sending, decoder when receiving): with an implementation at hand it is bound
with `SetExternalSendCodec` / `SetExternalRecvCodec` and that call's result is
returned, without one `kMediaConduitInvalidSendCodec` /
`kMediaConduitInvalidReceiveCodec` is returned.  Every other name returns
`kMediaConduitInvalidSendCodec` when sending and
`kMediaConduitInvalidReceiveCodec` when receiving, with no call at all. -/
theorem EnsureExternalCodec_by_name (env : Env) (m : PeerConnectionMedia)
    (conduit : MediaSessionConduit) (config : VideoCodecConfig) :
    (config.mName = "VP8" → ∀ send, EnsureExternalCodec env m conduit config send = (0, m)) ∧
    (config.mName = "H264_P0" ∨ config.mName = "H264_P1" →
      (env.CreateEncoder m.calls = true →
        EnsureExternalCodec env m conduit config true =
          (env.SetExternalSendCodec (m.calls ++ [Call.CreateEncoder]) conduit config,
           (m.record Call.CreateEncoder).record
             (Call.SetExternalSendCodec conduit.addr config))) ∧
      (env.CreateEncoder m.calls = false →
        EnsureExternalCodec env m conduit config true =
          (kMediaConduitInvalidSendCodec, m.record Call.CreateEncoder)) ∧
      (env.CreateDecoder m.calls = true →
        EnsureExternalCodec env m conduit config false =
          (env.SetExternalRecvCodec (m.calls ++ [Call.CreateDecoder]) conduit config,
           (m.record Call.CreateDecoder).record
             (Call.SetExternalRecvCodec conduit.addr config))) ∧
      (env.CreateDecoder m.calls = false →
        EnsureExternalCodec env m conduit config false =
          (kMediaConduitInvalidReceiveCodec, m.record Call.CreateDecoder))) ∧
    (config.mName ≠ "VP8" → config.mName ≠ "H264_P0" → config.mName ≠ "H264_P1" →
      EnsureExternalCodec env m conduit config true = (kMediaConduitInvalidSendCodec, m) ∧
      EnsureExternalCodec env m conduit config false =
        (kMediaConduitInvalidReceiveCodec, m)) := by
  refine ⟨?_, ?_, ?_⟩
  · intro h send
    simp [EnsureExternalCodec, h]
  · intro h
    have hne : config.mName ≠ "VP8" := by
      rcases h with h | h <;> rw [h] <;> decide
    refine ⟨?_, ?_, ?_, ?_⟩ <;> intro hc <;> simp [EnsureExternalCodec, hne, h, hc]
  · intro h1 h2 h3
    simp [EnsureExternalCodec, h1, h2, h3]

theorem EnsureExternalCodec_by_name_witness :
    vp8Config.mName = "VP8" ∧
    EnsureExternalCodec okEnv emptyMedia sampleVideoConduit vp8Config false = (0, emptyMedia) ∧
    EnsureExternalCodec okEnv emptyMedia sampleVideoConduit vp9Config false =
      (kMediaConduitInvalidReceiveCodec, emptyMedia) :=
  ⟨rfl,
   (EnsureExternalCodec_by_name okEnv emptyMedia sampleVideoConduit vp8Config).1 rfl false,
   ((EnsureExternalCodec_by_name okEnv emptyMedia sampleVideoConduit vp9Config).2.2
     (by decide) (by decide) (by decide)).2⟩

/-! ## The send-video step of `CreateVideoConduit` -/

/-- C15. Sending video track, first codec `d` (a video description), conduit
created.  With `M` the state right after the conduit is registered and `config`
the translation of `d`: if `EnsureExternalCodec` reports an error for `config`,
`CreateVideoConduit` returns `NS_ERROR_FAILURE`, hands no conduit back and
makes no configuration call; otherwise it makes exactly one configuration call,
`ConfigureSendMediaCodec` on the new conduit with `config`, returns `NS_OK`
with the conduit when that call reports no error, and `NS_ERROR_FAILURE`
without a conduit when it reports one. -/
theorem CreateVideoConduit_send_external_step (env : Env) (m : PeerConnectionMedia)
    (trackPair : JsepTrackPair) (track : JsepTrack) (d : JsepCodecDescription)
    (rest : List JsepCodecDescription)
    (hs : track.direction = Direction.kJsepTrackSending)
    (hcodecs : track.codecs = d :: rest)
    (hvideo : d.mType = MediaType.kVideo)
    (hcreate : env.VideoSessionConduitCreate (m.calls ++ [Call.GetConduit trackPair.mLevel true])
      (m.GetConduit trackPair.mLevel true) = true) :
    ∃ (M : PeerConnectionMedia) (config : VideoCodecConfig) (new : List Call),
      M.calls = m.calls ++
        [Call.GetConduit trackPair.mLevel true,
         Call.VideoSessionConduitCreate (m.GetConduit trackPair.mLevel true),
         Call.AddConduit trackPair.mLevel false
           { addr := m.nextAddr, type := ConduitType.VIDEO,
             other := (m.GetConduit trackPair.mLevel true).map (·.addr) }] ∧
      JsepCodecDescToCodecConfigVideo d = Except.ok config ∧
      (CreateVideoConduit env m trackPair track).2.2.calls = m.calls ++ new ∧
      ((EnsureExternalCodec env M
          { addr := m.nextAddr, type := ConduitType.VIDEO,
            other := (m.GetConduit trackPair.mLevel true).map (·.addr) } config true).1 ≠ 0 →
        (CreateVideoConduit env m trackPair track).1 = NS_ERROR_FAILURE ∧
        (CreateVideoConduit env m trackPair track).2.1 = none ∧
        new.filter Call.isConfigure = []) ∧
      ((EnsureExternalCodec env M
          { addr := m.nextAddr, type := ConduitType.VIDEO,
            other := (m.GetConduit trackPair.mLevel true).map (·.addr) } config true).1 = 0 →
        new.filter Call.isConfigure = [Call.VideoConfigureSendMediaCodec m.nextAddr config] ∧
        (env.VideoConfigureSendMediaCodec
            (EnsureExternalCodec env M
              { addr := m.nextAddr, type := ConduitType.VIDEO,
                other := (m.GetConduit trackPair.mLevel true).map (·.addr) } config true).2.calls
            { addr := m.nextAddr, type := ConduitType.VIDEO,
              other := (m.GetConduit trackPair.mLevel true).map (·.addr) } config = 0 →
          (CreateVideoConduit env m trackPair track).1 = NS_OK ∧
          (CreateVideoConduit env m trackPair track).2.1 =
            some { addr := m.nextAddr, type := ConduitType.VIDEO,
                   other := (m.GetConduit trackPair.mLevel true).map (·.addr) }) ∧
        (env.VideoConfigureSendMediaCodec
            (EnsureExternalCodec env M
              { addr := m.nextAddr, type := ConduitType.VIDEO,
                other := (m.GetConduit trackPair.mLevel true).map (·.addr) } config true).2.calls
            { addr := m.nextAddr, type := ConduitType.VIDEO,
              other := (m.GetConduit trackPair.mLevel true).map (·.addr) } config ≠ 0 →
          (CreateVideoConduit env m trackPair track).1 = NS_ERROR_FAILURE ∧
          (CreateVideoConduit env m trackPair track).2.1 = none)) := by
  have hdec : decide (Direction.kJsepTrackSending = Direction.kJsepTrackReceiving) = false := by
    decide
  rcases CreateVideoConduit_cases env m trackPair track with ⟨_, hcr⟩ | ⟨M, hc, hcalls, _⟩
  · rw [hcreate] at hcr; cases hcr
  · simp only [hs, hdec] at hc hcalls
    obtain ⟨config, hcfg⟩ : ∃ config, JsepCodecDescToCodecConfigVideo d = Except.ok config := by
      simp [JsepCodecDescToCodecConfigVideo, hvideo]
    obtain ⟨e, he, hef⟩ := EnsureExternalCodec_calls env M
      { addr := m.nextAddr, type := ConduitType.VIDEO,
        other := (m.GetConduit trackPair.mLevel true).map (·.addr) } config true
    obtain ⟨p0, hp0, hp0f⟩ : ∃ p0, M.calls = m.calls ++ p0 ∧
        p0.filter Call.isConfigure = [] := ⟨_, hcalls, by simp [Call.isConfigure]⟩
    rw [hc, configureVideoConduit_send env M _ track d rest hcodecs, hcfg]
    dsimp only
    by_cases hens : (EnsureExternalCodec env M
        { addr := m.nextAddr, type := ConduitType.VIDEO,
          other := (m.GetConduit trackPair.mLevel true).map (·.addr) } config true).1 = 0
    · rw [if_neg (by simpa using hens)]
      by_cases hcall : env.VideoConfigureSendMediaCodec
          (EnsureExternalCodec env M
            { addr := m.nextAddr, type := ConduitType.VIDEO,
              other := (m.GetConduit trackPair.mLevel true).map (·.addr) } config true).2.calls
          { addr := m.nextAddr, type := ConduitType.VIDEO,
            other := (m.GetConduit trackPair.mLevel true).map (·.addr) } config = 0
      · rw [if_neg (by simpa using hcall)]
        refine ⟨M, config, p0 ++ e ++ [Call.VideoConfigureSendMediaCodec m.nextAddr config],
          hcalls, rfl, by simp [he, hp0], fun h => absurd hens h, fun _ => ⟨?_, ?_, ?_⟩⟩
        · simp [hp0f, hef, Call.isConfigure]
        · intro _; exact ⟨rfl, rfl⟩
        · intro h; exact absurd hcall h
      · rw [if_pos hcall]
        refine ⟨M, config, p0 ++ e ++ [Call.VideoConfigureSendMediaCodec m.nextAddr config],
          hcalls, rfl, by simp [he, hp0], fun h => absurd hens h, fun _ => ⟨?_, ?_, ?_⟩⟩
        · simp [hp0f, hef, Call.isConfigure]
        · intro h; exact absurd h hcall
        · intro _; exact ⟨rfl, rfl⟩
    · rw [if_pos hens]
      refine ⟨M, config, p0 ++ e, hcalls, rfl, by simp [he, hp0],
        fun _ => ⟨rfl, rfl, by simp [hp0f, hef]⟩, fun h => absurd h hens⟩

theorem CreateVideoConduit_send_external_step_witness :
    videoSendTrack.direction = Direction.kJsepTrackSending ∧
    videoSendTrack.codecs = vp8Desc :: [h264Desc] ∧
    ∃ new, (CreateVideoConduit okEnv emptyMedia samplePair0 videoSendTrack).2.2.calls =
        emptyMedia.calls ++ new ∧
      new.filter Call.isConfigure = [Call.VideoConfigureSendMediaCodec 0 vp8Config] := by
  obtain ⟨M, config, new, _, hcfg, hcalls, _, hgood⟩ :=
    CreateVideoConduit_send_external_step okEnv emptyMedia samplePair0 videoSendTrack vp8Desc
      [h264Desc] rfl rfl rfl rfl
  have hconfig : config = vp8Config := by
    have h : Except.ok vp8Config = (Except.ok config : Except nsresult VideoCodecConfig) := hcfg
    cases h
    rfl
  subst hconfig
  exact ⟨rfl, rfl, new, hcalls, (hgood (by simp [EnsureExternalCodec, vp8Config])).1⟩

/-! ## The receive loops, when every codec is kept -/

/-- On a list of audio codecs the receive loop of `CreateAudioConduit` never
returns early; it ends with the translations of all the codecs, in order. -/
theorem audioRecvConfigs_all_audio (track : JsepTrack)
    (haudio : ∀ d ∈ track.codecs, d.mType = MediaType.kAudio) :
    ∀ (n k : Nat) (configs : List AudioCodecConfig),
      k + n = track.codecs.length →
      ∃ new : List AudioCodecConfig,
        audioRecvConfigs track (List.range' k n) configs = Except.ok (configs ++ new) ∧
        new.map Except.ok = (track.codecs.drop k).map JsepCodecDescToCodecConfigAudio := by
  intro n
  induction n with
  | zero =>
    intro k configs hk
    have hdrop : track.codecs.drop k = [] := List.drop_eq_nil_of_le (by omega)
    exact ⟨[], by simp [audioRecvConfigs], by simp [hdrop]⟩
  | succ n ih =>
    intro k configs hk
    have hlt : k < track.codecs.length := by omega
    have htype := haudio _ (List.getElem_mem hlt)
    rw [List.range'_succ, List.drop_eq_getElem_cons hlt]
    simp only [audioRecvConfigs, get_codec_of_lt track k hlt]
    obtain ⟨cfg, htr⟩ : ∃ cfg, JsepCodecDescToCodecConfigAudio track.codecs[k] =
        Except.ok cfg := by
      simp [JsepCodecDescToCodecConfigAudio, htype]
    rw [htr]
    obtain ⟨new, hrun, hnew⟩ := ih (k + 1) (configs ++ [cfg]) (by omega)
    refine ⟨cfg :: new, ?_, ?_⟩
    · dsimp only
      rw [hrun]; simp
    · rw [List.map_cons, List.map_cons, hnew, htr]

/-- On a list of video codecs each of which passes `EnsureExternalCodec` for
the receive side, the receive loop of `CreateVideoConduit` never returns early
and skips nothing; it ends with the translations of all the codecs, in order,
and makes no configuration call. -/
theorem videoRecvConfigs_all_ensured (env : Env) (conduit : MediaSessionConduit)
    (track : JsepTrack)
    (hvideo : ∀ d ∈ track.codecs, d.mType = MediaType.kVideo)
    (hens : ∀ d ∈ track.codecs, ∀ cfg, JsepCodecDescToCodecConfigVideo d = Except.ok cfg →
      ∀ M : PeerConnectionMedia, (EnsureExternalCodec env M conduit cfg false).1 = 0) :
    ∀ (n k : Nat) (m : PeerConnectionMedia) (configs : List VideoCodecConfig),
      k + n = track.codecs.length →
      ∃ (m2 : PeerConnectionMedia) (kept : List VideoCodecConfig) (new : List Call),
        videoRecvConfigs env conduit track (List.range' k n) m configs =
          Except.ok (configs ++ kept, m2) ∧
        kept.map Except.ok = (track.codecs.drop k).map JsepCodecDescToCodecConfigVideo ∧
        m2.calls = m.calls ++ new ∧ new.filter Call.isConfigure = [] := by
  intro n
  induction n with
  | zero =>
    intro k m configs hk
    have hdrop : track.codecs.drop k = [] := List.drop_eq_nil_of_le (by omega)
    exact ⟨m, [], [], by simp [videoRecvConfigs], by simp [hdrop], by simp, rfl⟩
  | succ n ih =>
    intro k m configs hk
    have hlt : k < track.codecs.length := by omega
    have hmem : track.codecs[k] ∈ track.codecs := List.getElem_mem hlt
    have htype := hvideo _ hmem
    rw [List.range'_succ, List.drop_eq_getElem_cons hlt]
    simp only [videoRecvConfigs, get_codec_of_lt track k hlt]
    obtain ⟨cfg, htr⟩ : ∃ cfg, JsepCodecDescToCodecConfigVideo track.codecs[k] =
        Except.ok cfg := by
      simp [JsepCodecDescToCodecConfigVideo, htype]
    rw [htr]
    have h0 := hens _ hmem cfg htr m
    obtain ⟨e, he, hef⟩ := EnsureExternalCodec_calls env m conduit cfg false
    obtain ⟨m2, kept, new, hrun, hkept, hcalls, hnew⟩ :=
      ih (k + 1) (EnsureExternalCodec env m conduit cfg false).2 (configs ++ [cfg])
        (by omega)
    refine ⟨m2, cfg :: kept, e ++ new, ?_, ?_, ?_, ?_⟩
    · simp only [h0, ne_eq, not_true_eq_false, if_false]
      rw [hrun]
      simp
    · rw [List.map_cons, List.map_cons, hkept, htr]
    · rw [hcalls, he, List.append_assoc]
    · simp [hef, hnew]

/-- The receiving branch of the audio configuration on a non-empty list of
audio codecs: one `ConfigureRecvMediaCodecs` call with the translations of all
the codecs is the only call, and the result is decided by that call. -/
theorem configureAudioConduit_recv_all (env : Env) (m : PeerConnectionMedia)
    (conduit : MediaSessionConduit) (track : JsepTrack)
    (haudio : ∀ d ∈ track.codecs, d.mType = MediaType.kAudio)
    (hne : track.codecs ≠ []) :
    ∃ configs : List AudioCodecConfig,
      configs.map Except.ok = track.codecs.map JsepCodecDescToCodecConfigAudio ∧
      (configureAudioConduit env m conduit track true).2.2.calls =
        m.calls ++ [Call.AudioConfigureRecvMediaCodecs conduit.addr configs] ∧
      (configureAudioConduit env m conduit track true).1 =
        (if env.AudioConfigureRecvMediaCodecs m.calls conduit configs = 0
          then NS_OK else NS_ERROR_FAILURE) ∧
      (configureAudioConduit env m conduit track true).2.1 =
        (if env.AudioConfigureRecvMediaCodecs m.calls conduit configs = 0
          then some conduit else none) := by
  obtain ⟨new, hrun, hnew⟩ :=
    audioRecvConfigs_all_audio track haudio track.codecs.length 0 [] (by omega)
  have hlen : track.codecs.length ≠ 0 := by
    intro h
    exact hne (List.length_eq_zero.mp h)
  refine ⟨new, by simpa using hnew, ?_, ?_, ?_⟩ <;>
  · unfold configureAudioConduit
    simp only [JsepTrack.num_codecs, hlen, if_false, if_true, List.range_eq_range', hrun,
      List.nil_append]
    split <;> simp_all

/-- The receiving branch of the video configuration on a non-empty list of
video codecs each of which passes `EnsureExternalCodec`: one
`ConfigureRecvMediaCodecs` call with the translations of all the codecs ends
the trace, and the result is decided by that call. -/
theorem configureVideoConduit_recv_all (env : Env) (m : PeerConnectionMedia)
    (conduit : MediaSessionConduit) (track : JsepTrack)
    (hvideo : ∀ d ∈ track.codecs, d.mType = MediaType.kVideo)
    (hens : ∀ d ∈ track.codecs, ∀ cfg, JsepCodecDescToCodecConfigVideo d = Except.ok cfg →
      ∀ M : PeerConnectionMedia, (EnsureExternalCodec env M conduit cfg false).1 = 0)
    (hne : track.codecs ≠ []) :
    ∃ (pre : List Call) (configs : List VideoCodecConfig),
      configs.map Except.ok = track.codecs.map JsepCodecDescToCodecConfigVideo ∧
      (configureVideoConduit env m conduit track true).2.2.calls =
        m.calls ++ pre ++ [Call.VideoConfigureRecvMediaCodecs conduit.addr configs] ∧
      pre.filter Call.isConfigure = [] ∧
      (configureVideoConduit env m conduit track true).1 =
        (if env.VideoConfigureRecvMediaCodecs (m.calls ++ pre) conduit configs = 0
          then NS_OK else NS_ERROR_FAILURE) ∧
      (configureVideoConduit env m conduit track true).2.1 =
        (if env.VideoConfigureRecvMediaCodecs (m.calls ++ pre) conduit configs = 0
          then some conduit else none) := by
  obtain ⟨m2, kept, new, hrun, hkept, hcalls, hnew⟩ :=
    videoRecvConfigs_all_ensured env conduit track hvideo hens track.codecs.length 0 m []
      (by omega)
  have hlen : track.codecs.length ≠ 0 := by
    intro h
    exact hne (List.length_eq_zero.mp h)
  refine ⟨new, kept, by simpa using hkept, ?_, hnew, ?_, ?_⟩ <;>
  · unfold configureVideoConduit
    simp only [JsepTrack.num_codecs, hlen, if_false, if_true, List.range_eq_range', hrun,
      List.nil_append, hcalls]
    split <;> simp_all

/-- C16. Receiving track with a non-empty codec list, conduit created.
Audio: when every codec is an audio description, `CreateAudioConduit` makes
exactly one configuration call, `ConfigureRecvMediaCodecs` on the new conduit,
with as many configs as codecs, the translations of the codecs in negotiated
order.  Video: the same for `CreateVideoConduit` when every codec is a video
description that passes `EnsureExternalCodec` for the receive side.  In both
the result is `NS_OK` with the conduit handed back when that call reports no
error, and `NS_ERROR_FAILURE` with no conduit when it reports one. -/
theorem CreateConduit_recv_all_codecs (env : Env) (m : PeerConnectionMedia)
    (trackPair : JsepTrackPair) (track : JsepTrack)
    (hrecv : track.direction = Direction.kJsepTrackReceiving)
    (hne : track.codecs ≠ []) :
    ((∀ d ∈ track.codecs, d.mType = MediaType.kAudio) →
      env.AudioSessionConduitCreate (m.calls ++ [Call.GetConduit trackPair.mLevel true])
        (m.GetConduit trackPair.mLevel true) = true →
      ∃ (pre : List Call) (configs : List AudioCodecConfig),
        configs.length = track.codecs.length ∧
        configs.map Except.ok = track.codecs.map JsepCodecDescToCodecConfigAudio ∧
        (CreateAudioConduit env m trackPair track).2.2.calls =
          m.calls ++ pre ++ [Call.AudioConfigureRecvMediaCodecs m.nextAddr configs] ∧
        pre.filter Call.isConfigure = [] ∧
        (CreateAudioConduit env m trackPair track).1 =
          (if env.AudioConfigureRecvMediaCodecs (m.calls ++ pre)
              { addr := m.nextAddr, type := ConduitType.AUDIO,
                other := (m.GetConduit trackPair.mLevel true).map (·.addr) } configs = 0
            then NS_OK else NS_ERROR_FAILURE) ∧
        (CreateAudioConduit env m trackPair track).2.1 =
          (if env.AudioConfigureRecvMediaCodecs (m.calls ++ pre)
              { addr := m.nextAddr, type := ConduitType.AUDIO,
                other := (m.GetConduit trackPair.mLevel true).map (·.addr) } configs = 0
            then some { addr := m.nextAddr, type := ConduitType.AUDIO,
                        other := (m.GetConduit trackPair.mLevel true).map (·.addr) }
            else none)) ∧
    ((∀ d ∈ track.codecs, d.mType = MediaType.kVideo) →
      (∀ d ∈ track.codecs, ∀ cfg, JsepCodecDescToCodecConfigVideo d = Except.ok cfg →
        ∀ M : PeerConnectionMedia,
          (EnsureExternalCodec env M
            { addr := m.nextAddr, type := ConduitType.VIDEO,
              other := (m.GetConduit trackPair.mLevel true).map (·.addr) } cfg false).1 = 0) →
      env.VideoSessionConduitCreate (m.calls ++ [Call.GetConduit trackPair.mLevel true])
        (m.GetConduit trackPair.mLevel true) = true →
      ∃ (pre : List Call) (configs : List VideoCodecConfig),
        configs.length = track.codecs.length ∧
        configs.map Except.ok = track.codecs.map JsepCodecDescToCodecConfigVideo ∧
        (CreateVideoConduit env m trackPair track).2.2.calls =
          m.calls ++ pre ++ [Call.VideoConfigureRecvMediaCodecs m.nextAddr configs] ∧
        pre.filter Call.isConfigure = [] ∧
        (CreateVideoConduit env m trackPair track).1 =
          (if env.VideoConfigureRecvMediaCodecs (m.calls ++ pre)
              { addr := m.nextAddr, type := ConduitType.VIDEO,
                other := (m.GetConduit trackPair.mLevel true).map (·.addr) } configs = 0
            then NS_OK else NS_ERROR_FAILURE) ∧
        (CreateVideoConduit env m trackPair track).2.1 =
          (if env.VideoConfigureRecvMediaCodecs (m.calls ++ pre)
              { addr := m.nextAddr, type := ConduitType.VIDEO,
                other := (m.GetConduit trackPair.mLevel true).map (·.addr) } configs = 0
            then some { addr := m.nextAddr, type := ConduitType.VIDEO,
                        other := (m.GetConduit trackPair.mLevel true).map (·.addr) }
            else none)) := by
  refine ⟨fun haudio hcreate => ?_, fun hvideo hens hcreate => ?_⟩
  · rcases CreateAudioConduit_cases env m trackPair track with ⟨_, hcr⟩ | ⟨M, hc, hcalls, _⟩
    · simp only [hrecv, decide_True] at hcr
      rw [hcreate] at hcr
      cases hcr
    · simp only [hrecv, decide_True] at hc hcalls
      obtain ⟨configs, hcfg, hcl, hres, hcond⟩ :=
        configureAudioConduit_recv_all env M
          { addr := m.nextAddr, type := ConduitType.AUDIO,
            other := (m.GetConduit trackPair.mLevel true).map (·.addr) } track haudio hne
      obtain ⟨p0, hp0, hp0f⟩ : ∃ p0, M.calls = m.calls ++ p0 ∧
          p0.filter Call.isConfigure = [] := ⟨_, hcalls, by simp [Call.isConfigure]⟩
      have hlen := congrArg List.length hcfg
      simp only [List.length_map] at hlen
      refine ⟨p0, configs, hlen, hcfg, ?_, hp0f, ?_, ?_⟩
      · rw [hc, hcl, hp0]
      · rw [hc, hres, hp0]
      · rw [hc, hcond, hp0]
  · rcases CreateVideoConduit_cases env m trackPair track with ⟨_, hcr⟩ | ⟨M, hc, hcalls, _⟩
    · rw [hcreate] at hcr
      cases hcr
    · simp only [hrecv, decide_True] at hc hcalls
      obtain ⟨pre, configs, hcfg, hcl, hpre, hres, hcond⟩ :=
        configureVideoConduit_recv_all env M
          { addr := m.nextAddr, type := ConduitType.VIDEO,
            other := (m.GetConduit trackPair.mLevel true).map (·.addr) } track hvideo hens hne
      obtain ⟨p0, hp0, hp0f⟩ : ∃ p0, M.calls = m.calls ++ p0 ∧
          p0.filter Call.isConfigure = [] := ⟨_, hcalls, by simp [Call.isConfigure]⟩
      have hlen := congrArg List.length hcfg
      simp only [List.length_map] at hlen
      refine ⟨p0 ++ pre, configs, hlen, hcfg, ?_, by simp [hp0f, hpre], ?_, ?_⟩
      · rw [hc, hcl, hp0]; simp
      · rw [hc, hres, hp0]; simp
      · rw [hc, hcond, hp0]; simp

theorem CreateConduit_recv_all_codecs_witness :
    videoRecvTrackH264.direction = Direction.kJsepTrackReceiving ∧
    videoRecvTrackH264.codecs ≠ [] ∧
    ∃ pre, (CreateVideoConduit externalCodecEnv emptyMedia samplePair0
        videoRecvTrackH264).2.2.calls =
      emptyMedia.calls ++ pre ++
        [Call.VideoConfigureRecvMediaCodecs 0 [vp8Config, h264Config]] := by
  obtain ⟨pre, configs, _, hcfg, hcalls, _⟩ :=
    (CreateConduit_recv_all_codecs externalCodecEnv emptyMedia samplePair0 videoRecvTrackH264
      rfl (by decide)).2 (by decide)
      (by
        intro d hd cfg hcfg M
        have hd2 : d = vp8Desc ∨ d = h264Desc := by
          simpa [videoRecvTrackH264] using hd
        rcases hd2 with rfl | rfl
        · have h : Except.ok vp8Config = (Except.ok cfg : Except nsresult VideoCodecConfig) :=
            hcfg
          cases h
          simp [EnsureExternalCodec, vp8Config]
        · have h : Except.ok h264Config = (Except.ok cfg : Except nsresult VideoCodecConfig) :=
            hcfg
          cases h
          simp [EnsureExternalCodec, h264Config, externalCodecEnv, okEnv, kMediaConduitNoError])
      rfl
  have hconfigs : configs = [vp8Config, h264Config] := by
    have h : configs.map (Except.ok : VideoCodecConfig → Except nsresult VideoCodecConfig) =
        [vp8Config, h264Config].map Except.ok := hcfg
    exact List.map_injective_iff.mpr (fun a b hab => by cases hab; rfl) h
  subst hconfigs
  exact ⟨rfl, by decide, pre, hcalls⟩

/-! ## The pipeline stage without a stream bucket -/

/-- When the flow resolution and the conduit creation do not fail,
`CreateMediaPipeline` ends with the pipeline stage of the track's direction,
run from the state the conduit stage left, whose stream buckets are those of
the initial state. -/
theorem CreateMediaPipeline_stage_reached (env : Env) (m : PeerConnectionMedia)
    (trackPair : JsepTrackPair) (track : JsepTrack)
    (c : nsresult × Option MediaSessionConduit × PeerConnectionMedia)
    (hflows : NS_FAILED (resolveTransportFlows env m trackPair).1 = false)
    (hc : createConduit env (resolveTransportFlows env m trackPair).2.2.2 trackPair track =
      some c)
    (hcok : NS_FAILED c.1 = false) :
    CreateMediaPipeline env m trackPair track =
      returnOrOk
        (if track.direction = Direction.kJsepTrackReceiving then
          CreateMediaPipelineReceiving env c.2.2 (resolveTransportFlows env m trackPair).2.1
            (resolveTransportFlows env m trackPair).2.2.1 none none trackPair track c.2.1
        else
          CreateMediaPipelineSending env c.2.2 (resolveTransportFlows env m trackPair).2.1
            (resolveTransportFlows env m trackPair).2.2.1 trackPair c.2.1) ∧
    SameStreams m c.2.2 ∧
    ∃ A, c.2.2.calls = m.calls ++ A ∧
      ∀ call ∈ A, call.phase = Phase.transport ∨ call.phase = Phase.conduit := by
  have h1 := resolveTransportFlows_step env m trackPair
  have h2 := createConduit_step env _ trackPair track c hc
  obtain ⟨n1, hn1, hp1⟩ := h1.transport_calls
  obtain ⟨n2, hn2, hp2⟩ := h2.conduit_calls
  refine ⟨?_, ⟨h2.2.2.1.trans h1.2.2.1, h2.2.2.2.1.trans h1.2.2.2.1⟩, n1 ++ n2,
    by rw [hn2, hn1, List.append_assoc], ?_⟩
  · unfold CreateMediaPipeline createConduitAndPipeline
    simp only [hflows, hc, hcok, Bool.false_eq_true, if_false]
    by_cases hd : track.direction = Direction.kJsepTrackReceiving <;> simp [hd]
  · intro call hcall
    rcases List.mem_append.mp hcall with h | h
    · exact hp1 call h
    · exact hp2 call h

/-- C17. The stream bucket is not found.  `CreateMediaPipelineReceiving`
without a remote stream 0 and `CreateMediaPipelineSending` without a local
stream 0 return `NS_ERROR_FAILURE` right after the lookup: the lookup is their
only call, so no pipeline is constructed and neither `Init` nor `StorePipeline`
is called.  A run of `CreateMediaPipeline` that reaches the pipeline stage (the
flows are resolved and the conduit is created) from a state without the bucket
of the track's direction returns this `NS_ERROR_FAILURE`, and the bucket lookup
is the only call it makes after the transport and conduit stages. -/
theorem CreateMediaPipeline_no_stream_bucket (env : Env) (m : PeerConnectionMedia)
    (trackPair : JsepTrackPair) (track : JsepTrack) :
    (m.mRemoteSourceStreams.get? 0 = none →
      ∀ (rtp rtcp brtp brtcp : Option TransportFlow) (conduit : Option MediaSessionConduit),
        CreateMediaPipelineReceiving env m rtp rtcp brtp brtcp trackPair track conduit =
          Outcome.returned NS_ERROR_FAILURE (m.record (Call.GetRemoteStream 0))) ∧
    (m.mLocalSourceStreams.get? 0 = none →
      ∀ (rtp rtcp : Option TransportFlow) (conduit : Option MediaSessionConduit),
        CreateMediaPipelineSending env m rtp rtcp trackPair conduit =
          Outcome.returned NS_ERROR_FAILURE (m.record (Call.GetLocalStream 0))) ∧
    (∀ c : nsresult × Option MediaSessionConduit × PeerConnectionMedia,
      NS_FAILED (resolveTransportFlows env m trackPair).1 = false →
      createConduit env (resolveTransportFlows env m trackPair).2.2.2 trackPair track =
        some c →
      NS_FAILED c.1 = false →
      (if track.direction = Direction.kJsepTrackReceiving
        then m.mRemoteSourceStreams.get? 0 = none
        else m.mLocalSourceStreams.get? 0 = none) →
      CreateMediaPipeline env m trackPair track =
        Outcome.returned NS_ERROR_FAILURE
          (c.2.2.record
            (if track.direction = Direction.kJsepTrackReceiving
              then Call.GetRemoteStream 0 else Call.GetLocalStream 0)) ∧
      ∃ A, (CreateMediaPipeline env m trackPair track).media.calls =
          m.calls ++ A ++
            [if track.direction = Direction.kJsepTrackReceiving
              then Call.GetRemoteStream 0 else Call.GetLocalStream 0] ∧
        ∀ call ∈ A, call.phase = Phase.transport ∨ call.phase = Phase.conduit) := by
  have hrecv : ∀ M : PeerConnectionMedia, M.mRemoteSourceStreams.get? 0 = none →
      ∀ (rtp rtcp brtp brtcp : Option TransportFlow) (conduit : Option MediaSessionConduit),
        CreateMediaPipelineReceiving env M rtp rtcp brtp brtcp trackPair track conduit =
          Outcome.returned NS_ERROR_FAILURE (M.record (Call.GetRemoteStream 0)) := by
    intro M h rtp rtcp brtp brtcp conduit
    unfold CreateMediaPipelineReceiving
    simp only [record_mRemoteSourceStreams, h]
  have hsend : ∀ M : PeerConnectionMedia, M.mLocalSourceStreams.get? 0 = none →
      ∀ (rtp rtcp : Option TransportFlow) (conduit : Option MediaSessionConduit),
        CreateMediaPipelineSending env M rtp rtcp trackPair conduit =
          Outcome.returned NS_ERROR_FAILURE (M.record (Call.GetLocalStream 0)) := by
    intro M h rtp rtcp conduit
    unfold CreateMediaPipelineSending
    simp only [record_mLocalSourceStreams, h]
  refine ⟨hrecv m, hsend m, ?_⟩
  intro c hflows hc hcok hbucket
  obtain ⟨heq, ⟨hloc, hrem⟩, A, hA, hAp⟩ :=
    CreateMediaPipeline_stage_reached env m trackPair track c hflows hc hcok
  have hout : CreateMediaPipeline env m trackPair track =
      Outcome.returned NS_ERROR_FAILURE
        (c.2.2.record
          (if track.direction = Direction.kJsepTrackReceiving
            then Call.GetRemoteStream 0 else Call.GetLocalStream 0)) := by
    rw [heq]
    by_cases hd : track.direction = Direction.kJsepTrackReceiving
    · rw [if_pos hd] at hbucket
      rw [if_pos hd, if_pos hd, hrecv c.2.2 (by rw [hrem]; exact hbucket)]
      simp [returnOrOk, NS_FAILED_NS_ERROR_FAILURE]
    · rw [if_neg hd] at hbucket
      rw [if_neg hd, if_neg hd, hsend c.2.2 (by rw [hloc]; exact hbucket)]
      simp [returnOrOk, NS_FAILED_NS_ERROR_FAILURE]
  refine ⟨hout, A, ?_, hAp⟩
  rw [hout]
  simp [Outcome.media, hA]

theorem CreateMediaPipeline_no_stream_bucket_witness :
    noStreamsMedia.mLocalSourceStreams.get? 0 = none ∧
    (CreateMediaPipeline okEnv noStreamsMedia samplePair0 audioSendTrack).result =
      some NS_ERROR_FAILURE :=
  ⟨rfl,
   congrArg Outcome.result
     ((CreateMediaPipeline_no_stream_bucket okEnv noStreamsMedia samplePair0 audioSendTrack).2.2
       (CreateAudioConduit okEnv (resolveTransportFlows okEnv noStreamsMedia samplePair0).2.2.2
         samplePair0 audioSendTrack)
       (by decide) (by decide) (by decide) (by decide)).1⟩

/-! ## The layers of a new flow and their deferred finalization -/

/-- The fingerprint loop changes nothing of the DTLS layer but its digests. -/
theorem installFingerprints_fields (env : Env) (fps : List SdpFingerprint) :
    ∀ (dtls d2 : TransportLayerDtls),
      installFingerprints env dtls fps = Except.ok d2 →
      d2.role = dtls.role ∧ d2.identity = dtls.identity ∧
      d2.srtp_ciphers = dtls.srtp_ciphers := by
  induction fps with
  | nil =>
    intro dtls d2 h
    simp only [installFingerprints, Except.ok.injEq] at h
    subst h
    exact ⟨rfl, rfl, rfl⟩
  | cons fp rest ih =>
    intro dtls d2 h
    simp only [installFingerprints] at h
    split at h
    · cases h
    · split at h
      · cases h
      · simpa using ih _ _ h

/-- A registry miss that does not fail, in full: the calls made, the one task
queued on the STS thread and what it carries.  The layers pushed into flows
are those of the state before. -/
theorem CreateOrGetTransportFlow_miss_ok (env : Env) (m : PeerConnectionMedia) (level : Nat)
    (rtcp : Bool) (transport : JsepTransport)
    (hmiss : m.GetTransportFlow level rtcp = none)
    (hok : NS_FAILED (CreateOrGetTransportFlow env m level rtcp transport).1 = false) :
    ∃ d : TransportLayerDtls,
      d.role = some (if transport.mDtls.role = JsepDtlsRole.kJsepDtlsClient
        then DtlsRole.CLIENT else DtlsRole.SERVER) ∧
      d.identity = env.identity ∧
      d.srtp_ciphers = [SRTP_AES128_CM_HMAC_SHA1_80, SRTP_AES128_CM_HMAC_SHA1_32] ∧
      (CreateOrGetTransportFlow env m level rtcp transport).2.2.calls =
        m.calls ++
          [Call.GetTransportFlow level rtcp,
           Call.NewTransportFlow { addr := m.nextAddr, id := flowId env.handle level rtcp },
           Call.NewTransportLayerIce env.handle,
           Call.NewTransportLayerDtls,
           Call.Dispatch
             { flow := { addr := m.nextAddr, id := flowId env.handle level rtcp },
               level := level, rtcp := rtcp,
               layers := [TransportLayer.ice { name := env.handle, params := none },
                          TransportLayer.dtls d] },
           Call.AddTransportFlow level rtcp
             { addr := m.nextAddr, id := flowId env.handle level rtcp }] ∧
      (CreateOrGetTransportFlow env m level rtcp transport).2.2.stsQueue =
        m.stsQueue ++
          [{ flow := { addr := m.nextAddr, id := flowId env.handle level rtcp },
             level := level, rtcp := rtcp,
             layers := [TransportLayer.ice { name := env.handle, params := none },
                        TransportLayer.dtls d] }] ∧
      (CreateOrGetTransportFlow env m level rtcp transport).2.2.flowLayers = m.flowLayers := by
  unfold CreateOrGetTransportFlow at hok ⊢
  simp only [record_GetTransportFlow, hmiss] at hok ⊢
  cases hid : env.identity with
  | none =>
    simp only [hid] at hok
    exact absurd hok (by simp [NS_FAILED_NS_ERROR_FAILURE])
  | some pcid =>
    simp only [hid] at hok ⊢
    cases hfp : installFingerprints env
        { role := some (if transport.mDtls.role = JsepDtlsRole.kJsepDtlsClient
            then DtlsRole.CLIENT else DtlsRole.SERVER),
          identity := some pcid, digests := [], srtp_ciphers := [] }
        transport.mDtls.fingerprints with
    | error rv =>
      simp only [hfp] at hok
      have := installFingerprints_error env _ _ _ hfp
      rw [this] at hok
      cases hok
    | ok d =>
      obtain ⟨hrole, hident, _⟩ := installFingerprints_fields env _ _ _ hfp
      simp only [hfp] at hok ⊢
      split at hok
      · next hs => rw [hs] at hok; cases hok
      · next hs1 =>
        rw [if_neg hs1]
        split at hok
        · next hs => rw [hs] at hok; cases hok
        · next hs2 =>
          rw [if_neg hs2]
          refine ⟨{ d with srtp_ciphers :=
            [SRTP_AES128_CM_HMAC_SHA1_80, SRTP_AES128_CM_HMAC_SHA1_32] }, hrole, hident, rfl,
            ?_, ?_, ?_⟩
          · simp
          · simp
          · rfl

/-- On a registry miss every task the call hands to the STS thread, whether
the dispatch succeeds or not, is for the new flow and carries the layer queue
[ICE layer without parameters, DTLS layer], the DTLS layer with the role
derived from the negotiated one. -/
theorem CreateOrGetTransportFlow_dispatched (env : Env) (m : PeerConnectionMedia)
    (level : Nat) (rtcp : Bool) (transport : JsepTransport)
    (hmiss : m.GetTransportFlow level rtcp = none) :
    ∃ new, (CreateOrGetTransportFlow env m level rtcp transport).2.2.calls = m.calls ++ new ∧
      ∀ task, Call.Dispatch task ∈ new →
        task.flow = { addr := m.nextAddr, id := flowId env.handle level rtcp } ∧
        task.level = level ∧ task.rtcp = rtcp ∧
        ∃ d : TransportLayerDtls,
          task.layers = [TransportLayer.ice { name := env.handle, params := none },
                         TransportLayer.dtls d] ∧
          d.role = some (if transport.mDtls.role = JsepDtlsRole.kJsepDtlsClient
            then DtlsRole.CLIENT else DtlsRole.SERVER) := by
  unfold CreateOrGetTransportFlow
  simp only [record_GetTransportFlow, hmiss]
  cases hid : env.identity with
  | none => exact ⟨_, by simp only [record_calls, alloc_calls, List.append_assoc]; rfl, by simp⟩
  | some pcid =>
    dsimp only
    cases hfp : installFingerprints env
        { role := some (if transport.mDtls.role = JsepDtlsRole.kJsepDtlsClient
            then DtlsRole.CLIENT else DtlsRole.SERVER),
          identity := some pcid, digests := [], srtp_ciphers := [] }
        transport.mDtls.fingerprints with
    | error rv =>
      exact ⟨_, by simp only [record_calls, alloc_calls, List.append_assoc]; rfl, by simp⟩
    | ok d =>
      obtain ⟨hrole, _, _⟩ := installFingerprints_fields env _ _ _ hfp
      dsimp only
      split
      · exact ⟨_, by simp only [record_calls, alloc_calls, List.append_assoc]; rfl, by simp⟩
      · split
        · refine ⟨_, by simp only [record_calls, alloc_calls, List.append_assoc]; rfl, ?_⟩
          intro task htask
          simp only [List.mem_cons, List.mem_singleton, List.mem_append, Call.Dispatch.injEq,
            List.not_mem_nil, or_false, false_or, reduceCtorEq] at htask
          subst htask
          exact ⟨rfl, rfl, rfl, _, rfl, hrole⟩
        · refine ⟨_, by simp only [record_calls, alloc_calls, AddTransportFlow_calls,
            List.append_assoc]; rfl, ?_⟩
          intro task htask
          simp only [List.mem_cons, List.mem_singleton, List.mem_append, Call.Dispatch.injEq,
            List.not_mem_nil, or_false, false_or, reduceCtorEq] at htask
          subst htask
          exact ⟨rfl, rfl, rfl, _, rfl, hrole⟩

/-- C18. On a registry miss, for every transport association: every task the
call dispatches carries the layer queue [ICE layer, DTLS layer] in which the
DTLS layer has the CLIENT role if and only if the negotiated DTLS role is
`kJsepDtlsClient`, and the SERVER role for every other negotiated role; when
the call does not fail, such a task was dispatched and is the one queued for
the newly created flow. -/
theorem CreateOrGetTransportFlow_dtls_role (env : Env) (m : PeerConnectionMedia)
    (level : Nat) (rtcp : Bool) (transport : JsepTransport)
    (hmiss : m.GetTransportFlow level rtcp = none) :
    ∃ new, (CreateOrGetTransportFlow env m level rtcp transport).2.2.calls = m.calls ++ new ∧
      (∀ task, Call.Dispatch task ∈ new →
        ∃ (ice : TransportLayerIce) (d : TransportLayerDtls),
          task.layers = [TransportLayer.ice ice, TransportLayer.dtls d] ∧
          (d.role = some DtlsRole.CLIENT ↔
            transport.mDtls.role = JsepDtlsRole.kJsepDtlsClient) ∧
          (transport.mDtls.role ≠ JsepDtlsRole.kJsepDtlsClient →
            d.role = some DtlsRole.SERVER)) ∧
      (NS_FAILED (CreateOrGetTransportFlow env m level rtcp transport).1 = false →
        ∃ task, Call.Dispatch task ∈ new ∧
          task.flow = { addr := m.nextAddr, id := flowId env.handle level rtcp } ∧
          (CreateOrGetTransportFlow env m level rtcp transport).2.1 = some task.flow ∧
          (CreateOrGetTransportFlow env m level rtcp transport).2.2.stsQueue =
            m.stsQueue ++ [task]) := by
  obtain ⟨new, hcalls, htasks⟩ :=
    CreateOrGetTransportFlow_dispatched env m level rtcp transport hmiss
  refine ⟨new, hcalls, ?_, ?_⟩
  · intro task htask
    obtain ⟨_, _, _, d, hl, hrole⟩ := htasks task htask
    refine ⟨_, d, hl, ?_, ?_⟩
    · rw [hrole]
      by_cases hc : transport.mDtls.role = JsepDtlsRole.kJsepDtlsClient <;> simp [hc]
    · intro hc
      rw [hrole, if_neg hc]
  · intro hok
    obtain ⟨d, _, _, _, hc2, hq, _⟩ :=
      CreateOrGetTransportFlow_miss_ok env m level rtcp transport hmiss hok
    have hnew := List.append_cancel_left (hcalls.symm.trans hc2)
    obtain ⟨flow, _, hout, hreg⟩ :=
      CreateOrGetTransportFlow_success env m level rtcp transport hok
    have hflow := (CreateOrGetTransportFlow_created env m level rtcp transport hmiss hok).1
    refine ⟨_, by rw [hnew]; simp, rfl, ?_, hq⟩
    rw [hout]
    simp only [PeerConnectionMedia.GetTransportFlow, hflow] at hreg
    simpa [List.lookup] using hreg.symm

theorem CreateOrGetTransportFlow_dtls_role_witness :
    emptyMedia.GetTransportFlow 0 false = none ∧
    ∃ (task : FinalizeTask) (ice : TransportLayerIce) (d : TransportLayerDtls),
      (CreateOrGetTransportFlow okEnv emptyMedia 0 false sampleTransport).2.2.stsQueue =
        emptyMedia.stsQueue ++ [task] ∧
      task.layers = [TransportLayer.ice ice, TransportLayer.dtls d] ∧
      d.role = some DtlsRole.CLIENT := by
  obtain ⟨new, _, hall, hok⟩ :=
    CreateOrGetTransportFlow_dtls_role okEnv emptyMedia 0 false sampleTransport rfl
  obtain ⟨task, hmem, _, _, hq⟩ := hok (by decide)
  obtain ⟨ice, d, hl, hiff, _⟩ := hall task hmem
  exact ⟨rfl, task, ice, d, hq, hl, hiff.mpr rfl⟩

/-- C19. A registry miss that does not fail.  The new flow is returned and
registered under (level, rtcp); among the calls made there is exactly one
`Dispatch`, and its task, the one queued on the STS thread, carries the layer
queue [ICE layer, DTLS layer] in that order.  The call leaves the ICE layer
without parameters and pushes no layers into any flow.  Run on that task,
`FinalizeTransportFlow` finds the ICE layer at the front of the queue, sets its
parameters to (ice_ctx, ice_media_stream(level), 2 for RTCP and 1 for RTP) and
pushes the two layers into the flow. -/
theorem CreateOrGetTransportFlow_deferred_finalization (env : Env) (m : PeerConnectionMedia)
    (level : Nat) (rtcp : Bool) (transport : JsepTransport)
    (hmiss : m.GetTransportFlow level rtcp = none)
    (hok : NS_FAILED (CreateOrGetTransportFlow env m level rtcp transport).1 = false) :
    ∃ (task : FinalizeTask) (ice : TransportLayerIce) (d : TransportLayerDtls),
      task.flow = { addr := m.nextAddr, id := flowId env.handle level rtcp } ∧
      task.level = level ∧ task.rtcp = rtcp ∧
      task.layers = [TransportLayer.ice ice, TransportLayer.dtls d] ∧
      ice.params = none ∧
      (CreateOrGetTransportFlow env m level rtcp transport).2.1 = some task.flow ∧
      (CreateOrGetTransportFlow env m level rtcp transport).2.2.GetTransportFlow level rtcp =
        some task.flow ∧
      (CreateOrGetTransportFlow env m level rtcp transport).2.2.calls =
        m.calls ++
          [Call.GetTransportFlow level rtcp, Call.NewTransportFlow task.flow,
           Call.NewTransportLayerIce env.handle, Call.NewTransportLayerDtls,
           Call.Dispatch task, Call.AddTransportFlow level rtcp task.flow] ∧
      (CreateOrGetTransportFlow env m level rtcp transport).2.2.stsQueue =
        m.stsQueue ++ [task] ∧
      (CreateOrGetTransportFlow env m level rtcp transport).2.2.flowLayers = m.flowLayers ∧
      ∀ M : PeerConnectionMedia,
        FinalizeTransportFlow env M task =
          some { M with
            flowLayers :=
              (task.flow.addr,
                [TransportLayer.ice
                   { ice with params := some (env.ice_ctx, env.ice_media_stream level,
                       if rtcp then 2 else 1) },
                 TransportLayer.dtls d]) :: M.flowLayers } := by
  obtain ⟨d, _, _, _, hc2, hq, hfl⟩ :=
    CreateOrGetTransportFlow_miss_ok env m level rtcp transport hmiss hok
  obtain ⟨flow, _, hout, hreg⟩ :=
    CreateOrGetTransportFlow_success env m level rtcp transport hok
  have hflow := (CreateOrGetTransportFlow_created env m level rtcp transport hmiss hok).1
  have hfloweq : flow = { addr := m.nextAddr, id := flowId env.handle level rtcp } := by
    simp only [PeerConnectionMedia.GetTransportFlow, hflow] at hreg
    simpa [List.lookup] using hreg.symm
  subst hfloweq
  exact ⟨_, _, d, rfl, rfl, rfl, rfl, rfl, hout, hreg, hc2, hq, hfl, fun M => rfl⟩

theorem CreateOrGetTransportFlow_deferred_finalization_witness :
    emptyMedia.GetTransportFlow 1 true = none ∧
    NS_FAILED (CreateOrGetTransportFlow okEnv emptyMedia 1 true sampleTransport).1 = false ∧
    ∃ (task : FinalizeTask) (ice : TransportLayerIce) (d : TransportLayerDtls),
      task.layers = [TransportLayer.ice ice, TransportLayer.dtls d] ∧
      (CreateOrGetTransportFlow okEnv emptyMedia 1 true sampleTransport).2.2.stsQueue =
        emptyMedia.stsQueue ++ [task] ∧
      (CreateOrGetTransportFlow okEnv emptyMedia 1 true sampleTransport).2.2.flowLayers =
        emptyMedia.flowLayers := by
  obtain ⟨task, ice, d, _, _, _, hl, _, _, _, _, hq, hfl, _⟩ :=
    CreateOrGetTransportFlow_deferred_finalization okEnv emptyMedia 1 true sampleTransport rfl
      (by decide)
  exact ⟨rfl, by decide, task, ice, d, hl, hq, hfl⟩

/-! ## The key a pipeline is stored under -/

/-- The slot passed to `StorePipeline`, `pc_track_id - 1`, is the level. -/
theorem slot_eq_level (L : Nat) (h : L < SIZE_T_MOD) :
    ((L + 1) % SIZE_T_MOD + SIZE_T_MOD - 1) % SIZE_T_MOD = L := by
  have hpos : 0 < SIZE_T_MOD := by omega
  by_cases h1 : L + 1 < SIZE_T_MOD
  · rw [Nat.mod_eq_of_lt h1]
    have : L + 1 + SIZE_T_MOD - 1 = L + SIZE_T_MOD := by omega
    rw [this, Nat.add_mod_right, Nat.mod_eq_of_lt h]
  · have h2 : L + 1 = SIZE_T_MOD := by omega
    rw [h2, Nat.mod_self, Nat.zero_add]
    rw [Nat.mod_eq_of_lt (by omega)]
    omega

/-- C11 (counterexample).  Sending at level 0 and receiving at level 1, both
runs return `NS_OK`.  The pipelines are constructed with the track ids 1 and 2,
but `StorePipeline` is called with the keys 0 and 1: the bucket holds the
pipelines under 0 and 1 and nothing under the track ids 1 and 2. -/
theorem CreateMediaPipeline_not_stored_under_track_id :
    (CreateMediaPipeline okEnv emptyMedia samplePair0 audioSendTrack).result = some NS_OK ∧
    sampleTransmitPipeline.track_id = 1 ∧
    (CreateMediaPipeline okEnv emptyMedia samplePair0 audioSendTrack).media.mLocalSourceStreams =
      [{ mediaStream := 100, mPipelines := [(0, sampleTransmitPipeline)] }] ∧
    (CreateMediaPipeline okEnv emptyMedia samplePair0 audioSendTrack).media.calls.getLast? =
      some (Call.StorePipeline false 0 sampleTransmitPipeline) ∧
    (CreateMediaPipeline okEnv emptyMedia samplePair1 videoRecvTrack).result = some NS_OK ∧
    sampleReceivePipeline.track_id = 2 ∧
    (CreateMediaPipeline okEnv emptyMedia samplePair1 videoRecvTrack).media.calls.getLast? =
      some (Call.StorePipeline true 1 sampleReceivePipeline) ∧
    (CreateMediaPipeline okEnv emptyMedia samplePair1 videoRecvTrack).media.mRemoteSourceStreams =
      [{ mediaStream := 200, mPipelines := [(1, sampleReceivePipeline)] }] := by
  decide

/-- C11 (amended).  A run of `CreateMediaPipeline` for a track pair at level
`L` that returns `NS_OK` ends with its only `StorePipeline` call: one pipeline,
constructed with the track id `L + 1`, is stored in stream bucket 0 (the remote
one for a receiving track, the local one otherwise) under the key `L`, the
track id minus one; nothing else in the buckets changes. -/
theorem CreateMediaPipeline_stored_under_level (env : Env) (m : PeerConnectionMedia)
    (trackPair : JsepTrackPair) (track : JsepTrack)
    (hL : trackPair.mLevel + 1 < SIZE_T_MOD)
    (hok : (CreateMediaPipeline env m trackPair track).result = some NS_OK) :
    ∃ (p : MediaPipeline) (pre : List Call),
      p.track_id = trackPair.mLevel + 1 ∧ p.level = trackPair.mLevel ∧
      (CreateMediaPipeline env m trackPair track).media.calls =
        m.calls ++ pre ++
          [Call.StorePipeline (decide (track.direction = Direction.kJsepTrackReceiving))
            trackPair.mLevel p] ∧
      Call.NewPipeline p ∈ pre ∧
      (∀ (r : Bool) (k : Nat) (q : MediaPipeline), Call.StorePipeline r k q ∉ pre) ∧
      StoredIn m (CreateMediaPipeline env m trackPair track).media
        (decide (track.direction = Direction.kJsepTrackReceiving)) trackPair.mLevel p := by
  obtain ⟨hflows, c, hc, hcok, _⟩ := CreateMediaPipeline_ok env m trackPair track hok
  obtain ⟨heq, ⟨hloc, hrem⟩, A, hA, hAp⟩ :=
    CreateMediaPipeline_stage_reached env m trackPair track c hflows hc hcok
  have hslot : ((trackPair.mLevel + 1) % SIZE_T_MOD + SIZE_T_MOD - 1) % SIZE_T_MOD =
      trackPair.mLevel := slot_eq_level _ (by omega)
  have hAstore : ∀ (r : Bool) (k : Nat) (q : MediaPipeline), Call.StorePipeline r k q ∉ A := by
    intro r k q hmem
    have := hAp _ hmem
    simp [Call.phase] at this
  have key : ∀ (out : Outcome) (remote : Bool) (conduit : Option MediaSessionConduit)
      (rtp rtcp : Option TransportFlow),
      PipelineStage env c.2.2 out remote trackPair.mLevel conduit rtp rtcp →
      out.result = some NS_OK →
      ∃ (p : MediaPipeline) (pre : List Call),
        p.track_id = trackPair.mLevel + 1 ∧ p.level = trackPair.mLevel ∧
        out.media.calls = m.calls ++ pre ++ [Call.StorePipeline remote trackPair.mLevel p] ∧
        Call.NewPipeline p ∈ pre ∧
        (∀ (r : Bool) (k : Nat) (q : MediaPipeline), Call.StorePipeline r k q ∉ pre) ∧
        StoredIn m out.media remote trackPair.mLevel p := by
    intro out remote conduit rtp rtcp hstage hres
    obtain ⟨_, _, _, g, hg, h1 | ⟨p, U, hpf, hU, _, h2 | h2 | h2⟩⟩ := hstage
    · obtain ⟨_, hr | hr, _⟩ := h1
      · rw [hres] at hr; cases hr
      · rw [hres] at hr
        exact absurd hr (by decide)
    · rw [hres] at h2; cases h2.1
    · obtain ⟨hfail, hr, _⟩ := h2
      rw [hres] at hr
      simp only [Option.some.injEq] at hr
      rw [← hr, NS_FAILED_NS_OK] at hfail
      cases hfail
    · obtain ⟨_, _, hcalls, hstored⟩ := h2
      obtain ⟨_, hlev, htid, _⟩ := hpf
      have htid2 : p.track_id = trackPair.mLevel + 1 := by
        rw [htid, Nat.mod_eq_of_lt hL]
      have hs : (p.track_id + SIZE_T_MOD - 1) % SIZE_T_MOD = trackPair.mLevel := by
        rw [htid]; exact hslot
      rw [hs] at hcalls hstored
      refine ⟨p, A ++ g :: Call.NewPipeline p :: U ++ [Call.Init p.addr], htid2, hlev, ?_,
        by simp, ?_, ?_⟩
      · rw [hcalls, hA]; simp
      · intro r k q hmem
        have hmem2 : Call.StorePipeline r k q ∈ A ∨ Call.StorePipeline r k q = g ∨
            Call.StorePipeline r k q ∈ U := by
          simpa [or_assoc] using hmem
        rcases hmem2 with hmem2 | hmem2 | hmem2
        · exact hAstore r k q hmem2
        · rw [← hmem2] at hg
          simp [Call.phase] at hg
        · rcases hU with hU | ⟨principal, peer, hU⟩
          · rw [hU] at hmem2; cases hmem2
          · rw [hU] at hmem2
            simp at hmem2
      · obtain ⟨stream, hget, hr, hl⟩ := hstored
        simp only [hloc, hrem] at hget hr hl
        exact ⟨stream, hget, hr, hl⟩
  by_cases hd : track.direction = Direction.kJsepTrackReceiving
  · have hstage := CreateMediaPipelineReceiving_stage env c.2.2
      (resolveTransportFlows env m trackPair).2.1
      (resolveTransportFlows env m trackPair).2.2.1 none none trackPair track c.2.1
    rw [if_pos hd, hstage.forward] at heq
    rw [heq] at hok ⊢
    simpa [hd] using key _ _ _ _ _ hstage hok
  · have hstage := CreateMediaPipelineSending_stage env c.2.2
      (resolveTransportFlows env m trackPair).2.1
      (resolveTransportFlows env m trackPair).2.2.1 trackPair c.2.1
    rw [if_neg hd, hstage.forward] at heq
    rw [heq] at hok ⊢
    simpa [hd] using key _ _ _ _ _ hstage hok

theorem CreateMediaPipeline_stored_under_level_witness :
    samplePair1.mLevel + 1 < SIZE_T_MOD ∧
    (CreateMediaPipeline okEnv emptyMedia samplePair1 videoRecvTrack).result = some NS_OK ∧
    ∃ (p : MediaPipeline) (pre : List Call), p.track_id = 2 ∧
      (CreateMediaPipeline okEnv emptyMedia samplePair1 videoRecvTrack).media.calls =
        emptyMedia.calls ++ pre ++ [Call.StorePipeline true 1 p] := by
  obtain ⟨p, pre, htid, _, hcalls, _⟩ :=
    CreateMediaPipeline_stored_under_level okEnv emptyMedia samplePair1 videoRecvTrack
      (by decide) (by decide)
  exact ⟨by decide, by decide, p, pre, htid, hcalls⟩

/-! ## The sink identity of a transmit pipeline -/

/-- The runs of `CreateMediaPipelineSending` in a build with
`MOZILLA_INTERNAL_API`, by their calls: the bucket lookup alone when there is
no local stream 0; lookup and construction, then termination, when no document
is attached; otherwise lookup, construction, `UpdateSinkIdentity_m` with the
document's principal and the peer identity, `Init`, and after an `Init` that
did not fail `StorePipeline`. -/
theorem CreateMediaPipelineSending_internal_api (env : Env) (m : PeerConnectionMedia)
    (rtp_flow rtcp_flow : Option TransportFlow) (trackPair : JsepTrackPair)
    (conduit : Option MediaSessionConduit) (hapi : env.MOZILLA_INTERNAL_API = true) :
    (m.mLocalSourceStreams.get? 0 = none ∧
      CreateMediaPipelineSending env m rtp_flow rtcp_flow trackPair conduit =
        Outcome.returned NS_ERROR_FAILURE (m.record (Call.GetLocalStream 0))) ∨
    ∃ p : MediaPipeline, p.addr = m.nextAddr ∧ p.kind = PipelineKind.Transmit ∧
      m.mLocalSourceStreams.get? 0 ≠ none ∧
      ((env.GetExtantDoc = none ∧
        (CreateMediaPipelineSending env m rtp_flow rtcp_flow trackPair conduit).result = none ∧
        (CreateMediaPipelineSending env m rtp_flow rtcp_flow trackPair conduit).media.calls =
          m.calls ++ [Call.GetLocalStream 0, Call.NewPipeline p]) ∨
       ∃ principal, env.GetExtantDoc = some principal ∧
        (((CreateMediaPipelineSending env m rtp_flow rtcp_flow trackPair conduit).result ≠
            some NS_OK ∧
          (CreateMediaPipelineSending env m rtp_flow rtcp_flow trackPair conduit).media.calls =
            m.calls ++ [Call.GetLocalStream 0, Call.NewPipeline p,
              Call.UpdateSinkIdentity_m p.addr principal env.GetPeerIdentity,
              Call.Init p.addr]) ∨
         ((CreateMediaPipelineSending env m rtp_flow rtcp_flow trackPair conduit).result =
            some NS_OK ∧
          (CreateMediaPipelineSending env m rtp_flow rtcp_flow trackPair conduit).media.calls =
            m.calls ++ [Call.GetLocalStream 0, Call.NewPipeline p,
              Call.UpdateSinkIdentity_m p.addr principal env.GetPeerIdentity,
              Call.Init p.addr,
              Call.StorePipeline false ((p.track_id + SIZE_T_MOD - 1) % SIZE_T_MOD) p]))) := by
  unfold CreateMediaPipelineSending
  dsimp only
  cases hstream : (m.record (Call.GetLocalStream 0)).mLocalSourceStreams.get? 0 with
  | none => exact Or.inl ⟨by simpa using hstream, rfl⟩
  | some stream =>
    have hne : m.mLocalSourceStreams.get? 0 ≠ none := by
      have h : m.mLocalSourceStreams.get? 0 = some stream := by simpa using hstream
      rw [h]; exact Option.some_ne_none _
    refine Or.inr ⟨(⟨m.nextAddr, PipelineKind.Transmit, (trackPair.mLevel + 1) % SIZE_T_MOD,
      trackPair.mLevel, conduit, rtp_flow, rtcp_flow, none, none, none⟩ : MediaPipeline),
      rfl, rfl, hne, ?_⟩
    simp only [hapi, if_true]
    cases hdoc : env.GetExtantDoc with
    | none => exact Or.inl ⟨rfl, rfl, by simp [Outcome.media]⟩
    | some principal =>
      refine Or.inr ⟨principal, rfl, ?_⟩
      dsimp only
      split
      · next hfail =>
        refine Or.inl ⟨?_, by simp [Outcome.media]⟩
        intro h
        simp only [Outcome.result, Option.some.injEq] at h
        rw [h, NS_FAILED_NS_OK] at hfail
        cases hfail
      · exact Or.inr ⟨rfl, by simp [Outcome.media]⟩

/-- C20. `CreateMediaPipelineSending` in a build with `MOZILLA_INTERNAL_API`.
Whenever the run calls `Init` on a pipeline, or `StorePipeline` with a
pipeline, a document is attached and `UpdateSinkIdentity_m` was called before,
in this run, on that pipeline with the document's principal and the peer
identity (and `Init` before `StorePipeline`).  When no document is attached the
run calls neither `Init` nor `StorePipeline`, and once the stream bucket is
found it constructs the pipeline and the process is terminated there. -/
theorem CreateMediaPipelineSending_identity_first (env : Env) (m : PeerConnectionMedia)
    (rtp_flow rtcp_flow : Option TransportFlow) (trackPair : JsepTrackPair)
    (conduit : Option MediaSessionConduit) (hapi : env.MOZILLA_INTERNAL_API = true) :
    ∃ new,
      (CreateMediaPipelineSending env m rtp_flow rtcp_flow trackPair conduit).media.calls =
        m.calls ++ new ∧
      (∀ (pre post : List Call) (a : Nat), new = pre ++ Call.Init a :: post →
        ∃ principal, env.GetExtantDoc = some principal ∧
          Call.UpdateSinkIdentity_m a principal env.GetPeerIdentity ∈ pre) ∧
      (∀ (pre post : List Call) (r : Bool) (k : Nat) (q : MediaPipeline),
        new = pre ++ Call.StorePipeline r k q :: post →
        ∃ principal, env.GetExtantDoc = some principal ∧
          Call.UpdateSinkIdentity_m q.addr principal env.GetPeerIdentity ∈ pre ∧
          Call.Init q.addr ∈ pre) ∧
      (env.GetExtantDoc = none →
        (∀ a, Call.Init a ∉ new) ∧
        (∀ (r : Bool) (k : Nat) (q : MediaPipeline), Call.StorePipeline r k q ∉ new) ∧
        (m.mLocalSourceStreams.get? 0 ≠ none →
          (CreateMediaPipelineSending env m rtp_flow rtcp_flow trackPair conduit).result =
            none ∧
          ∃ p : MediaPipeline, new = [Call.GetLocalStream 0, Call.NewPipeline p])) := by
  have hin : ∀ (L pre post : List Call) (c : Call), L = pre ++ c :: post → c ∈ L := by
    intro L pre post c h
    rw [h]
    simp
  rcases CreateMediaPipelineSending_internal_api env m rtp_flow rtcp_flow trackPair conduit hapi
    with ⟨hnone, hout⟩ | ⟨p, _, _, hsome, ⟨hdoc, hres, hcalls⟩ |
      ⟨principal, hdoc, ⟨_, hcalls⟩ | ⟨_, hcalls⟩⟩⟩
  · refine ⟨[Call.GetLocalStream 0], by rw [hout]; rfl, ?_, ?_, ?_⟩
    · intro pre post a h
      have := hin _ _ _ _ h
      simp at this
    · intro pre post r k q h
      have := hin _ _ _ _ h
      simp at this
    · intro _
      exact ⟨by simp, by simp, fun h => absurd hnone h⟩
  · refine ⟨_, hcalls, ?_, ?_, ?_⟩
    · intro pre post a h
      have := hin _ _ _ _ h
      simp at this
    · intro pre post r k q h
      have := hin _ _ _ _ h
      simp at this
    · intro _
      exact ⟨by simp, by simp, fun _ => ⟨hres, p, rfl⟩⟩
  · refine ⟨_, hcalls, ?_, ?_, ?_⟩
    · intro pre post a h
      obtain ⟨hpre, hx, _⟩ := split_unique (fun c => ∃ b, c = Call.Init b)
        [Call.GetLocalStream 0, Call.NewPipeline p,
          Call.UpdateSinkIdentity_m p.addr principal env.GetPeerIdentity] [] pre post
        (Call.Init p.addr) (Call.Init a) h (by simp) (by simp) ⟨a, rfl⟩
      simp only [Call.Init.injEq] at hx
      exact ⟨principal, hdoc, by rw [hpre, hx]; simp⟩
    · intro pre post r k q h
      have := hin _ _ _ _ h
      simp at this
    · intro hnodoc
      rw [hdoc] at hnodoc
      cases hnodoc
  · refine ⟨_, hcalls, ?_, ?_, ?_⟩
    · intro pre post a h
      obtain ⟨hpre, hx, _⟩ := split_unique (fun c => ∃ b, c = Call.Init b)
        [Call.GetLocalStream 0, Call.NewPipeline p,
          Call.UpdateSinkIdentity_m p.addr principal env.GetPeerIdentity]
        [Call.StorePipeline false ((p.track_id + SIZE_T_MOD - 1) % SIZE_T_MOD) p] pre post
        (Call.Init p.addr) (Call.Init a) h (by simp) (by simp) ⟨a, rfl⟩
      simp only [Call.Init.injEq] at hx
      exact ⟨principal, hdoc, by rw [hpre, hx]; simp⟩
    · intro pre post r k q h
      obtain ⟨hpre, hx, _⟩ := split_unique (fun c => ∃ r2 k2 q2, c = Call.StorePipeline r2 k2 q2)
        [Call.GetLocalStream 0, Call.NewPipeline p,
          Call.UpdateSinkIdentity_m p.addr principal env.GetPeerIdentity, Call.Init p.addr]
        [] pre post
        (Call.StorePipeline false ((p.track_id + SIZE_T_MOD - 1) % SIZE_T_MOD) p)
        (Call.StorePipeline r k q) h (by simp) (by simp) ⟨r, k, q, rfl⟩
      simp only [Call.StorePipeline.injEq] at hx
      obtain ⟨_, _, hq⟩ := hx
      exact ⟨principal, hdoc, by rw [hpre, hq]; simp, by rw [hpre, hq]; simp⟩
    · intro hnodoc
      rw [hdoc] at hnodoc
      cases hnodoc

theorem CreateMediaPipelineSending_identity_first_witness :
    internalApiEnv.MOZILLA_INTERNAL_API = true ∧
    (CreateMediaPipelineSending internalApiEnv emptyMedia none none samplePair0 none).result =
      some NS_OK ∧
    ∃ principal, internalApiEnv.GetExtantDoc = some principal ∧
      Call.UpdateSinkIdentity_m 0 principal internalApiEnv.GetPeerIdentity ∈
        [Call.GetLocalStream 0,
         Call.NewPipeline
           { addr := 0, kind := PipelineKind.Transmit, track_id := 1, level := 0,
             conduit := none, rtp_flow := none, rtcp_flow := none,
             bundle_rtp_flow := none, bundle_rtcp_flow := none, filter := none },
         Call.UpdateSinkIdentity_m 0 11 (some 12)] ∧
      (CreateMediaPipelineSending noDocEnv emptyMedia none none samplePair0 none).result =
        none := by
  obtain ⟨_, _, _, _, hnodoc⟩ :=
    CreateMediaPipelineSending_identity_first noDocEnv emptyMedia none none samplePair0
      none rfl
  obtain ⟨new, hcalls, hinit, _, _⟩ :=
    CreateMediaPipelineSending_identity_first internalApiEnv emptyMedia none none samplePair0
      none rfl
  have hnew : new =
      [Call.GetLocalStream 0,
       Call.NewPipeline
         { addr := 0, kind := PipelineKind.Transmit, track_id := 1, level := 0,
           conduit := none, rtp_flow := none, rtcp_flow := none,
           bundle_rtp_flow := none, bundle_rtcp_flow := none, filter := none },
       Call.UpdateSinkIdentity_m 0 11 (some 12)] ++
      Call.Init 0 ::
        [Call.StorePipeline false 0
          { addr := 0, kind := PipelineKind.Transmit, track_id := 1, level := 0,
            conduit := none, rtp_flow := none, rtcp_flow := none,
            bundle_rtp_flow := none, bundle_rtcp_flow := none, filter := none }] := by
    have h : (CreateMediaPipelineSending internalApiEnv emptyMedia none none samplePair0
        none).media.calls = emptyMedia.calls ++
      ([Call.GetLocalStream 0,
        Call.NewPipeline
          { addr := 0, kind := PipelineKind.Transmit, track_id := 1, level := 0,
            conduit := none, rtp_flow := none, rtcp_flow := none,
            bundle_rtp_flow := none, bundle_rtcp_flow := none, filter := none },
        Call.UpdateSinkIdentity_m 0 11 (some 12)] ++
       Call.Init 0 ::
        [Call.StorePipeline false 0
          { addr := 0, kind := PipelineKind.Transmit, track_id := 1, level := 0,
            conduit := none, rtp_flow := none, rtcp_flow := none,
            bundle_rtp_flow := none, bundle_rtcp_flow := none, filter := none }]) := by
      decide
    exact List.append_cancel_left (hcalls.symm.trans h)
  obtain ⟨principal, hdoc, hmem⟩ := hinit _ _ 0 hnew
  exact ⟨rfl, by decide, principal, hdoc, hmem, ((hnodoc rfl).2.2 (by decide)).1⟩

/-! ## Conduits left registered by a failed creation -/

/-- The configuration half of `CreateAudioConduit` hands the conduit back
exactly when it returns `NS_OK`; otherwise nothing is stored through
`conduitp`. -/
theorem configureAudioConduit_result (env : Env) (m : PeerConnectionMedia)
    (conduit : MediaSessionConduit) (track : JsepTrack) (receiving : Bool) :
    ((configureAudioConduit env m conduit track receiving).1 = NS_OK ∧
      (configureAudioConduit env m conduit track receiving).2.1 = some conduit) ∨
    (configureAudioConduit env m conduit track receiving).2.1 = none := by
  unfold configureAudioConduit
  dsimp only
  split
  · exact Or.inr rfl
  · split
    · split
      · exact Or.inr rfl
      · split
        · exact Or.inr rfl
        · exact Or.inl ⟨rfl, rfl⟩
    · split
      · exact Or.inr rfl
      · split
        · exact Or.inr rfl
        · split
          · exact Or.inr rfl
          · exact Or.inl ⟨rfl, rfl⟩

/-- The configuration half of `CreateVideoConduit` hands the conduit back
exactly when it returns `NS_OK`. -/
theorem configureVideoConduit_result (env : Env) (m : PeerConnectionMedia)
    (conduit : MediaSessionConduit) (track : JsepTrack) (receiving : Bool) :
    ((configureVideoConduit env m conduit track receiving).1 = NS_OK ∧
      (configureVideoConduit env m conduit track receiving).2.1 = some conduit) ∨
    (configureVideoConduit env m conduit track receiving).2.1 = none := by
  unfold configureVideoConduit
  dsimp only
  split
  · exact Or.inr rfl
  · split
    · split
      · exact Or.inr rfl
      · split
        · exact Or.inr rfl
        · exact Or.inl ⟨rfl, rfl⟩
    · split
      · exact Or.inr rfl
      · split
        · exact Or.inr rfl
        · split
          · exact Or.inr rfl
          · split
            · exact Or.inr rfl
            · exact Or.inl ⟨rfl, rfl⟩

/-- C25. Conduit creation is not atomic on codec errors.  In a run of
`CreateAudioConduit` or `CreateVideoConduit` in which the conduit object was
created, whatever makes the call fail afterwards (an empty codec list, a codec
that fails translation, an error of the external-codec step or of the
configuration call), no conduit is handed back to the caller and the conduit
registry nevertheless holds the new conduit under (level, receiving). -/
theorem CreateConduit_registered_on_failure (env : Env) (m : PeerConnectionMedia)
    (trackPair : JsepTrackPair) (track : JsepTrack) :
    (env.AudioSessionConduitCreate
        (m.calls ++ [Call.GetConduit trackPair.mLevel
          (decide (track.direction = Direction.kJsepTrackReceiving))])
        (m.GetConduit trackPair.mLevel
          (decide (track.direction = Direction.kJsepTrackReceiving))) = true →
      NS_FAILED (CreateAudioConduit env m trackPair track).1 = true →
      (CreateAudioConduit env m trackPair track).2.1 = none ∧
      (CreateAudioConduit env m trackPair track).2.2.GetConduit trackPair.mLevel
          (decide (track.direction = Direction.kJsepTrackReceiving)) =
        some { addr := m.nextAddr, type := ConduitType.AUDIO,
               other := (m.GetConduit trackPair.mLevel
                 (decide (track.direction = Direction.kJsepTrackReceiving))).map (·.addr) }) ∧
    (env.VideoSessionConduitCreate (m.calls ++ [Call.GetConduit trackPair.mLevel true])
        (m.GetConduit trackPair.mLevel true) = true →
      NS_FAILED (CreateVideoConduit env m trackPair track).1 = true →
      (CreateVideoConduit env m trackPair track).2.1 = none ∧
      (CreateVideoConduit env m trackPair track).2.2.GetConduit trackPair.mLevel
          (decide (track.direction = Direction.kJsepTrackReceiving)) =
        some { addr := m.nextAddr, type := ConduitType.VIDEO,
               other := (m.GetConduit trackPair.mLevel true).map (·.addr) }) := by
  refine ⟨fun hcreate hfail => ?_, fun hcreate hfail => ?_⟩
  · rcases CreateAudioConduit_cases env m trackPair track with
      ⟨_, hcr⟩ | ⟨M, hc, _, hcond, _⟩
    · rw [hcreate] at hcr; cases hcr
    · rw [hc] at hfail ⊢
      obtain ⟨new, hnew, _⟩ := configureAudioConduit_step env M
        { addr := m.nextAddr, type := ConduitType.AUDIO,
          other := (m.GetConduit trackPair.mLevel
            (decide (track.direction = Direction.kJsepTrackReceiving))).map (·.addr) }
        track (decide (track.direction = Direction.kJsepTrackReceiving))
      refine ⟨?_, ?_⟩
      · rcases configureAudioConduit_result env M
          { addr := m.nextAddr, type := ConduitType.AUDIO,
            other := (m.GetConduit trackPair.mLevel
              (decide (track.direction = Direction.kJsepTrackReceiving))).map (·.addr) }
          track (decide (track.direction = Direction.kJsepTrackReceiving)) with ⟨hok, _⟩ | hn
        · rw [hok, NS_FAILED_NS_OK] at hfail; cases hfail
        · exact hn
      · rw [hnew]
        simp only [PeerConnectionMedia.GetConduit, hcond]
        rw [lookup_insert, if_pos rfl]
  · rcases CreateVideoConduit_cases env m trackPair track with
      ⟨_, hcr⟩ | ⟨M, hc, _, hcond, _⟩
    · rw [hcreate] at hcr; cases hcr
    · rw [hc] at hfail ⊢
      obtain ⟨new, hnew, _⟩ := configureVideoConduit_step env M
        { addr := m.nextAddr, type := ConduitType.VIDEO,
          other := (m.GetConduit trackPair.mLevel true).map (·.addr) }
        track (decide (track.direction = Direction.kJsepTrackReceiving))
      refine ⟨?_, ?_⟩
      · rcases configureVideoConduit_result env M
          { addr := m.nextAddr, type := ConduitType.VIDEO,
            other := (m.GetConduit trackPair.mLevel true).map (·.addr) }
          track (decide (track.direction = Direction.kJsepTrackReceiving)) with ⟨hok, _⟩ | hn
        · rw [hok, NS_FAILED_NS_OK] at hfail; cases hfail
        · exact hn
      · rw [hnew]
        simp only [PeerConnectionMedia.GetConduit, hcond]
        rw [lookup_insert, if_pos rfl]

theorem CreateConduit_registered_on_failure_witness :
    NS_FAILED (CreateAudioConduit okEnv emptyMedia samplePair0
      { audioSendTrack with codecs := [] }).1 = true ∧
    (CreateAudioConduit okEnv emptyMedia samplePair0
      { audioSendTrack with codecs := [] }).2.1 = none ∧
    (CreateAudioConduit okEnv emptyMedia samplePair0
      { audioSendTrack with codecs := [] }).2.2.GetConduit 0 false =
        some { addr := 0, type := ConduitType.AUDIO, other := none } :=
  ⟨by decide,
   (CreateConduit_registered_on_failure okEnv emptyMedia samplePair0
     { audioSendTrack with codecs := [] }).1 (by decide) (by decide)⟩

/-! ## The ways a run of `CreateMediaPipeline` can go -/

/-- An error of `get_codec` is a failure code. -/
theorem get_codec_error (track : JsepTrack) (i : Nat) (rv : nsresult)
    (h : track.get_codec i = Except.error rv) : NS_FAILED rv = true := by
  unfold JsepTrack.get_codec at h
  split at h
  · cases h
  · cases h; exact NS_FAILED_NS_ERROR_INVALID_ARG

/-- An error of the audio translation is a failure code. -/
theorem JsepCodecDescToCodecConfigAudio_error (d : JsepCodecDescription) (rv : nsresult)
    (h : JsepCodecDescToCodecConfigAudio d = Except.error rv) : NS_FAILED rv = true := by
  unfold JsepCodecDescToCodecConfigAudio at h
  split at h
  · cases h; exact NS_FAILED_NS_ERROR_INVALID_ARG
  · cases h

/-- An error of the video translation is a failure code. -/
theorem JsepCodecDescToCodecConfigVideo_error (d : JsepCodecDescription) (rv : nsresult)
    (h : JsepCodecDescToCodecConfigVideo d = Except.error rv) : NS_FAILED rv = true := by
  unfold JsepCodecDescToCodecConfigVideo at h
  split at h
  · cases h; exact NS_FAILED_NS_ERROR_INVALID_ARG
  · cases h

/-- An early return of the audio receive loop carries a failure code. -/
theorem audioRecvConfigs_error (track : JsepTrack) (is : List Nat) :
    ∀ (configs : List AudioCodecConfig) (rv : nsresult),
      audioRecvConfigs track is configs = Except.error rv → NS_FAILED rv = true := by
  induction is with
  | nil => intro configs rv h; simp [audioRecvConfigs] at h
  | cons i rest ih =>
    intro configs rv h
    simp only [audioRecvConfigs] at h
    split at h
    · next hg => cases h; exact get_codec_error track i _ hg
    · split at h
      · next ht => cases h; exact JsepCodecDescToCodecConfigAudio_error _ _ ht
      · exact ih _ _ h

/-- An early return of the video receive loop carries a failure code. -/
theorem videoRecvConfigs_error (env : Env) (conduit : MediaSessionConduit) (track : JsepTrack)
    (is : List Nat) :
    ∀ (m : PeerConnectionMedia) (configs : List VideoCodecConfig)
      (e : nsresult × PeerConnectionMedia),
      videoRecvConfigs env conduit track is m configs = Except.error e →
      NS_FAILED e.1 = true := by
  induction is with
  | nil => intro m configs e h; simp [videoRecvConfigs] at h
  | cons i rest ih =>
    intro m configs e h
    simp only [videoRecvConfigs] at h
    split at h
    · next hg => cases h; exact get_codec_error track i _ hg
    · split at h
      · next ht => cases h; exact JsepCodecDescToCodecConfigVideo_error _ _ ht
      · split at h
        · exact ih _ _ _ h
        · exact ih _ _ _ h

/-- When the configuration half of `CreateAudioConduit` hands no conduit back,
it returns a failure code. -/
theorem configureAudioConduit_none_failed (env : Env) (m : PeerConnectionMedia)
    (conduit : MediaSessionConduit) (track : JsepTrack) (receiving : Bool)
    (h : (configureAudioConduit env m conduit track receiving).2.1 = none) :
    NS_FAILED (configureAudioConduit env m conduit track receiving).1 = true := by
  unfold configureAudioConduit at h ⊢
  dsimp only at h ⊢
  split
  · exact NS_FAILED_NS_ERROR_FAILURE
  · split
    · split
      · next hrun => exact audioRecvConfigs_error _ _ _ _ hrun
      · split
        · exact NS_FAILED_NS_ERROR_FAILURE
        · simp_all
    · split
      · next hg => exact get_codec_error _ _ _ hg
      · split
        · next ht => exact JsepCodecDescToCodecConfigAudio_error _ _ ht
        · split
          · exact NS_FAILED_NS_ERROR_FAILURE
          · simp_all

/-- When the configuration half of `CreateVideoConduit` hands no conduit back,
it returns a failure code. -/
theorem configureVideoConduit_none_failed (env : Env) (m : PeerConnectionMedia)
    (conduit : MediaSessionConduit) (track : JsepTrack) (receiving : Bool)
    (h : (configureVideoConduit env m conduit track receiving).2.1 = none) :
    NS_FAILED (configureVideoConduit env m conduit track receiving).1 = true := by
  unfold configureVideoConduit at h ⊢
  dsimp only at h ⊢
  split
  · exact NS_FAILED_NS_ERROR_FAILURE
  · split
    · split
      · next hrun => exact videoRecvConfigs_error _ _ _ _ _ _ _ hrun
      · split
        · exact NS_FAILED_NS_ERROR_FAILURE
        · simp_all
    · split
      · next hg => exact get_codec_error _ _ _ hg
      · split
        · next ht => exact JsepCodecDescToCodecConfigVideo_error _ _ ht
        · split
          · exact NS_FAILED_NS_ERROR_FAILURE
          · split
            · exact NS_FAILED_NS_ERROR_FAILURE
            · simp_all

/-- A conduit stage that does not fail hands back the conduit it created, of
the type of the track's media type. -/
theorem createConduit_ok (env : Env) (m : PeerConnectionMedia) (trackPair : JsepTrackPair)
    (track : JsepTrack) (c : nsresult × Option MediaSessionConduit × PeerConnectionMedia)
    (hc : createConduit env m trackPair track = some c) (hok : NS_FAILED c.1 = false) :
    ∃ cd : MediaSessionConduit, c.2.1 = some cd ∧ cd.addr = m.nextAddr ∧
      ((track.media_type = MediaType.kAudio ∧ cd.type = ConduitType.AUDIO) ∨
       (track.media_type = MediaType.kVideo ∧ cd.type = ConduitType.VIDEO)) := by
  unfold createConduit at hc
  split at hc
  · next ha =>
    cases hc
    rcases CreateAudioConduit_cases env m trackPair track with ⟨heq, _⟩ | ⟨M, heq, _⟩
    · rw [heq, NS_FAILED_NS_ERROR_FAILURE] at hok; cases hok
    · rw [heq] at hok ⊢
      rcases configureAudioConduit_result env M _ track _ with ⟨_, hs⟩ | hn
      · exact ⟨_, hs, rfl, Or.inl ⟨ha, rfl⟩⟩
      · rw [configureAudioConduit_none_failed env M _ track _ hn] at hok; cases hok
  · split at hc
    · next hv =>
      cases hc
      rcases CreateVideoConduit_cases env m trackPair track with ⟨heq, _⟩ | ⟨M, heq, _⟩
      · rw [heq, NS_FAILED_NS_ERROR_FAILURE] at hok; cases hok
      · rw [heq] at hok ⊢
        rcases configureVideoConduit_result env M _ track _ with ⟨_, hs⟩ | hn
        · exact ⟨_, hs, rfl, Or.inr ⟨hv, rfl⟩⟩
        · rw [configureVideoConduit_none_failed env M _ track _ hn] at hok; cases hok
    · cases hc

/-- The conduit stage ends in `MOZ_CRASH()` exactly for a media type that is
neither audio nor video. -/
theorem createConduit_none (env : Env) (m : PeerConnectionMedia) (trackPair : JsepTrackPair)
    (track : JsepTrack) :
    createConduit env m trackPair track = none ↔
      track.media_type ≠ MediaType.kAudio ∧ track.media_type ≠ MediaType.kVideo := by
  unfold createConduit
  by_cases ha : track.media_type = MediaType.kAudio
  · simp [ha]
  · by_cases hv : track.media_type = MediaType.kVideo
    · simp [hv]
    · simp [ha, hv]

/-- The four ways a run of `CreateMediaPipeline` can go: the flow resolution
fails and its code is returned; the conduit stage ends in `MOZ_CRASH()`; the
conduit stage fails and its code is returned; or the pipeline stage of the
track's direction runs and its outcome is the outcome of the run. -/
theorem CreateMediaPipeline_cases (env : Env) (m : PeerConnectionMedia)
    (trackPair : JsepTrackPair) (track : JsepTrack) :
    (NS_FAILED (resolveTransportFlows env m trackPair).1 = true ∧
      CreateMediaPipeline env m trackPair track =
        Outcome.returned (resolveTransportFlows env m trackPair).1
          (resolveTransportFlows env m trackPair).2.2.2) ∨
    (NS_FAILED (resolveTransportFlows env m trackPair).1 = false ∧
      createConduit env (resolveTransportFlows env m trackPair).2.2.2 trackPair track = none ∧
      CreateMediaPipeline env m trackPair track =
        Outcome.crashed (resolveTransportFlows env m trackPair).2.2.2) ∨
    (∃ c, NS_FAILED (resolveTransportFlows env m trackPair).1 = false ∧
      createConduit env (resolveTransportFlows env m trackPair).2.2.2 trackPair track =
        some c ∧
      NS_FAILED c.1 = true ∧
      CreateMediaPipeline env m trackPair track = Outcome.returned c.1 c.2.2) ∨
    (∃ c, NS_FAILED (resolveTransportFlows env m trackPair).1 = false ∧
      createConduit env (resolveTransportFlows env m trackPair).2.2.2 trackPair track =
        some c ∧
      NS_FAILED c.1 = false ∧
      CreateMediaPipeline env m trackPair track =
        (if track.direction = Direction.kJsepTrackReceiving then
          CreateMediaPipelineReceiving env c.2.2 (resolveTransportFlows env m trackPair).2.1
            (resolveTransportFlows env m trackPair).2.2.1 none none trackPair track c.2.1
        else
          CreateMediaPipelineSending env c.2.2 (resolveTransportFlows env m trackPair).2.1
            (resolveTransportFlows env m trackPair).2.2.1 trackPair c.2.1)) := by
  by_cases hflows : NS_FAILED (resolveTransportFlows env m trackPair).1 = true
  · refine Or.inl ⟨hflows, ?_⟩
    unfold CreateMediaPipeline
    simp [hflows]
  · have hflows2 : NS_FAILED (resolveTransportFlows env m trackPair).1 = false := by
      simpa using hflows
    cases hc : createConduit env (resolveTransportFlows env m trackPair).2.2.2 trackPair track
      with
    | none =>
      refine Or.inr (Or.inl ⟨hflows2, rfl, ?_⟩)
      unfold CreateMediaPipeline createConduitAndPipeline
      simp [hflows2, hc]
    | some c =>
      by_cases hcf : NS_FAILED c.1 = true
      · refine Or.inr (Or.inr (Or.inl ⟨c, hflows2, rfl, hcf, ?_⟩))
        unfold CreateMediaPipeline createConduitAndPipeline
        simp [hflows2, hc, hcf]
      · have hcok : NS_FAILED c.1 = false := by simpa using hcf
        refine Or.inr (Or.inr (Or.inr ⟨c, hflows2, rfl, hcok, ?_⟩))
        rw [(CreateMediaPipeline_stage_reached env m trackPair track c hflows2 hc hcok).1]
        by_cases hd : track.direction = Direction.kJsepTrackReceiving
        · rw [if_pos hd]
          exact (CreateMediaPipelineReceiving_stage env c.2.2 _ _ none none trackPair track
            c.2.1).forward
        · rw [if_neg hd]
          exact (CreateMediaPipelineSending_stage env c.2.2 _ _ trackPair c.2.1).forward

/-! ## What a constructed pipeline is bound to -/

/-- The calls of a pipeline stage: every pipeline it constructs is the one for
the level, conduit and flows it was given. -/
theorem PipelineStage.new_pipeline {env : Env} {m : PeerConnectionMedia} {out : Outcome}
    {remote : Bool} {level : Nat} {conduit : Option MediaSessionConduit}
    {rtp rtcp : Option TransportFlow}
    (h : PipelineStage env m out remote level conduit rtp rtcp) :
    ∃ B, out.media.calls = m.calls ++ B ∧
      (∀ c ∈ B, c.phase = Phase.stream ∨ c.phase = Phase.pipeline) ∧
      ∀ q, Call.NewPipeline q ∈ B → PipelineFor m q level conduit rtp rtcp := by
  obtain ⟨_, _, _, g, hg, h1 | ⟨p, U, hpf, hU, _, h2⟩⟩ := h
  · refine ⟨[g], h1.1, ?_, ?_⟩
    · intro c hc
      simp only [List.mem_singleton] at hc
      rw [hc]; exact Or.inl hg
    · intro q hq
      simp only [List.mem_singleton] at hq
      rw [← hq] at hg
      simp [Call.phase] at hg
  · have hUp : ∀ c ∈ U, c.phase = Phase.pipeline ∧ ∀ q, c ≠ Call.NewPipeline q := by
      intro c hc
      rcases hU with hU | ⟨principal, peer, hU⟩
      · rw [hU] at hc; cases hc
      · rw [hU] at hc
        simp only [List.mem_singleton] at hc
        rw [hc]
        exact ⟨rfl, fun q hq => by cases hq⟩
    have build : ∀ T : List Call, (∀ c ∈ T, c.phase = Phase.pipeline ∧
        ∀ q, c ≠ Call.NewPipeline q) →
        out.media.calls = m.calls ++ g :: Call.NewPipeline p :: T →
        ∃ B, out.media.calls = m.calls ++ B ∧
          (∀ c ∈ B, c.phase = Phase.stream ∨ c.phase = Phase.pipeline) ∧
          ∀ q, Call.NewPipeline q ∈ B → PipelineFor m q level conduit rtp rtcp := by
      intro T hT hcalls
      refine ⟨_, hcalls, ?_, ?_⟩
      · intro c hc
        rcases List.mem_cons.mp hc with h | h
        · rw [h]; exact Or.inl hg
        · rcases List.mem_cons.mp h with h | h
          · rw [h]; exact Or.inr rfl
          · exact Or.inr (hT c h).1
      · intro q hq
        rcases List.mem_cons.mp hq with h | h
        · rw [← h] at hg
          simp [Call.phase] at hg
        · rcases List.mem_cons.mp h with h | h
          · cases h; exact hpf
          · exact absurd rfl ((hT _ h).2 q)
    rcases h2 with ⟨_, hc, _⟩ | ⟨_, _, hc, _⟩ | ⟨_, _, hc, _⟩
    · exact build [] (by simp) hc
    · refine build (U ++ [Call.Init p.addr]) ?_ (by rw [hc]; simp)
      intro c hc2
      rcases List.mem_append.mp hc2 with h | h
      · exact hUp c h
      · simp only [List.mem_singleton] at h
        rw [h]
        exact ⟨rfl, fun q hq => by cases hq⟩
    · refine build (U ++ [Call.Init p.addr,
        Call.StorePipeline remote ((p.track_id + SIZE_T_MOD - 1) % SIZE_T_MOD) p]) ?_
        (by rw [hc]; simp)
      intro c hc2
      rcases List.mem_append.mp hc2 with h | h
      · exact hUp c h
      · simp only [List.mem_cons, List.mem_singleton, List.not_mem_nil, or_false] at h
        rcases h with h | h
        · rw [h]; exact ⟨rfl, fun q hq => by cases hq⟩
        · rw [h]; exact ⟨rfl, fun q hq => by cases hq⟩

/-- C24. Every pipeline a run of `CreateMediaPipeline` constructs is bound to a
non-null conduit of the type of the track's media type (an audio conduit for an
audio track, a video conduit for a video track), the one the conduit stage of
this run created, and to a non-null RTP flow, the one registered under
(level, false). -/
theorem CreateMediaPipeline_pipeline_bindings (env : Env) (m : PeerConnectionMedia)
    (trackPair : JsepTrackPair) (track : JsepTrack) :
    ∃ new, (CreateMediaPipeline env m trackPair track).media.calls = m.calls ++ new ∧
      ∀ p, Call.NewPipeline p ∈ new →
        (∃ cd : MediaSessionConduit, p.conduit = some cd ∧
          ((track.media_type = MediaType.kAudio ∧ cd.type = ConduitType.AUDIO) ∨
           (track.media_type = MediaType.kVideo ∧ cd.type = ConduitType.VIDEO))) ∧
        (∃ flow : TransportFlow, p.rtp_flow = some flow ∧
          (CreateMediaPipeline env m trackPair track).media.GetTransportFlow
            trackPair.mLevel false = some flow) := by
  obtain ⟨A1, hA1, hA1p⟩ := (resolveTransportFlows_step env m trackPair).transport_calls
  have hno : ∀ (A : List Call),
      (∀ c ∈ A, c.phase = Phase.transport ∨ c.phase = Phase.conduit) →
      ∀ p, Call.NewPipeline p ∉ A := by
    intro A hA p hp
    have := hA _ hp
    simp [Call.phase] at this
  rcases CreateMediaPipeline_cases env m trackPair track with
    ⟨_, heq⟩ | ⟨_, _, heq⟩ | ⟨c, _, hc, _, heq⟩ | ⟨c, hflows, hc, hcok, heq⟩
  · rw [heq]
    exact ⟨A1, hA1, fun p hp => absurd hp (hno A1 hA1p p)⟩
  · rw [heq]
    exact ⟨A1, hA1, fun p hp => absurd hp (hno A1 hA1p p)⟩
  · rw [heq]
    obtain ⟨A2, hA2, hA2p⟩ := (createConduit_step env _ trackPair track c hc).conduit_calls
    refine ⟨A1 ++ A2, by simp only [Outcome.media]; rw [hA2, hA1, List.append_assoc], ?_⟩
    intro p hp
    rcases List.mem_append.mp hp with h | h
    · exact absurd h (hno A1 hA1p p)
    · exact absurd h (hno A2 hA2p p)
  · obtain ⟨cd, hcd, _, htype⟩ := createConduit_ok env _ trackPair track c hc hcok
    obtain ⟨⟨flow, hflow, hreg⟩, _⟩ := resolveTransportFlows_ok env m trackPair hflows
    have hstep := createConduit_step env _ trackPair track c hc
    obtain ⟨A2, hA2, hA2p⟩ := hstep.conduit_calls
    have key : ∀ (out : Outcome) (remote : Bool),
        PipelineStage env c.2.2 out remote trackPair.mLevel c.2.1
          (resolveTransportFlows env m trackPair).2.1
          (resolveTransportFlows env m trackPair).2.2.1 →
        ∃ new, out.media.calls = m.calls ++ new ∧
          ∀ p, Call.NewPipeline p ∈ new →
            (∃ cd : MediaSessionConduit, p.conduit = some cd ∧
              ((track.media_type = MediaType.kAudio ∧ cd.type = ConduitType.AUDIO) ∨
               (track.media_type = MediaType.kVideo ∧ cd.type = ConduitType.VIDEO))) ∧
            (∃ flow : TransportFlow, p.rtp_flow = some flow ∧
              out.media.GetTransportFlow trackPair.mLevel false = some flow) := by
      intro out remote hstage
      obtain ⟨B, hB, _, hBp⟩ := hstage.new_pipeline
      refine ⟨A1 ++ A2 ++ B, by rw [hB, hA2, hA1]; simp, ?_⟩
      intro p hp
      rcases List.mem_append.mp hp with h | h
      · rcases List.mem_append.mp h with h | h
        · exact absurd h (hno A1 hA1p p)
        · exact absurd h (hno A2 hA2p p)
      · obtain ⟨_, _, _, hpc, hprtp, _⟩ := hBp p h
        refine ⟨⟨cd, by rw [hpc, hcd], htype⟩, flow, by rw [hprtp, hflow], ?_⟩
        simp only [PeerConnectionMedia.GetTransportFlow] at hreg ⊢
        rw [hstage.1, hstep.2.1]
        exact hreg
    rw [heq]
    by_cases hd : track.direction = Direction.kJsepTrackReceiving
    · rw [if_pos hd]
      exact key _ _ (CreateMediaPipelineReceiving_stage env c.2.2 _ _ none none trackPair track
        c.2.1)
    · rw [if_neg hd]
      exact key _ _ (CreateMediaPipelineSending_stage env c.2.2 _ _ trackPair c.2.1)

/-! ## Termination on the media-type branch -/

/-- For an audio or video track `CreateMediaPipelineReceiving` returns a
result: the `MOZ_CRASH()` of its media-type branch is not reached. -/
theorem CreateMediaPipelineReceiving_returns (env : Env) (m : PeerConnectionMedia)
    (rtp rtcp brtp brtcp : Option TransportFlow) (trackPair : JsepTrackPair)
    (track : JsepTrack) (conduit : Option MediaSessionConduit)
    (h : track.media_type = MediaType.kAudio ∨ track.media_type = MediaType.kVideo) :
    ∃ rv, (CreateMediaPipelineReceiving env m rtp rtcp brtp brtcp trackPair track
      conduit).result = some rv := by
  unfold CreateMediaPipelineReceiving
  dsimp only
  split
  · exact ⟨_, rfl⟩
  · rcases h with h | h
    · simp only [h, if_true]
      split <;> exact ⟨_, rfl⟩
    · simp only [h, if_true, reduceCtorEq, if_false]
      split <;> exact ⟨_, rfl⟩

/-- `CreateMediaPipelineSending` ends without a result only in a build with
`MOZILLA_INTERNAL_API` when no document is attached, right after the pipeline
was constructed. -/
theorem CreateMediaPipelineSending_crash (env : Env) (m : PeerConnectionMedia)
    (rtp rtcp : Option TransportFlow) (trackPair : JsepTrackPair)
    (conduit : Option MediaSessionConduit)
    (h : (CreateMediaPipelineSending env m rtp rtcp trackPair conduit).result = none) :
    env.MOZILLA_INTERNAL_API = true ∧ env.GetExtantDoc = none ∧
    ∃ p, (CreateMediaPipelineSending env m rtp rtcp trackPair conduit).media.calls =
      m.calls ++ [Call.GetLocalStream 0, Call.NewPipeline p] := by
  unfold CreateMediaPipelineSending at h ⊢
  dsimp only at h ⊢
  cases hstream : (m.record (Call.GetLocalStream 0)).mLocalSourceStreams.get? 0 with
  | none => rw [hstream] at h; cases h
  | some stream =>
    rw [hstream] at h
    dsimp only at h ⊢
    by_cases hapi : env.MOZILLA_INTERNAL_API = true
    · simp only [hapi, if_true] at h ⊢
      cases hdoc : env.GetExtantDoc with
      | none =>
        exact ⟨trivial, rfl, (⟨m.nextAddr, PipelineKind.Transmit, (trackPair.mLevel + 1) % SIZE_T_MOD,
          trackPair.mLevel, conduit, rtp, rtcp, none, none, none⟩ : MediaPipeline),
          by simp [Outcome.media]⟩
      | some principal =>
        rw [hdoc] at h
        dsimp only at h
        split at h <;> cases h
    · have hapi2 : env.MOZILLA_INTERNAL_API = false := by simpa using hapi
      simp only [hapi2, Bool.false_eq_true, if_false] at h
      split at h <;> cases h

/-- C23 (counterexample).  A track of media type application whose flow
resolution fails (no local identity): `CreateMediaPipeline` does return a
result, `NS_ERROR_FAILURE`, since it never reaches the media-type branch.  And
an audio sending track in a build with `MOZILLA_INTERNAL_API` without an
attached document: no result is returned, the process is terminated in
`CreateMediaPipelineSending`. -/
theorem CreateMediaPipeline_abort_not_by_type_alone :
    applicationTrack.media_type ≠ MediaType.kAudio ∧
    applicationTrack.media_type ≠ MediaType.kVideo ∧
    (CreateMediaPipeline noIdentityEnv emptyMedia samplePair0 applicationTrack).result =
      some NS_ERROR_FAILURE ∧
    audioSendTrack.media_type = MediaType.kAudio ∧
    (CreateMediaPipeline noDocEnv emptyMedia samplePair0 audioSendTrack).result = none := by
  decide

/-- C23 (amended).  For an audio or video track the `MOZ_CRASH()` branches for
an unknown media type are not reached: the conduit stage is entered with a
conduit constructor, and the run returns a result unless the build has
`MOZILLA_INTERNAL_API`, no document is attached and the track is not a
receiving one, where the process is terminated right after the transmit
pipeline was constructed.  For every other media type the run returns the
failure of the flow resolution when that fails, and otherwise the process is
terminated on the media-type branch of `CreateMediaPipeline`, before any
conduit or pipeline call. -/
theorem CreateMediaPipeline_media_type_abort (env : Env) (m : PeerConnectionMedia)
    (trackPair : JsepTrackPair) (track : JsepTrack) :
    (track.media_type = MediaType.kAudio ∨ track.media_type = MediaType.kVideo →
      createConduit env (resolveTransportFlows env m trackPair).2.2.2 trackPair track ≠ none ∧
      ((CreateMediaPipeline env m trackPair track).result = none →
        env.MOZILLA_INTERNAL_API = true ∧ env.GetExtantDoc = none ∧
        track.direction ≠ Direction.kJsepTrackReceiving ∧
        ∃ p, (CreateMediaPipeline env m trackPair track).media.calls.getLast? =
          some (Call.NewPipeline p)) ∧
      (env.MOZILLA_INTERNAL_API = false ∨ env.GetExtantDoc ≠ none ∨
          track.direction = Direction.kJsepTrackReceiving →
        ∃ rv, (CreateMediaPipeline env m trackPair track).result = some rv)) ∧
    (track.media_type ≠ MediaType.kAudio ∧ track.media_type ≠ MediaType.kVideo →
      ((CreateMediaPipeline env m trackPair track).result = none ↔
        NS_FAILED (resolveTransportFlows env m trackPair).1 = false) ∧
      (NS_FAILED (resolveTransportFlows env m trackPair).1 = true →
        CreateMediaPipeline env m trackPair track =
          Outcome.returned (resolveTransportFlows env m trackPair).1
            (resolveTransportFlows env m trackPair).2.2.2) ∧
      (NS_FAILED (resolveTransportFlows env m trackPair).1 = false →
        CreateMediaPipeline env m trackPair track =
          Outcome.crashed (resolveTransportFlows env m trackPair).2.2.2)) := by
  refine ⟨fun hav => ?_, fun hother => ?_⟩
  · have hcn : createConduit env (resolveTransportFlows env m trackPair).2.2.2 trackPair
        track ≠ none := by
      intro hn
      have := (createConduit_none env _ trackPair track).mp hn
      rcases hav with h | h
      · exact this.1 h
      · exact this.2 h
    have hcrash : (CreateMediaPipeline env m trackPair track).result = none →
        env.MOZILLA_INTERNAL_API = true ∧ env.GetExtantDoc = none ∧
        track.direction ≠ Direction.kJsepTrackReceiving ∧
        ∃ p, (CreateMediaPipeline env m trackPair track).media.calls.getLast? =
          some (Call.NewPipeline p) := by
      intro hres
      rcases CreateMediaPipeline_cases env m trackPair track with
        ⟨_, heq⟩ | ⟨_, hc, _⟩ | ⟨c, _, _, _, heq⟩ | ⟨c, _, _, _, heq⟩
      · rw [heq] at hres; cases hres
      · exact absurd hc hcn
      · rw [heq] at hres; cases hres
      · by_cases hd : track.direction = Direction.kJsepTrackReceiving
        · rw [if_pos hd] at heq
          obtain ⟨rv, hrv⟩ := CreateMediaPipelineReceiving_returns env c.2.2
            (resolveTransportFlows env m trackPair).2.1
            (resolveTransportFlows env m trackPair).2.2.1 none none trackPair track c.2.1 hav
          rw [heq, hrv] at hres
          cases hres
        · rw [if_neg hd] at heq
          rw [heq] at hres ⊢
          obtain ⟨hapi, hdoc, p, hcalls⟩ := CreateMediaPipelineSending_crash env c.2.2
            (resolveTransportFlows env m trackPair).2.1
            (resolveTransportFlows env m trackPair).2.2.1 trackPair c.2.1 hres
          refine ⟨hapi, hdoc, hd, p, ?_⟩
          rw [hcalls]
          simp
    refine ⟨hcn, hcrash, ?_⟩
    intro hcond
    cases hres : (CreateMediaPipeline env m trackPair track).result with
    | some rv => exact ⟨rv, rfl⟩
    | none =>
      obtain ⟨hapi, hdoc, hd, _⟩ := hcrash hres
      rcases hcond with h | h | h
      · rw [hapi] at h; cases h
      · exact absurd hdoc h
      · exact absurd h hd
  · have hcn := (createConduit_none env (resolveTransportFlows env m trackPair).2.2.2
      trackPair track).mpr hother
    have hcrashed : NS_FAILED (resolveTransportFlows env m trackPair).1 = false →
        CreateMediaPipeline env m trackPair track =
          Outcome.crashed (resolveTransportFlows env m trackPair).2.2.2 := by
      intro hok
      rcases CreateMediaPipeline_cases env m trackPair track with
        ⟨hf, _⟩ | ⟨_, _, heq⟩ | ⟨c, _, hc, _⟩ | ⟨c, _, hc, _⟩
      · rw [hok] at hf; cases hf
      · exact heq
      · rw [hcn] at hc; cases hc
      · rw [hcn] at hc; cases hc
    have hfailed : NS_FAILED (resolveTransportFlows env m trackPair).1 = true →
        CreateMediaPipeline env m trackPair track =
          Outcome.returned (resolveTransportFlows env m trackPair).1
            (resolveTransportFlows env m trackPair).2.2.2 := by
      intro hf
      rcases CreateMediaPipeline_cases env m trackPair track with
        ⟨_, heq⟩ | ⟨hok, _⟩ | ⟨c, hok, _⟩ | ⟨c, hok, _⟩
      · exact heq
      · rw [hf] at hok; cases hok
      · rw [hf] at hok; cases hok
      · rw [hf] at hok; cases hok
    refine ⟨⟨fun hres => ?_, fun hok => by rw [hcrashed hok]; rfl⟩, hfailed, hcrashed⟩
    by_cases hf : NS_FAILED (resolveTransportFlows env m trackPair).1 = true
    · rw [hfailed hf] at hres; cases hres
    · simpa using hf

theorem CreateMediaPipeline_media_type_abort_witness :
    (audioSendTrack.media_type = MediaType.kAudio ∨
      audioSendTrack.media_type = MediaType.kVideo) ∧
    (∃ rv, (CreateMediaPipeline okEnv emptyMedia samplePair0 audioSendTrack).result =
      some rv) ∧
    (applicationTrack.media_type ≠ MediaType.kAudio ∧
      applicationTrack.media_type ≠ MediaType.kVideo) ∧
    (CreateMediaPipeline okEnv emptyMedia samplePair0 applicationTrack).result = none :=
  ⟨Or.inl rfl,
   ((CreateMediaPipeline_media_type_abort okEnv emptyMedia samplePair0 audioSendTrack).1
     (Or.inl rfl)).2.2 (Or.inl rfl),
   ⟨by decide, by decide⟩,
   ((CreateMediaPipeline_media_type_abort okEnv emptyMedia samplePair0 applicationTrack).2
     ⟨by decide, by decide⟩).1.mpr (by decide)⟩

/-! ## Sibling track pairs -/

/-- The flow resolution for level `L` leaves the registry entries of every other
level as they were. -/
theorem resolveTransportFlows_other_levels (env : Env) (m : PeerConnectionMedia)
    (trackPair : JsepTrackPair) (l : Nat) (r : Bool) (hl : l ≠ trackPair.mLevel) :
    (resolveTransportFlows env m trackPair).2.2.2.GetTransportFlow l r =
      m.GetTransportFlow l r := by
  have hne : ∀ b : Bool, (l, r) ≠ (trackPair.mLevel, b) := by
    intro b h
    exact hl (congrArg Prod.fst h)
  have h1 := CreateOrGetTransportFlow_other_keys env m trackPair.mLevel false
    trackPair.mRtpTransport l r (hne false)
  unfold resolveTransportFlows
  dsimp only
  split
  · exact h1
  · split
    · next t _ =>
      have h2 := CreateOrGetTransportFlow_other_keys env
        (CreateOrGetTransportFlow env m trackPair.mLevel false trackPair.mRtpTransport).2.2
        trackPair.mLevel true t l r (hne true)
      split
      · exact h2.trans h1
      · exact h2.trans h1
    · exact h1

/-- The conduit stage for level `L` leaves the registry entries of every other
level as they were. -/
theorem createConduit_other_levels (env : Env) (m : PeerConnectionMedia)
    (trackPair : JsepTrackPair) (track : JsepTrack)
    (c : nsresult × Option MediaSessionConduit × PeerConnectionMedia)
    (hc : createConduit env m trackPair track = some c)
    (l : Nat) (r : Bool) (hl : l ≠ trackPair.mLevel) :
    c.2.2.GetConduit l r = m.GetConduit l r := by
  have hne : ∀ b : Bool, (l, r) ≠ (trackPair.mLevel, b) := by
    intro b h
    exact hl (congrArg Prod.fst h)
  unfold createConduit at hc
  split at hc
  · cases hc
    rcases CreateAudioConduit_cases env m trackPair track with ⟨heq, _⟩ | ⟨M, heq, _, hcond, _⟩
    · rw [heq]; rfl
    · rw [heq]
      obtain ⟨new, hnew, _⟩ := configureAudioConduit_step env M
        { addr := m.nextAddr, type := ConduitType.AUDIO,
          other := (m.GetConduit trackPair.mLevel
            (decide (track.direction = Direction.kJsepTrackReceiving))).map (·.addr) }
        track (decide (track.direction = Direction.kJsepTrackReceiving))
      rw [hnew]
      simp only [PeerConnectionMedia.GetConduit, hcond]
      rw [lookup_insert, if_neg (hne _)]
  · split at hc
    · cases hc
      rcases CreateVideoConduit_cases env m trackPair track with
        ⟨heq, _⟩ | ⟨M, heq, _, hcond, _⟩
      · rw [heq]; rfl
      · rw [heq]
        obtain ⟨new, hnew, _⟩ := configureVideoConduit_step env M
          { addr := m.nextAddr, type := ConduitType.VIDEO,
            other := (m.GetConduit trackPair.mLevel true).map (·.addr) }
          track (decide (track.direction = Direction.kJsepTrackReceiving))
        rw [hnew]
        simp only [PeerConnectionMedia.GetConduit, hcond]
        rw [lookup_insert, if_neg (hne _)]
    · cases hc

/-- A lookup at another key is not affected by filtering a key out. -/
theorem lookup_filter_ne_slot {α : Type} (l : List (Nat × α)) (k k2 : Nat) (h : k2 ≠ k) :
    List.lookup k2 (l.filter (fun e => e.1 ≠ k)) = List.lookup k2 l := by
  induction l with
  | nil => rfl
  | cons e rest ih =>
    obtain ⟨a, b⟩ := e
    by_cases hk : a = k
    · have hne : (k2 == a) = false := by
        rw [hk]
        exact beq_false_of_ne h
      rw [List.filter_cons_of_neg (by simpa using hk), ih, List.lookup_cons, hne]
    · rw [List.filter_cons_of_pos (by simpa using hk), List.lookup_cons, List.lookup_cons, ih]

/-- Storing a pipeline in slot `slot` of bucket 0 leaves every other slot of
every bucket as it was. -/
theorem pipelineAt_set_StorePipeline (streams : List SourceStreamInfo)
    (stream : SourceStreamInfo) (slot : Nat) (p : MediaPipeline)
    (hget : streams.get? 0 = some stream) (i k : Nat) (h : i ≠ 0 ∨ k ≠ slot) :
    pipelineAt (streams.set 0 (stream.StorePipeline slot p)) i k = pipelineAt streams i k := by
  unfold pipelineAt
  cases i with
  | zero =>
    have hk : k ≠ slot := by
      rcases h with h | h
      · exact absurd rfl h
      · exact h
    cases streams with
    | nil => cases hget
    | cons s rest =>
      simp only [List.get?_cons_zero, Option.some.injEq] at hget
      subst hget
      simp only [List.set_cons_zero, List.get?_cons_zero, Option.map_some',
        SourceStreamInfo.StorePipeline, Option.some.injEq]
      rw [List.lookup_cons, beq_false_of_ne hk]
      exact lookup_filter_ne_slot _ _ _ hk
  | succ i =>
    cases streams with
    | nil => rfl
    | cons s rest => rfl

/-- What a pipeline stage does to the stream buckets: nothing, or one pipeline
is stored in bucket 0 of its side under the key `level`. -/
theorem PipelineStage.streams {env : Env} {m : PeerConnectionMedia} {out : Outcome}
    {remote : Bool} {level : Nat} {conduit : Option MediaSessionConduit}
    {rtp rtcp : Option TransportFlow}
    (h : PipelineStage env m out remote level conduit rtp rtcp) (hL : level < SIZE_T_MOD) :
    SameStreams m out.media ∨ ∃ p, StoredIn m out.media remote level p := by
  obtain ⟨_, _, _, g, _, h1 | ⟨p, U, hpf, _, _, h2 | h2 | h2⟩⟩ := h
  · exact Or.inl h1.2.2.1
  · exact Or.inl h2.2.2
  · exact Or.inl h2.2.2.2
  · obtain ⟨_, _, _, hstored⟩ := h2
    obtain ⟨_, _, htid, _⟩ := hpf
    rw [htid, slot_eq_level level hL] at hstored
    exact Or.inr ⟨p, hstored⟩

/-- C22. A run of `CreateMediaPipeline` for a track pair at level `L`, whatever
its outcome, leaves the sibling track pairs untouched: the transport flow and
the conduit registered under any key of a level other than `L` are those from
before the call, and so is every pipeline slot of every stream bucket other
than slot `L` of bucket 0 on the track's side (the remote buckets for a
receiving track, the local buckets otherwise). -/
theorem CreateMediaPipeline_siblings_untouched (env : Env) (m : PeerConnectionMedia)
    (trackPair : JsepTrackPair) (track : JsepTrack)
    (hL : trackPair.mLevel < SIZE_T_MOD) :
    (∀ (l : Nat) (r : Bool), l ≠ trackPair.mLevel →
      (CreateMediaPipeline env m trackPair track).media.GetTransportFlow l r =
        m.GetTransportFlow l r) ∧
    (∀ (l : Nat) (r : Bool), l ≠ trackPair.mLevel →
      (CreateMediaPipeline env m trackPair track).media.GetConduit l r = m.GetConduit l r) ∧
    (∀ i k : Nat,
      i ≠ 0 ∨ k ≠ trackPair.mLevel ∨ track.direction = Direction.kJsepTrackReceiving →
      pipelineAt (CreateMediaPipeline env m trackPair track).media.mLocalSourceStreams i k =
        pipelineAt m.mLocalSourceStreams i k) ∧
    (∀ i k : Nat,
      i ≠ 0 ∨ k ≠ trackPair.mLevel ∨ track.direction ≠ Direction.kJsepTrackReceiving →
      pipelineAt (CreateMediaPipeline env m trackPair track).media.mRemoteSourceStreams i k =
        pipelineAt m.mRemoteSourceStreams i k) := by
  have hT := resolveTransportFlows_step env m trackPair
  have hTf := resolveTransportFlows_other_levels env m trackPair
  have hTc : ∀ (l : Nat) (r : Bool),
      (resolveTransportFlows env m trackPair).2.2.2.GetConduit l r = m.GetConduit l r := by
    intro l r
    simp only [PeerConnectionMedia.GetConduit, hT.2.1]
  -- a state reached without touching the buckets
  have same : ∀ M : PeerConnectionMedia,
      (∀ (l : Nat) (r : Bool), l ≠ trackPair.mLevel →
        M.GetTransportFlow l r = m.GetTransportFlow l r) →
      (∀ (l : Nat) (r : Bool), l ≠ trackPair.mLevel → M.GetConduit l r = m.GetConduit l r) →
      M.mLocalSourceStreams = m.mLocalSourceStreams →
      M.mRemoteSourceStreams = m.mRemoteSourceStreams →
      (∀ (l : Nat) (r : Bool), l ≠ trackPair.mLevel →
        M.GetTransportFlow l r = m.GetTransportFlow l r) ∧
      (∀ (l : Nat) (r : Bool), l ≠ trackPair.mLevel → M.GetConduit l r = m.GetConduit l r) ∧
      (∀ i k : Nat,
        i ≠ 0 ∨ k ≠ trackPair.mLevel ∨ track.direction = Direction.kJsepTrackReceiving →
        pipelineAt M.mLocalSourceStreams i k = pipelineAt m.mLocalSourceStreams i k) ∧
      (∀ i k : Nat,
        i ≠ 0 ∨ k ≠ trackPair.mLevel ∨ track.direction ≠ Direction.kJsepTrackReceiving →
        pipelineAt M.mRemoteSourceStreams i k = pipelineAt m.mRemoteSourceStreams i k) := by
    intro M hf hc hl hr
    exact ⟨hf, hc, fun i k _ => by rw [hl], fun i k _ => by rw [hr]⟩
  rcases CreateMediaPipeline_cases env m trackPair track with
    ⟨_, heq⟩ | ⟨_, _, heq⟩ | ⟨c, _, hc, _, heq⟩ | ⟨c, _, hc, _, heq⟩
  · rw [heq]
    exact same _ hTf (fun l r _ => hTc l r) hT.2.2.1 hT.2.2.2.1
  · rw [heq]
    exact same _ hTf (fun l r _ => hTc l r) hT.2.2.1 hT.2.2.2.1
  · rw [heq]
    have hC := createConduit_step env _ trackPair track c hc
    refine same _ ?_ ?_ (hC.2.2.1.trans hT.2.2.1) (hC.2.2.2.1.trans hT.2.2.2.1)
    · intro l r hl
      simp only [Outcome.media, PeerConnectionMedia.GetTransportFlow, hC.2.1]
      exact hTf l r hl
    · intro l r hl
      simp only [Outcome.media]
      rw [createConduit_other_levels env _ trackPair track c hc l r hl]
      exact hTc l r
  · have hC := createConduit_step env _ trackPair track c hc
    have hloc := hC.2.2.1.trans hT.2.2.1
    have hrem := hC.2.2.2.1.trans hT.2.2.2.1
    have key : ∀ (out : Outcome) (remote : Bool),
        remote = decide (track.direction = Direction.kJsepTrackReceiving) →
        PipelineStage env c.2.2 out remote trackPair.mLevel c.2.1
          (resolveTransportFlows env m trackPair).2.1
          (resolveTransportFlows env m trackPair).2.2.1 →
        (∀ (l : Nat) (r : Bool), l ≠ trackPair.mLevel →
          out.media.GetTransportFlow l r = m.GetTransportFlow l r) ∧
        (∀ (l : Nat) (r : Bool), l ≠ trackPair.mLevel →
          out.media.GetConduit l r = m.GetConduit l r) ∧
        (∀ i k : Nat,
          i ≠ 0 ∨ k ≠ trackPair.mLevel ∨ track.direction = Direction.kJsepTrackReceiving →
          pipelineAt out.media.mLocalSourceStreams i k = pipelineAt m.mLocalSourceStreams i k) ∧
        (∀ i k : Nat,
          i ≠ 0 ∨ k ≠ trackPair.mLevel ∨ track.direction ≠ Direction.kJsepTrackReceiving →
          pipelineAt out.media.mRemoteSourceStreams i k =
            pipelineAt m.mRemoteSourceStreams i k) := by
      intro out remote hremote hstage
      have hf : ∀ (l : Nat) (r : Bool), l ≠ trackPair.mLevel →
          out.media.GetTransportFlow l r = m.GetTransportFlow l r := by
        intro l r hl
        simp only [PeerConnectionMedia.GetTransportFlow, hstage.1, hC.2.1]
        exact hTf l r hl
      have hcd : ∀ (l : Nat) (r : Bool), l ≠ trackPair.mLevel →
          out.media.GetConduit l r = m.GetConduit l r := by
        intro l r hl
        have h1 : out.media.GetConduit l r = c.2.2.GetConduit l r := by
          simp only [PeerConnectionMedia.GetConduit, hstage.2.1]
        rw [h1, createConduit_other_levels env _ trackPair track c hc l r hl]
        exact hTc l r
      rcases hstage.streams hL with ⟨hl2, hr2⟩ | ⟨p, stream, hget, hr2, hl2⟩
      · exact same _ hf hcd (hl2.trans hloc) (hr2.trans hrem)
      · refine ⟨hf, hcd, ?_, ?_⟩
        · intro i k hik
          rw [hl2]
          by_cases hd : track.direction = Direction.kJsepTrackReceiving
          · simp only [hremote, hd, decide_True, if_true, hloc]
          · simp only [hremote, hd, decide_False, Bool.false_eq_true, if_false] at hget ⊢
            rw [hloc] at hget ⊢
            refine pipelineAt_set_StorePipeline _ _ _ _ hget i k ?_
            rcases hik with h | h | h
            · exact Or.inl h
            · exact Or.inr h
            · exact absurd h hd
        · intro i k hik
          rw [hr2]
          by_cases hd : track.direction = Direction.kJsepTrackReceiving
          · simp only [hremote, hd, decide_True, if_true] at hget ⊢
            rw [hrem] at hget ⊢
            refine pipelineAt_set_StorePipeline _ _ _ _ hget i k ?_
            rcases hik with h | h | h
            · exact Or.inl h
            · exact Or.inr h
            · exact absurd hd h
          · simp only [hremote, hd, decide_False, Bool.false_eq_true, if_false, hrem]
    rw [heq]
    by_cases hd : track.direction = Direction.kJsepTrackReceiving
    · rw [if_pos hd]
      exact key _ true (by simp [hd])
        (CreateMediaPipelineReceiving_stage env c.2.2 _ _ none none trackPair track c.2.1)
    · rw [if_neg hd]
      exact key _ false (by simp [hd])
        (CreateMediaPipelineSending_stage env c.2.2 _ _ trackPair c.2.1)

theorem CreateMediaPipeline_siblings_untouched_witness :
    samplePair1.mLevel < SIZE_T_MOD ∧
    (CreateMediaPipeline okEnv
        (CreateMediaPipeline okEnv emptyMedia samplePair0 audioSendTrack).media
        samplePair1 videoRecvTrack).media.GetConduit 0 false =
      some { addr := 2, type := ConduitType.AUDIO, other := none } ∧
    pipelineAt (CreateMediaPipeline okEnv
        (CreateMediaPipeline okEnv emptyMedia samplePair0 audioSendTrack).media
        samplePair1 videoRecvTrack).media.mLocalSourceStreams 0 0 =
      some (some sampleTransmitPipeline) :=
  ⟨by decide,
   ((CreateMediaPipeline_siblings_untouched okEnv
      (CreateMediaPipeline okEnv emptyMedia samplePair0 audioSendTrack).media
      samplePair1 videoRecvTrack (by decide)).2.1 0 false (by decide)).trans (by decide),
   ((CreateMediaPipeline_siblings_untouched okEnv
      (CreateMediaPipeline okEnv emptyMedia samplePair0 audioSendTrack).media
      samplePair1 videoRecvTrack (by decide)).2.2.1 0 0 (Or.inr (Or.inr rfl))).trans
     (by decide)⟩

/-! ## The video host of the media plugins -/

theorem evenPositions_length : ∀ l : List Nat, (evenPositions l).length = (l.length + 1) / 2
  | [] => by simp [evenPositions]
  | [_] => by simp [evenPositions]
  | _ :: _ :: rest => by
    simp only [evenPositions, List.length_cons, evenPositions_length rest]
    omega

theorem oddPositions_length : ∀ l : List Nat, (oddPositions l).length = l.length / 2
  | [] => by simp [oddPositions]
  | [_] => by simp [oddPositions]
  | _ :: _ :: rest => by
    simp only [oddPositions, List.length_cons, oddPositions_length rest]
    omega

theorem evenPositions_getElem_opt : ∀ (l : List Nat) (k : Nat), (evenPositions l)[k]? = l[2 * k]?
  | [], k => by simp [evenPositions]
  | [a], k => by
    cases k with
    | zero => simp [evenPositions]
    | succ k =>
      have : 2 * (k + 1) = 2 * k + 1 + 1 := by omega
      simp [evenPositions, this]
  | a :: b :: rest, k => by
    cases k with
    | zero => simp [evenPositions]
    | succ k =>
      have : 2 * (k + 1) = 2 * k + 1 + 1 := by omega
      simp only [evenPositions, List.getElem?_cons_succ, this]
      exact evenPositions_getElem_opt rest k

theorem oddPositions_getElem_opt : ∀ (l : List Nat) (k : Nat),
    (oddPositions l)[k]? = l[2 * k + 1]?
  | [], k => by simp [oddPositions]
  | [a], k => by simp [oddPositions]
  | a :: b :: rest, k => by
    cases k with
    | zero => simp [oddPositions]
    | succ k =>
      have : 2 * (k + 1) + 1 = 2 * k + 1 + 1 + 1 := by omega
      simp only [oddPositions, List.getElem?_cons_succ, this]
      exact oddPositions_getElem_opt rest k

/-- The loop entered at the index `pre.length` leaves the entries before the
index alone and, of the rest, invalidates and removes the entries at the
positions 0, 2, 4, ... and keeps those at 1, 3, 5, ... -/
theorem invalidateLoop_spec : ∀ (n : Nat) (rest : List Nat), rest.length ≤ n →
    ∀ (pre inv : List Nat),
      invalidateLoop pre.length (pre ++ rest) inv =
        (pre ++ oddPositions rest, inv ++ evenPositions rest) := by
  intro n
  induction n with
  | zero =>
    intro rest hlen pre inv
    have : rest = [] := List.length_eq_zero.mp (by omega)
    subst this
    rw [invalidateLoop]
    simp [oddPositions, evenPositions]
  | succ n ih =>
    intro rest hlen pre inv
    match rest, hlen with
    | [], _ =>
      rw [invalidateLoop]
      simp [oddPositions, evenPositions]
    | [a], _ =>
      rw [invalidateLoop]
      have h1 : pre.length < (pre ++ [a]).length := by simp
      rw [dif_pos h1]
      have h2 : (pre ++ [a]).eraseIdx pre.length = pre := by
        rw [List.eraseIdx_append_of_length_le (Nat.le_refl _)]
        simp
      have h3 : (pre ++ [a])[pre.length] = a := by simp
      rw [h2, h3, invalidateLoop]
      simp [oddPositions, evenPositions]
    | a :: b :: r2, hlen =>
      rw [invalidateLoop]
      have h1 : pre.length < (pre ++ a :: b :: r2).length := by simp
      rw [dif_pos h1]
      have h2 : (pre ++ a :: b :: r2).eraseIdx pre.length = (pre ++ [b]) ++ r2 := by
        rw [List.eraseIdx_append_of_length_le (Nat.le_refl _)]
        simp
      have h3 : (pre ++ a :: b :: r2)[pre.length] = a := by
        simp [List.getElem_append_right]
      have h4 : pre.length + 1 = (pre ++ [b]).length := by simp
      rw [h2, h3, h4, ih r2 (by have h : r2.length + 2 ≤ n + 1 := hlen; omega)]
      simp [oddPositions, evenPositions]

/-- C26. `GMPVideoHostImpl::InvalidateShmem` sets the shared-memory manager to
null, but of `n` tracked planes it invalidates and removes only the
`(n + 1) / 2` planes at the original positions 0, 2, 4, ...: the `n / 2` planes
at the original positions 1, 3, 5, ... are what the array holds afterwards, in
order, and `InvalidateShmem()` was not called on them.  The same holds for the
tracked encoded frames. -/
theorem InvalidateShmem_every_other (h : GMPVideoHostImpl) :
    h.InvalidateShmem.mSharedMemMgr = none ∧
    (h.InvalidateShmem.mPlanes.length = h.mPlanes.length / 2 ∧
      (∀ k : Nat, h.InvalidateShmem.mPlanes[k]? = h.mPlanes[2 * k + 1]?) ∧
      ∃ inv : List Nat, h.InvalidateShmem.invalidatedPlanes = h.invalidatedPlanes ++ inv ∧
        inv.length = (h.mPlanes.length + 1) / 2 ∧
        ∀ k : Nat, inv[k]? = h.mPlanes[2 * k]?) ∧
    (h.InvalidateShmem.mEncodedFrames.length = h.mEncodedFrames.length / 2 ∧
      (∀ k : Nat, h.InvalidateShmem.mEncodedFrames[k]? = h.mEncodedFrames[2 * k + 1]?) ∧
      ∃ inv : List Nat, h.InvalidateShmem.invalidatedFrames = h.invalidatedFrames ++ inv ∧
        inv.length = (h.mEncodedFrames.length + 1) / 2 ∧
        ∀ k : Nat, inv[k]? = h.mEncodedFrames[2 * k]?) := by
  have hp := invalidateLoop_spec h.mPlanes.length h.mPlanes (Nat.le_refl _) []
    h.invalidatedPlanes
  have hf := invalidateLoop_spec h.mEncodedFrames.length h.mEncodedFrames (Nat.le_refl _) []
    h.invalidatedFrames
  simp only [List.length_nil, List.nil_append] at hp hf
  unfold GMPVideoHostImpl.InvalidateShmem
  simp only [hp, hf]
  exact ⟨trivial,
    ⟨oddPositions_length _, oddPositions_getElem_opt _,
      _, rfl, evenPositions_length _, evenPositions_getElem_opt _⟩,
    ⟨oddPositions_length _, oddPositions_getElem_opt _,
      _, rfl, evenPositions_length _, evenPositions_getElem_opt _⟩⟩

/-- C27. `GMPVideoHostImpl::CreateFrame`, when the allocation of the frame
object yields an object, returns `GMPVideoNoErr` if and only if the
shared-memory manager is present, the output pointer is non-null and the format
is `kGMPI420VideoFrame`; in every other case it returns `GMPVideoGenericErr`,
and with manager and output pointer present and another format the output is
set to null.  After `InvalidateShmem` every `CreateFrame`, `CreatePlane` and
`CreateEncodedFrame` returns `GMPVideoGenericErr`. -/
theorem CreateFrame_result (h : GMPVideoHostImpl) (aFormat : GMPVideoFrameFormat)
    (aFrame : Bool) (newed : Option Nat) (hnew : newed ≠ none) :
    ((h.CreateFrame aFormat aFrame newed).1 = GMPVideoErr.GMPVideoNoErr ↔
      h.mSharedMemMgr ≠ none ∧ aFrame = true ∧
      aFormat = GMPVideoFrameFormat.kGMPI420VideoFrame) ∧
    ((h.CreateFrame aFormat aFrame newed).1 ≠ GMPVideoErr.GMPVideoNoErr →
      (h.CreateFrame aFormat aFrame newed).1 = GMPVideoErr.GMPVideoGenericErr) ∧
    (h.mSharedMemMgr ≠ none → aFrame = true →
      aFormat ≠ GMPVideoFrameFormat.kGMPI420VideoFrame →
      (h.CreateFrame aFormat aFrame newed).2 = some none) ∧
    (∀ (fmt : GMPVideoFrameFormat) (out : Bool) (n : Option Nat),
      (h.InvalidateShmem.CreateFrame fmt out n).1 = GMPVideoErr.GMPVideoGenericErr ∧
      (h.InvalidateShmem.CreatePlane out n).1 = GMPVideoErr.GMPVideoGenericErr ∧
      (h.InvalidateShmem.CreateEncodedFrame out n).1 = GMPVideoErr.GMPVideoGenericErr) := by
  obtain ⟨f, rfl⟩ := Option.ne_none_iff_exists'.mp hnew
  refine ⟨?_, ?_, ?_, ?_⟩
  · unfold GMPVideoHostImpl.CreateFrame
    by_cases hm : h.mSharedMemMgr = none
    · simp [hm]
    · cases aFrame
      · simp [hm]
      · by_cases hf : aFormat = GMPVideoFrameFormat.kGMPI420VideoFrame
        · simp [hm, hf]
        · simp [hm, hf]
  · unfold GMPVideoHostImpl.CreateFrame
    by_cases hm : h.mSharedMemMgr = none
    · simp [hm]
    · cases aFrame
      · simp [hm]
      · by_cases hf : aFormat = GMPVideoFrameFormat.kGMPI420VideoFrame
        · simp [hm, hf]
        · simp [hm, hf]
  · intro hm ha hf
    unfold GMPVideoHostImpl.CreateFrame
    simp [hm, ha, hf]
  · intro fmt out n
    have hmgr : h.InvalidateShmem.mSharedMemMgr = none := rfl
    refine ⟨?_, ?_, ?_⟩
    · unfold GMPVideoHostImpl.CreateFrame
      rw [if_pos hmgr]
    · unfold GMPVideoHostImpl.CreatePlane
      rw [if_pos hmgr]
    · unfold GMPVideoHostImpl.CreateEncodedFrame
      rw [if_pos hmgr]

theorem CreateFrame_result_witness :
    (some 7 : Option Nat) ≠ none ∧
    (sampleHost.CreateFrame GMPVideoFrameFormat.kGMPI420VideoFrame true (some 7)).1 =
      GMPVideoErr.GMPVideoNoErr ∧
    (sampleHost.InvalidateShmem.CreatePlane true (some 7)).1 =
      GMPVideoErr.GMPVideoGenericErr :=
  ⟨by decide,
   (CreateFrame_result sampleHost GMPVideoFrameFormat.kGMPI420VideoFrame true (some 7)
     (by decide)).1.mpr ⟨by decide, rfl, rfl⟩,
   ((CreateFrame_result sampleHost GMPVideoFrameFormat.kGMPI420VideoFrame true (some 7)
     (by decide)).2.2.2 GMPVideoFrameFormat.kGMPI420VideoFrame true (some 7)).2.1⟩

/-! ## The show and hide events of a reorder event -/

/-- One iteration of the loop at an index inside the array. -/
theorem IsShowHideEventTargetLoop_step (events : List AccEvent) (aTarget : Nat)
    (index : Nat) (e : AccEvent) (hlen : events.length < UINT32_MOD)
    (he : events[index]? = some e) :
    IsShowHideEventTargetLoop events aTarget index =
      if e.mAccessible = aTarget ∧ (e.mEventType = EVENT_SHOW ∨ e.mEventType = EVENT_HIDE)
      then some e.mEventType
      else IsShowHideEventTargetLoop events aTarget ((index + UINT32_MOD - 1) % UINT32_MOD) := by
  have hi : index < events.length := by
    rcases Nat.lt_or_ge index events.length with h | h
    · exact h
    · rw [List.getElem?_eq_none h] at he; cases he
  rw [IsShowHideEventTargetLoop]
  rw [dif_pos (by rw [Nat.mod_eq_of_lt hlen]; exact hi), he]
  dsimp only
  by_cases ha : e.mAccessible = aTarget
  · by_cases ht : e.mEventType = EVENT_SHOW ∨ e.mEventType = EVENT_HIDE
    · simp [ha, ht]
    · simp [ha, ht]
  · simp [ha]

/-- The loop entered at an index outside the array returns 0. -/
theorem IsShowHideEventTargetLoop_exit (events : List AccEvent) (aTarget : Nat)
    (index : Nat) (h : ¬ index < events.length % UINT32_MOD) :
    IsShowHideEventTargetLoop events aTarget index = some 0 := by
  rw [IsShowHideEventTargetLoop, dif_neg h]

/-- The loop entered at an index inside the array returns the type of the
highest-index show or hide event of the target at or below the index, and 0
when there is none. -/
theorem IsShowHideEventTargetLoop_spec (events : List AccEvent) (aTarget : Nat)
    (hlen : events.length < UINT32_MOD) :
    ∀ index : Nat, index < events.length →
      (∃ (i : Nat) (e : AccEvent), i ≤ index ∧ events[i]? = some e ∧ e.isShowHideOf aTarget ∧
        (∀ (j : Nat) (e2 : AccEvent), i < j → j ≤ index → events[j]? = some e2 →
          ¬ e2.isShowHideOf aTarget) ∧
        IsShowHideEventTargetLoop events aTarget index = some e.mEventType) ∨
      ((∀ (j : Nat) (e2 : AccEvent), j ≤ index → events[j]? = some e2 →
          ¬ e2.isShowHideOf aTarget) ∧
        IsShowHideEventTargetLoop events aTarget index = some 0) := by
  intro index
  induction index with
  | zero =>
    intro hi
    obtain ⟨e, he⟩ : ∃ e, events[0]? = some e := ⟨events[0], List.getElem?_eq_getElem hi⟩
    rw [IsShowHideEventTargetLoop_step events aTarget 0 e hlen he]
    by_cases hm : e.mAccessible = aTarget ∧
        (e.mEventType = EVENT_SHOW ∨ e.mEventType = EVENT_HIDE)
    · rw [if_pos hm]
      exact Or.inl ⟨0, e, Nat.le_refl _, he, hm, fun j e2 h1 h2 => by omega, rfl⟩
    · rw [if_neg hm]
      refine Or.inr ⟨?_, ?_⟩
      · intro j e2 hj he2
        have : j = 0 := by omega
        subst this
        rw [he] at he2
        cases he2
        exact hm
      · apply IsShowHideEventTargetLoop_exit
        have : (0 + UINT32_MOD - 1) % UINT32_MOD = UINT32_MOD - 1 := by decide
        rw [this, Nat.mod_eq_of_lt hlen]
        omega
  | succ index ih =>
    intro hi
    obtain ⟨e, he⟩ : ∃ e, events[index + 1]? = some e :=
      ⟨events[index + 1], List.getElem?_eq_getElem hi⟩
    rw [IsShowHideEventTargetLoop_step events aTarget (index + 1) e hlen he]
    by_cases hm : e.mAccessible = aTarget ∧
        (e.mEventType = EVENT_SHOW ∨ e.mEventType = EVENT_HIDE)
    · rw [if_pos hm]
      exact Or.inl ⟨index + 1, e, Nat.le_refl _, he, hm, fun j e2 h1 h2 => by omega, rfl⟩
    · rw [if_neg hm]
      have hprev : (index + 1 + UINT32_MOD - 1) % UINT32_MOD = index := by
        have h1 : index + 1 + UINT32_MOD - 1 = index + UINT32_MOD := by omega
        rw [h1, Nat.add_mod_right, Nat.mod_eq_of_lt (by omega)]
      rw [hprev]
      rcases ih (by omega) with ⟨i, e1, hi1, he1, hm1, hafter, hres⟩ | ⟨hnone, hres⟩
      · refine Or.inl ⟨i, e1, by omega, he1, hm1, ?_, hres⟩
        intro j e2 h1 h2 he2
        by_cases hj : j = index + 1
        · subst hj
          rw [he] at he2
          cases he2
          exact hm
        · exact hafter j e2 h1 (by omega) he2
      · refine Or.inr ⟨?_, hres⟩
        intro j e2 h2 he2
        by_cases hj : j = index + 1
        · subst hj
          rw [he] at he2
          cases he2
          exact hm
        · exact hnone j e2 (by omega) he2

/-- C28. `AccReorderEvent::IsShowHideEventTarget` on a list of fewer than 2^32
dependent events always returns a value and never reads outside the array.
For the empty list the start index `count - 1` wraps to 2^32 - 1 and 0 is
returned.  In general the value is the event type of the highest-index
dependent event that is a show or hide event of the target, and 0 when there is
no such event. -/
theorem IsShowHideEventTarget_spec (events : List AccEvent) (aTarget : Nat)
    (hlen : events.length < UINT32_MOD) :
    IsShowHideEventTarget events aTarget ≠ none ∧
    (events = [] →
      (events.length % UINT32_MOD + UINT32_MOD - 1) % UINT32_MOD = UINT32_MOD - 1 ∧
      IsShowHideEventTarget events aTarget = some 0) ∧
    ((∃ (i : Nat) (e : AccEvent), events[i]? = some e ∧ e.isShowHideOf aTarget ∧
        (∀ (j : Nat) (e2 : AccEvent), i < j → events[j]? = some e2 →
          ¬ e2.isShowHideOf aTarget) ∧
        IsShowHideEventTarget events aTarget = some e.mEventType) ∨
      ((∀ (j : Nat) (e2 : AccEvent), events[j]? = some e2 → ¬ e2.isShowHideOf aTarget) ∧
        IsShowHideEventTarget events aTarget = some 0)) := by
  have hempty : events = [] →
      (events.length % UINT32_MOD + UINT32_MOD - 1) % UINT32_MOD = UINT32_MOD - 1 ∧
      IsShowHideEventTarget events aTarget = some 0 := by
    intro he
    subst he
    refine ⟨by decide, ?_⟩
    unfold IsShowHideEventTarget
    exact IsShowHideEventTargetLoop_exit [] aTarget _ (by decide)
  have hmain : (∃ (i : Nat) (e : AccEvent), events[i]? = some e ∧ e.isShowHideOf aTarget ∧
        (∀ (j : Nat) (e2 : AccEvent), i < j → events[j]? = some e2 →
          ¬ e2.isShowHideOf aTarget) ∧
        IsShowHideEventTarget events aTarget = some e.mEventType) ∨
      ((∀ (j : Nat) (e2 : AccEvent), events[j]? = some e2 → ¬ e2.isShowHideOf aTarget) ∧
        IsShowHideEventTarget events aTarget = some 0) := by
    by_cases hnil : events = []
    · refine Or.inr ⟨?_, (hempty hnil).2⟩
      intro j e2 he2
      rw [hnil] at he2
      simp at he2
    · have hpos : 0 < events.length := List.length_pos.mpr hnil
      have hstart : (events.length % UINT32_MOD + UINT32_MOD - 1) % UINT32_MOD =
          events.length - 1 := by
        rw [Nat.mod_eq_of_lt hlen]
        have h1 : events.length + UINT32_MOD - 1 = (events.length - 1) + UINT32_MOD := by
          omega
        rw [h1, Nat.add_mod_right, Nat.mod_eq_of_lt (by omega)]
      have inrange : ∀ (j : Nat) (e2 : AccEvent), events[j]? = some e2 →
          j ≤ events.length - 1 := by
        intro j e2 he2
        rcases Nat.lt_or_ge j events.length with h | h
        · omega
        · rw [List.getElem?_eq_none h] at he2; cases he2
      unfold IsShowHideEventTarget
      dsimp only
      rw [hstart]
      rcases IsShowHideEventTargetLoop_spec events aTarget hlen (events.length - 1)
        (by omega) with ⟨i, e, _, he, hm, hafter, hres⟩ | ⟨hnone, hres⟩
      · exact Or.inl ⟨i, e, he, hm,
          fun j e2 h1 he2 => hafter j e2 h1 (inrange j e2 he2) he2, hres⟩
      · exact Or.inr ⟨fun j e2 he2 => hnone j e2 (inrange j e2 he2) he2, hres⟩
  refine ⟨?_, hempty, hmain⟩
  rcases hmain with ⟨_, _, _, _, _, hres⟩ | ⟨_, hres⟩ <;> rw [hres] <;> simp

theorem IsShowHideEventTarget_spec_witness :
    sampleDependentEvents.length < UINT32_MOD ∧
    IsShowHideEventTarget sampleDependentEvents 5 = some EVENT_HIDE := by
  refine ⟨by decide, ?_⟩
  rcases (IsShowHideEventTarget_spec sampleDependentEvents 5 (by decide)).2.2 with
    ⟨i, e, he, hm, hafter, hres⟩ | ⟨hnone, _⟩
  · rw [hres]
    match i, he, hafter with
    | 0, he, hafter =>
      exact absurd (⟨rfl, Or.inr rfl⟩ :
        (⟨EVENT_HIDE, 5⟩ : AccEvent).isShowHideOf 5) (hafter 1 _ (by decide) rfl)
    | 1, he, _ =>
      have h : some (⟨EVENT_HIDE, 5⟩ : AccEvent) = some e := he
      cases h
      rfl
    | 2, he, _ =>
      have h : some (⟨EVENT_SHOW, 6⟩ : AccEvent) = some e := he
      cases h
      exact absurd hm.1 (by decide)
    | n + 3, he, _ =>
      simp [sampleDependentEvents] at he
  · exact absurd (⟨rfl, Or.inl rfl⟩ :
      (⟨EVENT_SHOW, 5⟩ : AccEvent).isShowHideOf 5) (hnone 0 _ rfl)

/-! ## The dimension checks of `YuvReader::Init` -/

/-- C30 (counterexample).  The header `YUV4MPEG2 W4000 H-3`: both range checks
are false, so the dimensions are not rejected, but `Init` does not return
`true`.  The frame size is `(4000 * -3 * 3) / 2 = -18000` and
`new unsigned char[-18000]` never returns: `Init` yields no result. -/
theorem YuvReader_Init_negative_size_no_result :
    sampleInputFile.fopen = true ∧
    sampleInputFile.fgets = some "YUV4MPEG2 W4000 H-3" ∧
    sampleInputFile.sscanf "YUV4MPEG2 W4000 H-3" = (2, 4000, -3) ∧
    ¬ ((4000 : Int) ≤ 0 ∧ (4000 : Int) > 2000) ∧ ¬ ((-3 : Int) ≤ 0 ∧ (-3 : Int) > 2000) ∧
    Int.tdiv (toInt32 (toInt32 (4000 * -3) * 3)) 2 = -18000 ∧
    newYuvReader.Init { g_width := 640, g_height := 480 } sampleInputFile false = none := by
  decide

/-- C30 (amended).  `YuvReader::Init` never returns `false` on account of the
dimensions.  For a file that opens, whose first line is read and from which
`sscanf` converts the two integers `W` and `H`: both range checks,
`W <= 0 && W > 2000` and `H <= 0 && H > 2000`, are false whatever `W` and `H`
are, and `frame_size_` gets the `int` value of `(W * H * 3) / 2`, which is
`(W * H * 3) / 2` rounded towards zero when the product does not overflow.
When that frame size is not negative and the array allocation returns, `Init`
returns `true` with `width_ = W`, `height_ = H` and the globals set to them;
when it is negative the allocation never returns and `Init` yields no
result. -/
theorem YuvReader_Init_accepts_any_dimensions (r : YuvReader) (g : BenchmarkGlobals)
    (file : InputFile) (loop : Bool) (line : String) (W H : Int)
    (hopen : file.fopen = true) (hline : file.fgets = some line)
    (hscan : file.sscanf line = (2, W, H)) :
    ¬ (W ≤ 0 ∧ W > 2000) ∧ ¬ (H ≤ 0 ∧ H > 2000) ∧
    (∀ (r2 : YuvReader) (g2 : BenchmarkGlobals), r.Init g file loop ≠ some (false, r2, g2)) ∧
    (0 ≤ Int.tdiv (toInt32 (toInt32 (W * H) * 3)) 2 →
      file.newArray (Int.tdiv (toInt32 (toInt32 (W * H) * 3)) 2).toNat = true →
      r.Init g file loop =
        some (true,
          { input_fp_ := true, init_ := true, height_ := H, width_ := W,
            frame_size_ := Int.tdiv (toInt32 (toInt32 (W * H) * 3)) 2,
            frame_ := some (Int.tdiv (toInt32 (toInt32 (W * H) * 3)) 2), loop_ := loop },
          { g_width := W, g_height := H })) ∧
    (Int.tdiv (toInt32 (toInt32 (W * H) * 3)) 2 < 0 → r.Init g file loop = none) ∧
    (-(2 ^ 31) ≤ W * H * 3 → W * H * 3 < 2 ^ 31 → -(2 ^ 31) ≤ W * H → W * H < 2 ^ 31 →
      Int.tdiv (toInt32 (toInt32 (W * H) * 3)) 2 = Int.tdiv (W * H * 3) 2) := by
  have hW : ¬ (W ≤ 0 ∧ W > 2000) := by omega
  have hH : ¬ (H ≤ 0 ∧ H > 2000) := by omega
  have hinit : r.Init g file loop =
      if Int.tdiv (toInt32 (toInt32 (W * H) * 3)) 2 < 0 then none
      else if file.newArray (Int.tdiv (toInt32 (toInt32 (W * H) * 3)) 2).toNat then
        some (true,
          { input_fp_ := true, init_ := true, height_ := H, width_ := W,
            frame_size_ := Int.tdiv (toInt32 (toInt32 (W * H) * 3)) 2,
            frame_ := some (Int.tdiv (toInt32 (toInt32 (W * H) * 3)) 2), loop_ := loop },
          { g_width := W, g_height := H })
      else none := by
    unfold YuvReader.Init
    simp only [hopen, hline, hscan]
    simp [hW, hH]
  refine ⟨hW, hH, ?_, ?_, ?_, ?_⟩
  · intro r2 g2
    rw [hinit]
    split
    · simp
    · split <;> simp
  · intro hnn halloc
    rw [hinit, if_neg (by omega), if_pos halloc]
  · intro hneg
    rw [hinit, if_pos hneg]
  · intro h1 h2 h3 h4
    have e1 : toInt32 (W * H) = W * H := by
      unfold toInt32
      omega
    have e2 : toInt32 (W * H * 3) = W * H * 3 := by
      unfold toInt32
      omega
    rw [e1, e2]

theorem YuvReader_Init_accepts_any_dimensions_witness :
    largeInputFile.fopen = true ∧
    largeInputFile.fgets = some "YUV4MPEG2 W4000 H3000" ∧
    largeInputFile.sscanf "YUV4MPEG2 W4000 H3000" = (2, 4000, 3000) ∧
    newYuvReader.Init { g_width := 640, g_height := 480 } largeInputFile false =
      some (true,
        { input_fp_ := true, init_ := true, height_ := 3000, width_ := 4000,
          frame_size_ := 18000000, frame_ := some 18000000, loop_ := false },
        { g_width := 4000, g_height := 3000 }) :=
  ⟨rfl, rfl, rfl,
   (YuvReader_Init_accepts_any_dimensions newYuvReader { g_width := 640, g_height := 480 }
     largeInputFile false "YUV4MPEG2 W4000 H3000" 4000 3000 rfl rfl rfl).2.2.2.1
     (by decide) (by decide)⟩

/-! ## The frame-counter watermark of the benchmark -/

/-- The four writes of one block of the stamping loop. -/
theorem stamp_block_eq (f : List Nat) (w b v : Nat) :
    (List.range 2).foldl
        (fun f y => (List.range 2).foldl (fun f x => f.set (b * 2 + (y * w + x)) v) f) f =
      (((f.set (b * 2) v).set (b * 2 + 1) v).set (b * 2 + w) v).set (b * 2 + (w + 1)) v := by
  have h2 : List.range 2 = [0, 1] := rfl
  simp [h2]

/-- The four reads of one block of the decoding loop. -/
theorem render_block_eq (buffer : List Nat) (w b : Nat) :
    (List.range 2).foldl
        (fun sum y =>
          (List.range 2).foldl (fun sum x => sum + buffer.getD (b * 2 + y * w + x) 0) sum) 0 =
      buffer.getD (b * 2) 0 + buffer.getD (b * 2 + 1) 0 + buffer.getD (b * 2 + w) 0 +
        buffer.getD (b * 2 + w + 1) 0 := by
  have h2 : List.range 2 = [0, 1] := rfl
  simp [h2]

/-- A read after one write. -/
theorem getD_set_zero (f : List Nat) (i v idx : Nat) :
    (f.set i v).getD idx 0 = if idx = i ∧ idx < f.length then v else f.getD idx 0 := by
  simp only [List.getD_eq_getElem?_getD, List.getElem?_set]
  by_cases h : i = idx
  · subst h
    by_cases hlt : i < f.length
    · simp [hlt]
    · simp [hlt, List.getElem?_eq_none (Nat.le_of_not_lt hlt)]
  · have h2 : ¬ idx = i := fun e => h e.symm
    simp [h, h2]

/-- A read after the four writes of a block: the written value inside the
block, the old value elsewhere. -/
theorem getD_stamp_block (f : List Nat) (w b v idx : Nat) :
    ((((f.set (b * 2) v).set (b * 2 + 1) v).set (b * 2 + w) v).set
        (b * 2 + (w + 1)) v).getD idx 0 =
      if (idx = b * 2 ∨ idx = b * 2 + 1 ∨ idx = b * 2 + w ∨ idx = b * 2 + (w + 1)) ∧
          idx < f.length
      then v else f.getD idx 0 := by
  simp only [getD_set_zero, List.length_set]
  split_ifs <;> first | rfl | omega

/-- The bit that the stamping loop extracts: bit `b` of the counter. -/
theorem stamp_bit (c b : Nat) : (c &&& (1 <<< b)) >>> b = c / 2 ^ b % 2 := by
  rw [Nat.one_shiftLeft, Nat.and_two_pow, Nat.shiftRight_eq_div_pow, Nat.testBit_to_div_mod]
  have hpos : 0 < 2 ^ b := Nat.two_pow_pos b
  rcases Nat.mod_two_eq_zero_or_one (c / 2 ^ b) with h | h
  · simp [h]
  · simp [h, Nat.mul_div_cancel _ hpos]

/-- The stamping loop after `n` rounds: `i` is `n`, the frame has its length,
and every byte of the blocks 0, ..., n - 1 holds the stamp of its bit. -/
theorem stamp_state (c w : Nat) (frame : List Nat) (hw : 20 ≤ w)
    (hlen : w + 20 ≤ frame.length) :
    ∀ n : Nat, n ≤ 10 →
      ((List.range n).foldl (ProcessFrameStampStep c w) (frame, 0)).2 = n ∧
      ((List.range n).foldl (ProcessFrameStampStep c w) (frame, 0)).1.length = frame.length ∧
      ∀ b : Nat, b < n → ∀ idx : Nat,
        idx = b * 2 ∨ idx = b * 2 + 1 ∨ idx = b * 2 + w ∨ idx = b * 2 + (w + 1) →
        ((List.range n).foldl (ProcessFrameStampStep c w) (frame, 0)).1.getD idx 0 =
          ((c / 2 ^ b % 2) <<< 7) % 256 := by
  intro n
  induction n with
  | zero =>
    intro _
    exact ⟨rfl, rfl, fun b hb => absurd hb (Nat.not_lt_zero b)⟩
  | succ n ih =>
    intro hn
    obtain ⟨hi, hl, hget⟩ := ih (by omega)
    rw [List.range_succ, List.foldl_append]
    generalize (List.range n).foldl (ProcessFrameStampStep c w) (frame, 0) = s at hi hl hget
    simp only [List.foldl_cons, List.foldl_nil, ProcessFrameStampStep, stamp_block_eq, hi,
      stamp_bit]
    refine ⟨trivial, by simp [hl], ?_⟩
    intro b hb idx hidx
    rw [getD_stamp_block, hl]
    by_cases hbn : b = n
    · subst hbn
      rw [if_pos ⟨hidx, by omega⟩]
    · rw [if_neg (by omega)]
      exact hget b (by omega) idx hidx

/-- The decoding loop after `n` rounds on a buffer whose blocks hold the stamps
of the bits of `c`: the `n` low bits of `c`. -/
theorem render_state (c w : Nat) (buffer : List Nat)
    (hbuf : ∀ b : Nat, b < 10 → ∀ idx : Nat,
      idx = b * 2 ∨ idx = b * 2 + 1 ∨ idx = b * 2 + w ∨ idx = b * 2 + (w + 1) →
      buffer.getD idx 0 = ((c / 2 ^ b % 2) <<< 7) % 256) :
    ∀ n : Nat, n ≤ 10 →
      (List.range n).foldl (RenderVideoFrameStep buffer w) 0 = c % 2 ^ n := by
  intro n
  induction n with
  | zero =>
    intro _
    simp [Nat.mod_one]
  | succ n ih =>
    intro hn
    rw [List.range_succ, List.foldl_append, ih (by omega)]
    simp only [List.foldl_cons, List.foldl_nil, RenderVideoFrameStep, render_block_eq]
    rw [hbuf n (by omega) (n * 2) (Or.inl rfl),
      hbuf n (by omega) (n * 2 + 1) (Or.inr (Or.inl rfl)),
      hbuf n (by omega) (n * 2 + w) (Or.inr (Or.inr (Or.inl rfl))),
      hbuf n (by omega) (n * 2 + w + 1) (Or.inr (Or.inr (Or.inr (by omega)))),
      Nat.one_shiftLeft, Nat.mod_pow_succ]
    rcases Nat.mod_two_eq_zero_or_one (c / 2 ^ n) with h | h
    · rw [h]
      simp
    · rw [h]
      have : (1 <<< 7 % 256 + 1 <<< 7 % 256 + 1 <<< 7 % 256 + 1 <<< 7 % 256) / 4 > 60 := by
        decide
      rw [if_pos this]
      omega

/-- C29. The frame-counter watermark round-trips.  For every frame counter `c`
(not negative), every width of at least 20 and every frame that covers the
rows 0 and 1 of the ten blocks: the stamping loop of `Benchmark::ProcessFrame`
keeps the length of the frame, and the decoding loop of
`Renderer::RenderVideoFrame`, run with `g_width` equal to the width on the
stamped frame, yields `c mod 1024`.  Under that width bound the forty offsets
`b*2 + y*width + x` (b < 10, y < 2, x < 2) are pairwise different. -/
theorem watermark_round_trip (c width : Nat) (frame : List Nat) (hw : 20 ≤ width)
    (hlen : width + 20 ≤ frame.length) :
    (ProcessFrameStamp c width frame).length = frame.length ∧
    RenderVideoFrameTotal (ProcessFrameStamp c width frame) width = c % 1024 ∧
    ∀ b y x b2 y2 x2 : Nat, b < 10 → y < 2 → x < 2 → b2 < 10 → y2 < 2 → x2 < 2 →
      b * 2 + (y * width + x) = b2 * 2 + (y2 * width + x2) → b = b2 ∧ y = y2 ∧ x = x2 := by
  obtain ⟨_, hl, hget⟩ := stamp_state c width frame hw hlen 10 (Nat.le_refl _)
  refine ⟨hl, ?_, ?_⟩
  · exact render_state c width (ProcessFrameStamp c width frame) hget 10 (Nat.le_refl _)
  · intro b y x b2 y2 x2 hb hy hx hb2 hy2 hx2 heq
    have hy01 : y = 0 ∨ y = 1 := by omega
    have hy201 : y2 = 0 ∨ y2 = 1 := by omega
    rcases hy01 with rfl | rfl <;> rcases hy201 with rfl | rfl <;>
      simp only [Nat.zero_mul, Nat.one_mul] at heq <;> omega

theorem watermark_round_trip_witness :
    20 ≤ 20 ∧ 20 + 20 ≤ (List.replicate 40 7).length ∧
    RenderVideoFrameTotal (ProcessFrameStamp 1317 20 (List.replicate 40 7)) 20 = 293 :=
  ⟨by decide, by decide,
   (watermark_round_trip 1317 20 (List.replicate 40 7) (by decide) (by decide)).2.1⟩

end mozilla
